import Mathlib

/-!
EAP-AKA server state machine (`rlm_eap_aka.c`).

A shallow embedding of the server side of EAP-AKA / EAP-AKA' as implemented in
`src/modules/rlm_eap/types/rlm_eap_aka/rlm_eap_aka.c`.

Modelling conventions

* The C session objects (`eap_session_t`, `eap_aka_session_t`, packets, pair
  lists) are records; every C function that mutates them through a pointer is
  a Lean function returning the C return value together with the new session.
* Bytes are natural numbers, buffers are lists of bytes, `memcmp (a, b, n)`
  compares the first `n` bytes of both buffers.
* The helpers of the SIM library that the file calls but does not define
  (encoder, decoder, HMAC, checkcode digest, vector provider, key derivation,
  identity classifier, dictionary queries) are fields of the record `ext`:
  every theorem holds for every behaviour of these helpers.
* Dictionary lookups of the attributes the module names do not fail and
  allocations succeed (`MEM`).
* `rad_assert (0)` and `fr_cond_assert` record the failed assertion in the
  field `assert_failed` and execution continues as in a build without
  assertions.
* Every call of `eap_aka_state_enter` logs the state it enters; the field
  `entered` is that log, oldest entry first.
-/

namespace EapAka

/-! ## Dictionary attributes and value pairs -/

abbrev uint8_t := Nat

/-- The attribute numbers the module names.  Their numeric values are declared
in the generated dictionary header; only the fact that they are distinct is
used.  `OTHER n` is any attribute number the module does not name. -/
inductive fr_attr_num where
  | FR_EAP_AKA_ROOT
  | FR_SIM_AMF
  | FR_EAP_AKA_SUBTYPE
  | FR_EAP_AKA_ENCR_DATA
  | FR_EAP_AKA_ANY_ID_REQ
  | FR_EAP_AKA_PERMANENT_ID_REQ
  | FR_EAP_AKA_FULLAUTH_ID_REQ
  | FR_EAP_AKA_RESULT_IND
  | FR_EAP_AKA_BIDDING
  | FR_EAP_AKA_KDF_INPUT
  | FR_EAP_AKA_KDF
  | FR_EAP_AKA_RAND
  | FR_EAP_AKA_AUTN
  | FR_EAP_AKA_MAC
  | FR_EAP_AKA_CHECKCODE
  | FR_EAP_AKA_NOTIFICATION
  | FR_EAP_AKA_IDENTITY
  | FR_EAP_AKA_RES
  | FR_EAP_AKA_CLIENT_ERROR_CODE
  | OTHER (n : Nat)
  deriving DecidableEq, Repr

/-- A node of the dictionary tree: a root, a child of a node, or an attribute
found by its name (`eap_add_reply` looks the MPPE key attributes up by name). -/
inductive fr_dict_attr_t where
  | root (id : Nat)
  | child (parent : fr_dict_attr_t) (attr : fr_attr_num)
  | named (name : String)
  deriving DecidableEq, Repr

/-- Lookup of a child attribute by number: `fr_dict_attr_child_by_num`. -/
def fr_dict_attr_child_by_num (parent : fr_dict_attr_t) (attr : fr_attr_num) : fr_dict_attr_t :=
  fr_dict_attr_t.child parent attr

/-- The root of the internal dictionary: `fr_dict_root (fr_dict_internal)`. -/
def fr_dict_internal_root : fr_dict_attr_t := fr_dict_attr_t.root 0

/-- The root of the EAP-AKA attributes, as `mod_load` sets it. -/
def dict_aka_root : fr_dict_attr_t :=
  fr_dict_attr_child_by_num fr_dict_internal_root fr_attr_num.FR_EAP_AKA_ROOT

/-- A value pair.  The C value is a union selected by the attribute's type;
the record keeps the three members the module reads or writes.
`vp_length` is the length of `vp_octets` (also read as `vp_strvalue`). -/
structure VALUE_PAIR where
  da : fr_dict_attr_t
  vp_uint16 : Nat
  vp_bool : Bool
  vp_octets : List uint8_t
  deriving DecidableEq, Repr

def VALUE_PAIR.vp_length (vp : VALUE_PAIR) : Nat := vp.vp_octets.length

/-- A freshly allocated pair has a zeroed value: `fr_pair_afrom_child_num`. -/
def fr_pair_afrom_child_num (parent : fr_dict_attr_t) (attr : fr_attr_num) : VALUE_PAIR :=
  { da := fr_dict_attr_child_by_num parent attr, vp_uint16 := 0, vp_bool := false, vp_octets := [] }

/-- First pair of the list with the given attribute: `fr_pair_find_by_child_num`
with `TAG_ANY`. -/
def fr_pair_find_by_child_num (head : List VALUE_PAIR) (parent : fr_dict_attr_t)
    (attr : fr_attr_num) : Option VALUE_PAIR :=
  head.find? (fun vp => decide (vp.da = fr_dict_attr_child_by_num parent attr))

/-- Replace the first pair with the same attribute, or append: `fr_pair_replace`. -/
def fr_pair_replace : List VALUE_PAIR → VALUE_PAIR → List VALUE_PAIR
  | [], r => [r]
  | i :: rest, r => if i.da = r.da then r :: rest else i :: fr_pair_replace rest r

/-- Append at the end of the list: `fr_cursor_append`. -/
def fr_cursor_append (head : List VALUE_PAIR) (vp : VALUE_PAIR) : List VALUE_PAIR :=
  head ++ [vp]

/-- Overwrite, in place, the first pair with the attribute of `vp`. -/
def fr_pair_update_first : List VALUE_PAIR → VALUE_PAIR → List VALUE_PAIR
  | [], _ => []
  | i :: rest, vp => if i.da = vp.da then vp :: rest else i :: fr_pair_update_first rest vp

/-- Delete every pair with the given attribute: `fr_pair_delete_by_num`. -/
def fr_pair_delete_by_num (head : List VALUE_PAIR) (da : fr_dict_attr_t) : List VALUE_PAIR :=
  head.filter (fun vp => !decide (vp.da = da))

/-- The C `memcmp (a, b, n) == 0` on the first `n` bytes of two buffers. -/
def memcmp_eq (a b : List uint8_t) (n : Nat) : Bool :=
  decide (a.take n = b.take n)

/-! ## Constants of the protocol headers -/

def SIM_MAC_DIGEST_SIZE : Nat := 16
def SIM_VECTOR_UMTS_RAND_SIZE : Nat := 16
def SIM_VECTOR_UMTS_AUTN_SIZE : Nat := 16
def EAP_TLS_MPPE_KEY_LEN : Nat := 32

/-- EAP codes (RFC 3748), the values of `eap_types.h`. -/
def FR_EAP_CODE_REQUEST : Nat := 1
def FR_EAP_CODE_RESPONSE : Nat := 2
def FR_EAP_CODE_SUCCESS : Nat := 3
def FR_EAP_CODE_FAILURE : Nat := 4

/-- EAP method numbers of EAP-AKA (RFC 4187) and EAP-AKA' (RFC 5448). -/
def FR_EAP_AKA : Nat := 23
def FR_EAP_AKA_PRIME : Nat := 50

/-- The key derivation function identifier of EAP-AKA' (RFC 5448). -/
def FR_EAP_AKA_KDF_VALUE_EAP_AKA_PRIME_WITH_CK_PRIME_IK_PRIME : Nat := 1

/-- EAP-AKA subtypes (RFC 4187 section 11), the enumerators of
`eap_aka_subtype_t`; the `switch` statements of `mod_process` only use that
they are distinct. -/
def EAP_AKA_CHALLENGE : Nat := 1
def EAP_AKA_AUTHENTICATION_REJECT : Nat := 2
def EAP_AKA_SYNCHRONIZATION_FAILURE : Nat := 4
def EAP_AKA_IDENTITY : Nat := 5
def EAP_AKA_NOTIFICATION : Nat := 12
def EAP_AKA_REAUTHENTICATION : Nat := 13
def EAP_AKA_CLIENT_ERROR : Nat := 14

/-- The value the dictionary gives the subtype attribute is the subtype. -/
def FR_EAP_AKA_SUBTYPE_VALUE_AKA_IDENTITY : Nat := EAP_AKA_IDENTITY
def FR_EAP_AKA_SUBTYPE_VALUE_AKA_CHALLENGE : Nat := EAP_AKA_CHALLENGE
def FR_EAP_AKA_SUBTYPE_VALUE_AKA_NOTIFICATION : Nat := EAP_AKA_NOTIFICATION

/-- Module return codes, in the order of the enumeration `rlm_rcode_t`. -/
inductive rlm_rcode_t where
  | RLM_MODULE_REJECT
  | RLM_MODULE_FAIL
  | RLM_MODULE_OK
  | RLM_MODULE_HANDLED
  | RLM_MODULE_INVALID
  | RLM_MODULE_USERLOCK
  | RLM_MODULE_NOTFOUND
  | RLM_MODULE_NOOP
  | RLM_MODULE_UPDATED
  deriving DecidableEq, Repr

/-- The integer an enumerator of `rlm_rcode_t` converts to when a function
declared `int` returns it: its position in the enumeration, never negative. -/
def rlm_rcode_t.toInt : rlm_rcode_t → Int
  | .RLM_MODULE_REJECT => 0
  | .RLM_MODULE_FAIL => 1
  | .RLM_MODULE_OK => 2
  | .RLM_MODULE_HANDLED => 3
  | .RLM_MODULE_INVALID => 4
  | .RLM_MODULE_USERLOCK => 5
  | .RLM_MODULE_NOTFOUND => 6
  | .RLM_MODULE_NOOP => 7
  | .RLM_MODULE_UPDATED => 8

/-- The states of the server: `eap_aka_server_state_t` (see `aka_state_table`). -/
inductive eap_aka_server_state_t where
  | EAP_AKA_SERVER_IDENTITY
  | EAP_AKA_SERVER_CHALLENGE
  | EAP_AKA_SERVER_SUCCESS_NOTIFICATION
  | EAP_AKA_SERVER_SUCCESS
  | EAP_AKA_SERVER_FAILURE_NOTIFICATION
  | EAP_AKA_SERVER_FAILURE
  deriving DecidableEq, Repr

/-- Identity request levels: `fr_sim_id_req_type_t`. -/
inductive fr_sim_id_req_type_t where
  | SIM_NO_ID_REQ
  | SIM_ANY_ID_REQ
  | SIM_FULLAUTH_ID_REQ
  | SIM_PERMANENT_ID_REQ
  deriving DecidableEq, Repr

/-- Identity formats: `fr_sim_id_type_t`. -/
inductive fr_sim_id_type_t where
  | SIM_ID_TYPE_UNKNOWN
  | SIM_ID_TYPE_PERMANENT
  | SIM_ID_TYPE_PSEUDONYM
  | SIM_ID_TYPE_FASTAUTH
  deriving DecidableEq, Repr

/-- Method hints carried by an identity: `fr_sim_method_hint_t`. -/
inductive fr_sim_method_hint_t where
  | SIM_METHOD_HINT_UNKNOWN
  | SIM_METHOD_HINT_SIM
  | SIM_METHOD_HINT_AKA
  | SIM_METHOD_HINT_AKA_PRIME
  deriving DecidableEq, Repr

/-- The digests the module selects: `EVP_sha1 ()` and `EVP_sha256 ()`. -/
inductive EVP_MD where
  | sha1
  | sha256
  deriving DecidableEq, Repr

/-! ## Session data -/

/-- An EAP packet: `eap_packet_t` (`type_data` has length `type.length`). -/
structure eap_packet_t where
  code : Nat
  id : Nat
  type_num : Nat
  type_data : List uint8_t
  deriving DecidableEq, Repr

/-- The UMTS authentication vector: `keys.umts.vector`. -/
structure fr_sim_vector_umts_t where
  rand : List uint8_t
  autn : List uint8_t
  ck : List uint8_t
  ik : List uint8_t
  xres : List uint8_t
  xres_len : Nat
  deriving DecidableEq, Repr

/-- Key material of a session: `fr_sim_keys_t`. -/
structure fr_sim_keys_t where
  identity : List uint8_t
  identity_len : Nat
  network : List uint8_t
  network_len : Nat
  vector : fr_sim_vector_umts_t
  k_encr : List uint8_t
  k_aut : List uint8_t
  k_aut_len : Nat
  msk : List uint8_t
  emsk : List uint8_t
  deriving DecidableEq, Repr

/-- The running digest of the checkcode: `EVP_MD_CTX`. -/
abbrev EVP_MD_CTX := List uint8_t

/-- The method's session: `eap_aka_session_t`. -/
structure eap_aka_session_t where
  state : eap_aka_server_state_t
  type : Nat
  kdf : Nat
  id_req : fr_sim_id_req_type_t
  keys : fr_sim_keys_t
  checkcode_md : Option EVP_MD
  mac_md : Option EVP_MD
  checkcode_state : Option EVP_MD_CTX
  checkcode : List uint8_t
  checkcode_len : Nat
  challenge_success : Bool
  allow_encrypted : Bool
  request_identity : Bool
  send_result_ind : Bool
  send_at_bidding : Bool
  aka_id : Nat
  deriving DecidableEq, Repr

/-- The EAP session with the parts of the request the module touches:
`eap_session_t`, `eap_session->this_round`, `eap_session->request`. -/
structure eap_session_t where
  eap_aka_session : eap_aka_session_t
  type : Nat
  identity : List uint8_t
  finished : Bool
  this_round_request : eap_packet_t
  this_round_response : eap_packet_t
  set_request_id : Bool
  request_packet_vps : List VALUE_PAIR
  request_reply_vps : List VALUE_PAIR
  request_control : List VALUE_PAIR
  entered : List eap_aka_server_state_t
  assert_failed : Bool
  deriving DecidableEq, Repr

/-- Module configuration: `rlm_eap_aka_t`. -/
structure rlm_eap_aka_t where
  network_id : List uint8_t
  request_identity : Bool
  protected_success : Bool
  deriving DecidableEq, Repr

/-- The helpers of the SIM library and of the dictionary that the module calls
and that are defined in other files, together with the dictionary values it
names.  A helper that writes through a pointer returns what it wrote. -/
structure ext where
  dict_sim_root : fr_dict_attr_t
  fr_dict_parent_common : fr_dict_attr_t → fr_dict_attr_t → Bool → Bool
  fr_sim_encode : List VALUE_PAIR → fr_sim_keys_t → Option EVP_MD → eap_packet_t → Int × List uint8_t
  fr_sim_decode : List uint8_t → fr_sim_keys_t → Int × List VALUE_PAIR
  fr_sim_crypto_sign_packet : eap_packet_t → Option EVP_MD → List uint8_t → Nat → Int × List uint8_t
  fr_sim_crypto_init_checkcode : Option EVP_MD → Int × Option EVP_MD_CTX
  fr_sim_crypto_update_checkcode : Option EVP_MD_CTX → eap_packet_t → Int × Option EVP_MD_CTX
  fr_sim_crypto_finalise_checkcode : List uint8_t → Option EVP_MD_CTX → Int × List uint8_t × Option EVP_MD_CTX
  fr_sim_vector_umts_from_attrs : List uint8_t → List VALUE_PAIR → fr_sim_keys_t → Int × fr_sim_keys_t
  fr_sim_crypto_kdf_0_umts : fr_sim_keys_t → fr_sim_keys_t
  fr_sim_crypto_kdf_1_umts : fr_sim_keys_t → fr_sim_keys_t
  fr_sim_id_type : List uint8_t → Int × fr_sim_id_type_t × fr_sim_method_hint_t
  fr_rand : Nat
  FR_EAP_AKA_NOTIFICATION_VALUE_GENERAL_FAILURE : Nat
  FR_EAP_AKA_NOTIFICATION_VALUE_SUCCESS : Nat
  FR_EAP_AKA_BIDDING_VALUE_PREFER_AKA_PRIME : Nat

/-! ## Composing outbound messages -/

/-- Encode the EAP-AKA attributes of the reply: `eap_aka_compose`. -/
def eap_aka_compose (x : ext) (s : eap_session_t) : Int × eap_session_t :=
  let eap_aka_session := s.eap_aka_session
  let encr := fr_dict_attr_child_by_num x.dict_sim_root fr_attr_num.FR_EAP_AKA_ENCR_DATA
  let is_aka := fun (vp : VALUE_PAIR) => x.fr_dict_parent_common dict_aka_root vp.da true
  let head := (s.request_reply_vps.filter is_aka).filter
    (fun vp => !(!eap_aka_session.allow_encrypted && x.fr_dict_parent_common encr vp.da true))
  let packet := { s.this_round_request with
    type_num := eap_aka_session.type, id := eap_aka_session.aka_id % 256 }
  let ret := x.fr_sim_encode head eap_aka_session.keys eap_aka_session.mac_md packet
  let s1 := { s with
    request_reply_vps := s.request_reply_vps.filter (fun vp => !is_aka vp)
    this_round_request := { packet with type_data := ret.2 }
    set_request_id := true
    eap_aka_session := { eap_aka_session with aka_id := eap_aka_session.aka_id + 1 } }
  if ret.1 < 0 then (-1, s1) else (0, s1)

/-- Send an identity request: `eap_aka_send_identity_request`. -/
def eap_aka_send_identity_request (x : ext) (s : eap_session_t) : Int × eap_session_t :=
  let s1 := { s with
    this_round_request := { s.this_round_request with code := FR_EAP_CODE_REQUEST }
    eap_aka_session := { s.eap_aka_session with allow_encrypted := false } }
  let subtype := { fr_pair_afrom_child_num dict_aka_root fr_attr_num.FR_EAP_AKA_SUBTYPE with
    vp_uint16 := FR_EAP_AKA_SUBTYPE_VALUE_AKA_IDENTITY }
  let vps1 := fr_cursor_append s1.request_reply_vps subtype
  let id_req_vp := fun (attr : fr_attr_num) =>
    { fr_pair_afrom_child_num dict_aka_root attr with vp_bool := true }
  -- the `default:` arm hits `rad_assert (0)` and leaves `vp` on the subtype pair
  let vps2 : List VALUE_PAIR := match s1.eap_aka_session.id_req with
    | .SIM_ANY_ID_REQ => fr_cursor_append vps1 (id_req_vp fr_attr_num.FR_EAP_AKA_ANY_ID_REQ)
    | .SIM_PERMANENT_ID_REQ =>
      fr_cursor_append vps1 (id_req_vp fr_attr_num.FR_EAP_AKA_PERMANENT_ID_REQ)
    | .SIM_FULLAUTH_ID_REQ =>
      fr_cursor_append vps1 (id_req_vp fr_attr_num.FR_EAP_AKA_FULLAUTH_ID_REQ)
    | .SIM_NO_ID_REQ =>
      fr_cursor_append (fr_cursor_append s1.request_reply_vps { subtype with vp_bool := true })
        { subtype with vp_bool := true }
  let s2 : eap_session_t := { s1 with
    request_reply_vps := vps2
    assert_failed :=
      s1.assert_failed || decide (s1.eap_aka_session.id_req = .SIM_NO_ID_REQ) }
  let c := eap_aka_compose x s2
  if c.1 < 0 then (-1, { c.2 with request_reply_vps := [] })
  else
    -- initialise the checkcode digest when there is none yet
    let i : Int × Option EVP_MD_CTX := match c.2.eap_aka_session.checkcode_state with
      | none => x.fr_sim_crypto_init_checkcode c.2.eap_aka_session.checkcode_md
      | some st => (0, some st)
    let s3 := { c.2 with eap_aka_session := { c.2.eap_aka_session with checkcode_state := i.2 } }
    if i.1 < 0 then (-1, { s3 with request_reply_vps := [] })
    else
      let u := x.fr_sim_crypto_update_checkcode s3.eap_aka_session.checkcode_state s3.this_round_request
      let s4 := { s3 with eap_aka_session := { s3.eap_aka_session with checkcode_state := u.2 } }
      if u.1 < 0 then (-1, { s4 with request_reply_vps := [] })
      else (0, s4)

/-- The attributes `eap_aka_send_challenge` puts in the reply before the
checkcode, in the order of the source: subtype, result indication, bidding,
KDF input and KDF (AKA' only), RAND, AUTN and the zeroed MAC. -/
def eap_aka_challenge_attrs (x : ext) (a : eap_aka_session_t) (to_peer : List VALUE_PAIR) :
    List VALUE_PAIR :=
  let hmac_zero : List uint8_t := List.replicate 16 0
  let to_peer0 := fr_pair_replace to_peer
    { fr_pair_afrom_child_num dict_aka_root fr_attr_num.FR_EAP_AKA_SUBTYPE with
      vp_uint16 := FR_EAP_AKA_SUBTYPE_VALUE_AKA_CHALLENGE }
  let to_peer1 :=
    if a.send_result_ind then
      fr_pair_replace to_peer0
        { fr_pair_afrom_child_num dict_aka_root fr_attr_num.FR_EAP_AKA_RESULT_IND with
          vp_bool := true }
    else to_peer0
  let to_peer2 :=
    if a.send_at_bidding then
      fr_pair_replace to_peer1
        { fr_pair_afrom_child_num dict_aka_root fr_attr_num.FR_EAP_AKA_BIDDING with
          vp_uint16 := x.FR_EAP_AKA_BIDDING_VALUE_PREFER_AKA_PRIME }
    else to_peer1
  let to_peer3 :=
    if a.type = FR_EAP_AKA_PRIME then
      fr_pair_replace
        (fr_pair_replace to_peer2
          { fr_pair_afrom_child_num dict_aka_root fr_attr_num.FR_EAP_AKA_KDF_INPUT with
            vp_octets := a.keys.network.take a.keys.network_len })
        { fr_pair_afrom_child_num dict_aka_root fr_attr_num.FR_EAP_AKA_KDF with
          vp_uint16 := a.kdf }
    else to_peer2
  let to_peer4 := fr_pair_replace to_peer3
    { fr_pair_afrom_child_num dict_aka_root fr_attr_num.FR_EAP_AKA_RAND with
      vp_octets := a.keys.vector.rand.take SIM_VECTOR_UMTS_RAND_SIZE }
  let to_peer5 := fr_pair_replace to_peer4
    { fr_pair_afrom_child_num dict_aka_root fr_attr_num.FR_EAP_AKA_AUTN with
      vp_octets := a.keys.vector.autn.take SIM_VECTOR_UMTS_AUTN_SIZE }
  fr_pair_replace to_peer5
    { fr_pair_afrom_child_num dict_aka_root fr_attr_num.FR_EAP_AKA_MAC with
      vp_octets := hmac_zero }

/-- Send the challenge: `eap_aka_send_challenge`.  A vector that cannot be
acquired makes the function return `RLM_MODULE_FAIL`; the other failures free
the reply and return `-1`. -/
def eap_aka_send_challenge (x : ext) (s : eap_session_t) : Int × eap_session_t :=
  let amf := fr_dict_attr_child_by_num fr_dict_internal_root fr_attr_num.FR_SIM_AMF
  -- toggle the AMF separation bit for AKA'
  let control1 : List VALUE_PAIR :=
    if s.eap_aka_session.type = FR_EAP_AKA_PRIME then
      fr_pair_replace s.request_control
        { fr_pair_afrom_child_num fr_dict_internal_root fr_attr_num.FR_SIM_AMF with
          vp_octets := [0x80, 0x00] }
    else s.request_control
  let v := x.fr_sim_vector_umts_from_attrs s.identity control1 s.eap_aka_session.keys
  if v.1 < 0 then
    (rlm_rcode_t.RLM_MODULE_FAIL.toInt,
      { s with
        request_control := control1
        eap_aka_session := { s.eap_aka_session with keys := v.2 } })
  else
    let control2 : List VALUE_PAIR :=
      if s.eap_aka_session.type = FR_EAP_AKA_PRIME then fr_pair_delete_by_num control1 amf
      else control1
    let keys :=
      if s.eap_aka_session.kdf = FR_EAP_AKA_KDF_VALUE_EAP_AKA_PRIME_WITH_CK_PRIME_IK_PRIME then
        x.fr_sim_crypto_kdf_1_umts v.2
      else x.fr_sim_crypto_kdf_0_umts v.2
    let a : eap_aka_session_t := { s.eap_aka_session with keys := keys }
    let s4 : eap_session_t := { s with
      request_control := control2
      eap_aka_session := a
      this_round_request := { s.this_round_request with code := FR_EAP_CODE_REQUEST } }
    if a.type = FR_EAP_AKA_PRIME ∧ a.keys.network_len = 0 then
      (-1, { s4 with request_reply_vps := [] })
    else
      let to_peer6 := eap_aka_challenge_attrs x a s.request_reply_vps
      match a.checkcode_state with
      | some st =>
        let f := x.fr_sim_crypto_finalise_checkcode a.checkcode (some st)
        let a1 : eap_aka_session_t := { a with checkcode := f.2.1, checkcode_state := f.2.2 }
        if f.1 < 0 then
          (-1, { s4 with eap_aka_session := a1, request_reply_vps := [] })
        else
          let a2 : eap_aka_session_t :=
            { a1 with checkcode_len := f.1.toNat, allow_encrypted := true }
          let to_peer7 := fr_pair_replace to_peer6
            { fr_pair_afrom_child_num dict_aka_root fr_attr_num.FR_EAP_AKA_CHECKCODE with
              vp_octets := a2.checkcode.take f.1.toNat }
          let c := eap_aka_compose x { s4 with eap_aka_session := a2, request_reply_vps := to_peer7 }
          if c.1 < 0 then (-1, { c.2 with request_reply_vps := [] }) else (0, c.2)
      | none =>
        let a2 : eap_aka_session_t := { a with checkcode_len := 0, allow_encrypted := true }
        let to_peer7 := fr_pair_replace to_peer6
          (fr_pair_afrom_child_num dict_aka_root fr_attr_num.FR_EAP_AKA_CHECKCODE)
        let c := eap_aka_compose x { s4 with eap_aka_session := a2, request_reply_vps := to_peer7 }
        if c.1 < 0 then (-1, { c.2 with request_reply_vps := [] }) else (0, c.2)

/-- Send a success notification: `eap_aka_send_eap_success_notification`. -/
def eap_aka_send_eap_success_notification (x : ext) (s : eap_session_t) : Int × eap_session_t :=
  let s1 := { s with this_round_request := { s.this_round_request with code := FR_EAP_CODE_REQUEST } }
  if ¬ s1.eap_aka_session.challenge_success then (-1, { s1 with assert_failed := true })
  else
    let vps1 := fr_cursor_append s1.request_reply_vps
      { fr_pair_afrom_child_num dict_aka_root fr_attr_num.FR_EAP_AKA_SUBTYPE with
        vp_uint16 := FR_EAP_AKA_SUBTYPE_VALUE_AKA_NOTIFICATION }
    let vps2 := fr_cursor_append vps1
      { fr_pair_afrom_child_num dict_aka_root fr_attr_num.FR_EAP_AKA_NOTIFICATION with
        vp_uint16 := x.FR_EAP_AKA_NOTIFICATION_VALUE_SUCCESS }
    let vps3 := fr_pair_replace vps2
      (fr_pair_afrom_child_num dict_aka_root fr_attr_num.FR_EAP_AKA_MAC)
    let c := eap_aka_compose x { s1 with request_reply_vps := vps3 }
    if c.1 < 0 then (-1, { c.2 with request_reply_vps := [] }) else (0, c.2)

/-- Add a reply attribute found by name: `eap_add_reply`. -/
def eap_add_reply (s : eap_session_t) (name : String) (value : List uint8_t) (len : Nat) :
    eap_session_t :=
  { s with
    request_reply_vps := s.request_reply_vps ++
      [{ da := fr_dict_attr_t.named name, vp_uint16 := 0, vp_bool := false,
         vp_octets := value.take len }] }

/-- Send EAP-Success with the MPPE keys: `eap_aka_send_eap_success`. -/
def eap_aka_send_eap_success (s : eap_session_t) : Int × eap_session_t :=
  let s1 := { s with
    this_round_request := { s.this_round_request with code := FR_EAP_CODE_SUCCESS }
    finished := true }
  let p := s1.eap_aka_session.keys.msk
  let s2 := eap_add_reply s1 "MS-MPPE-Recv-Key" p EAP_TLS_MPPE_KEY_LEN
  let s3 := eap_add_reply s2 "MS-MPPE-Send-Key" (p.drop EAP_TLS_MPPE_KEY_LEN) EAP_TLS_MPPE_KEY_LEN
  (0, s3)

/-- Send a failure notification: `eap_aka_send_eap_failure_notification`. -/
def eap_aka_send_eap_failure_notification (x : ext) (s : eap_session_t) : Int × eap_session_t :=
  let found := fr_pair_find_by_child_num s.request_reply_vps x.dict_sim_root
    fr_attr_num.FR_EAP_AKA_NOTIFICATION
  let vp0 : VALUE_PAIR := match found with
    | some vp => vp
    | none => { fr_pair_afrom_child_num x.dict_sim_root fr_attr_num.FR_EAP_AKA_NOTIFICATION with
        vp_uint16 := x.FR_EAP_AKA_NOTIFICATION_VALUE_GENERAL_FAILURE }
  -- phase bit, then the success bit, on a 16 bit value
  let v1 := if s.eap_aka_session.challenge_success then vp0.vp_uint16 &&& 0xBFFF
    else (vp0.vp_uint16 ||| 0x4000) % 65536
  let vp1 := { vp0 with vp_uint16 := v1 &&& 0x7FFF }
  let vps1 := match found with
    | some _ => fr_pair_update_first s.request_reply_vps vp1
    | none => fr_cursor_append s.request_reply_vps vp1
  let vps2 := fr_cursor_append vps1
    { fr_pair_afrom_child_num dict_aka_root fr_attr_num.FR_EAP_AKA_SUBTYPE with
      vp_uint16 := FR_EAP_AKA_SUBTYPE_VALUE_AKA_NOTIFICATION }
  let vps3 :=
    if s.eap_aka_session.challenge_success then
      fr_pair_replace vps2 (fr_pair_afrom_child_num x.dict_sim_root fr_attr_num.FR_EAP_AKA_MAC)
    else vps2
  let s1 := { s with
    this_round_request := { s.this_round_request with code := FR_EAP_CODE_REQUEST }
    request_reply_vps := vps3 }
  let c := eap_aka_compose x s1
  if c.1 < 0 then (-1, { c.2 with request_reply_vps := [] }) else (0, c.2)

/-- The notification code `eap_aka_send_eap_failure_notification` writes
from the code `v` it found or created: the phase bit `0x4000` is cleared
after a successful challenge and set before, then the success bit `0x8000`
is cleared, on a 16 bit value. -/
def eap_aka_failure_notification_code (challenge_success : Bool) (v : Nat) : Nat :=
  (if challenge_success then v &&& 0xBFFF else (v ||| 0x4000) % 65536) &&& 0x7FFF

/-- The reply `eap_aka_send_eap_failure_notification` hands to
`eap_aka_compose`: the notification pair found or created with its code
rewritten, the subtype, and the zeroed MAC after a successful challenge. -/
def eap_aka_failure_notification_attrs (x : ext) (s : eap_session_t) : List VALUE_PAIR :=
  let found := fr_pair_find_by_child_num s.request_reply_vps x.dict_sim_root
    fr_attr_num.FR_EAP_AKA_NOTIFICATION
  let vp0 : VALUE_PAIR := match found with
    | some vp => vp
    | none => { fr_pair_afrom_child_num x.dict_sim_root fr_attr_num.FR_EAP_AKA_NOTIFICATION with
        vp_uint16 := x.FR_EAP_AKA_NOTIFICATION_VALUE_GENERAL_FAILURE }
  let vp1 := { vp0 with
    vp_uint16 :=
      eap_aka_failure_notification_code s.eap_aka_session.challenge_success vp0.vp_uint16 }
  let vps1 := match found with
    | some _ => fr_pair_update_first s.request_reply_vps vp1
    | none => fr_cursor_append s.request_reply_vps vp1
  let vps2 := fr_cursor_append vps1
    { fr_pair_afrom_child_num dict_aka_root fr_attr_num.FR_EAP_AKA_SUBTYPE with
      vp_uint16 := FR_EAP_AKA_SUBTYPE_VALUE_AKA_NOTIFICATION }
  if s.eap_aka_session.challenge_success then
    fr_pair_replace vps2 (fr_pair_afrom_child_num x.dict_sim_root fr_attr_num.FR_EAP_AKA_MAC)
  else vps2

/-- The session `eap_aka_send_eap_failure_notification` hands to
`eap_aka_compose`: the code of the request is Request and the reply is
`eap_aka_failure_notification_attrs`. -/
def eap_aka_failure_notification_request (x : ext) (s : eap_session_t) : eap_session_t :=
  { s with
    this_round_request := { s.this_round_request with code := FR_EAP_CODE_REQUEST }
    request_reply_vps := eap_aka_failure_notification_attrs x s }

/-- Send EAP-Failure: `eap_aka_send_eap_failure`. -/
def eap_aka_send_eap_failure (s : eap_session_t) : Int × eap_session_t :=
  (0, { s with
    this_round_request := { s.this_round_request with code := FR_EAP_CODE_FAILURE }
    finished := true })

/-! ## The state machine -/

/-- Distance of a state from the end of the fallback chain
target, failure notification, failure. -/
def fallback_rank : eap_aka_server_state_t → Nat
  | .EAP_AKA_SERVER_FAILURE => 0
  | .EAP_AKA_SERVER_FAILURE_NOTIFICATION => 1
  | _ => 2

/-- Record the transition: the first statement of `eap_aka_state_enter`
(the state is assigned when it changes and the entered state is logged). -/
def state_log (s : eap_session_t) (new_state : eap_aka_server_state_t) : eap_session_t :=
  { s with
    entered := s.entered ++ [new_state]
    eap_aka_session := { s.eap_aka_session with state := new_state } }

/-- Run the server state machine: `eap_aka_state_enter`. -/
def eap_aka_state_enter (x : ext) (s : eap_session_t) : eap_aka_server_state_t → eap_session_t
  | .EAP_AKA_SERVER_IDENTITY =>
    let r := eap_aka_send_identity_request x (state_log s .EAP_AKA_SERVER_IDENTITY)
    if r.1 < 0 then eap_aka_state_enter x r.2 .EAP_AKA_SERVER_FAILURE_NOTIFICATION else r.2
  | .EAP_AKA_SERVER_CHALLENGE =>
    let r := eap_aka_send_challenge x (state_log s .EAP_AKA_SERVER_CHALLENGE)
    if r.1 < 0 then eap_aka_state_enter x r.2 .EAP_AKA_SERVER_FAILURE_NOTIFICATION else r.2
  | .EAP_AKA_SERVER_SUCCESS_NOTIFICATION =>
    let r := eap_aka_send_eap_success_notification x (state_log s .EAP_AKA_SERVER_SUCCESS_NOTIFICATION)
    if r.1 < 0 then eap_aka_state_enter x r.2 .EAP_AKA_SERVER_FAILURE_NOTIFICATION else r.2
  | .EAP_AKA_SERVER_SUCCESS =>
    let r := eap_aka_send_eap_success (state_log s .EAP_AKA_SERVER_SUCCESS)
    if r.1 < 0 then eap_aka_state_enter x r.2 .EAP_AKA_SERVER_FAILURE_NOTIFICATION else r.2
  | .EAP_AKA_SERVER_FAILURE_NOTIFICATION =>
    let r := eap_aka_send_eap_failure_notification x (state_log s .EAP_AKA_SERVER_FAILURE_NOTIFICATION)
    if r.1 < 0 then eap_aka_state_enter x r.2 .EAP_AKA_SERVER_FAILURE else r.2
  | .EAP_AKA_SERVER_FAILURE =>
    (eap_aka_send_eap_failure (state_log s .EAP_AKA_SERVER_FAILURE)).2
termination_by new_state => fallback_rank new_state
decreasing_by all_goals simp [fallback_rank]

/-! ## Processing the peer's responses -/

/-- Process an EAP-AKA identity response: `process_eap_aka_identity`. -/
def process_eap_aka_identity (x : ext) (s : eap_session_t) (vps : List VALUE_PAIR) :
    Int × eap_session_t :=
  let u := x.fr_sim_crypto_update_checkcode s.eap_aka_session.checkcode_state s.this_round_response
  let s1 : eap_session_t := { s with eap_aka_session := { s.eap_aka_session with checkcode_state := u.2 } }
  if u.1 < 0 then (-1, s1)
  else
    let keys : fr_sim_keys_t :=
      match fr_pair_find_by_child_num vps dict_aka_root fr_attr_num.FR_EAP_AKA_IDENTITY with
      | some id =>
        { s1.eap_aka_session.keys with identity_len := id.vp_length, identity := id.vp_octets }
      | none => s1.eap_aka_session.keys
    let s2 : eap_session_t := { s1 with eap_aka_session := { s1.eap_aka_session with keys := keys } }
    match s2.eap_aka_session.id_req with
    | .SIM_ANY_ID_REQ =>
      (0, eap_aka_state_enter x
        { s2 with eap_aka_session := { s2.eap_aka_session with id_req := .SIM_FULLAUTH_ID_REQ } }
        .EAP_AKA_SERVER_IDENTITY)
    | .SIM_FULLAUTH_ID_REQ =>
      (0, eap_aka_state_enter x
        { s2 with eap_aka_session := { s2.eap_aka_session with id_req := .SIM_PERMANENT_ID_REQ } }
        .EAP_AKA_SERVER_IDENTITY)
    | .SIM_PERMANENT_ID_REQ => (0, eap_aka_state_enter x s2 .EAP_AKA_SERVER_CHALLENGE)
    | .SIM_NO_ID_REQ => (-1, { s2 with assert_failed := true })

/-- Process an EAP-AKA challenge response, verifying MAC, checkcode and RES:
`process_eap_aka_challenge`. -/
def process_eap_aka_challenge (x : ext) (s : eap_session_t) (vps : List VALUE_PAIR) :
    Int × eap_session_t :=
  let eap_aka_session := s.eap_aka_session
  match fr_pair_find_by_child_num vps dict_aka_root fr_attr_num.FR_EAP_AKA_MAC with
  | none => (-1, s)
  | some mac =>
    if mac.vp_length ≠ SIM_MAC_DIGEST_SIZE then (-1, s)
    else
      let sign := x.fr_sim_crypto_sign_packet s.this_round_response eap_aka_session.mac_md
        eap_aka_session.keys.k_aut eap_aka_session.keys.k_aut_len
      let slen := sign.1
      let calc_mac := sign.2
      if slen < 0 then (-1, s)
      else if slen = 0 then (-1, s)
      else if ¬ memcmp_eq mac.vp_octets calc_mac SIM_MAC_DIGEST_SIZE then (-1, s)
      else
        -- the checkcode is validated only when the peer sent one
        let checkcode_rejected : Bool :=
          match fr_pair_find_by_child_num vps dict_aka_root fr_attr_num.FR_EAP_AKA_CHECKCODE with
          | some checkcode =>
            if checkcode.vp_length ≠ eap_aka_session.checkcode_len then true
            else if memcmp_eq checkcode.vp_octets eap_aka_session.checkcode
                eap_aka_session.checkcode_len then false
            else true
          | none => false
        if checkcode_rejected then (-1, s)
        else
          match fr_pair_find_by_child_num vps dict_aka_root fr_attr_num.FR_EAP_AKA_RES with
          | none => (-1, s)
          | some vp =>
            if vp.vp_length ≠ eap_aka_session.keys.vector.xres_len then (-1, s)
            else if ¬ memcmp_eq vp.vp_octets eap_aka_session.keys.vector.xres vp.vp_length then
              (-1, s)
            else
              let s1 : eap_session_t :=
                { s with eap_aka_session := { eap_aka_session with challenge_success := true } }
              if (fr_pair_find_by_child_num vps dict_aka_root
                  fr_attr_num.FR_EAP_AKA_RESULT_IND).isSome then
                (0, eap_aka_state_enter x s1 .EAP_AKA_SERVER_SUCCESS_NOTIFICATION)
              else (0, eap_aka_state_enter x s1 .EAP_AKA_SERVER_SUCCESS)

/-- The label `notification:` of `mod_process`, shared by the states Identity
and Challenge.  The pair is allocated, not looked up, so its value is zero. -/
def mod_process_notification (x : ext) (s : eap_session_t) : rlm_rcode_t × eap_session_t :=
  let vp := fr_pair_afrom_child_num dict_aka_root fr_attr_num.FR_EAP_AKA_NOTIFICATION
  if vp.vp_uint16 &&& 0x8000 = 0 then
    (.RLM_MODULE_REJECT, eap_aka_state_enter x s .EAP_AKA_SERVER_FAILURE)
  else (.RLM_MODULE_HANDLED, eap_aka_state_enter x s s.eap_aka_session.state)

/-- The label `unexpected_subtype:` of `mod_process`. -/
def mod_process_unexpected_subtype (x : ext) (s : eap_session_t) : rlm_rcode_t × eap_session_t :=
  (.RLM_MODULE_HANDLED, eap_aka_state_enter x s .EAP_AKA_SERVER_FAILURE_NOTIFICATION)

/-- The session after `fr_sim_decode` appended the decoded pairs to the
request packet. -/
def mod_process_decoded (x : ext) (s : eap_session_t) : eap_session_t :=
  { s with
    request_packet_vps := s.request_packet_vps ++
      (x.fr_sim_decode s.this_round_response.type_data s.eap_aka_session.keys).2 }

/-- The list `vps` that `mod_process` searches: the head of the request
packet's pairs, read before decoding.  When the packet had no pairs the head
is `NULL` and stays so. -/
def mod_process_vps (x : ext) (s : eap_session_t) : List VALUE_PAIR :=
  if s.request_packet_vps = [] then [] else (mod_process_decoded x s).request_packet_vps

/-- Process the peer's response and advance the state machine: `mod_process`. -/
def mod_process (x : ext) (s : eap_session_t) : rlm_rcode_t × eap_session_t :=
  if s.eap_aka_session.state = .EAP_AKA_SERVER_SUCCESS_NOTIFICATION then
    (.RLM_MODULE_HANDLED, eap_aka_state_enter x s .EAP_AKA_SERVER_SUCCESS)
  else
    let ret := (x.fr_sim_decode s.this_round_response.type_data s.eap_aka_session.keys).1
    let vps := mod_process_vps x s
    let s1 := mod_process_decoded x s
    if ret < 0 then
      (.RLM_MODULE_HANDLED, eap_aka_state_enter x s1 .EAP_AKA_SERVER_FAILURE_NOTIFICATION)
    else
      match fr_pair_find_by_child_num vps dict_aka_root fr_attr_num.FR_EAP_AKA_SUBTYPE with
      | none => (.RLM_MODULE_HANDLED, eap_aka_state_enter x s1 .EAP_AKA_SERVER_FAILURE_NOTIFICATION)
      | some subtype_vp =>
        let subtype := subtype_vp.vp_uint16
        match s1.eap_aka_session.state with
        | .EAP_AKA_SERVER_IDENTITY =>
          if subtype = EAP_AKA_IDENTITY then
            let r := process_eap_aka_identity x s1 vps
            if r.1 = 0 then (.RLM_MODULE_HANDLED, r.2)
            else (.RLM_MODULE_HANDLED,
              eap_aka_state_enter x r.2 .EAP_AKA_SERVER_FAILURE_NOTIFICATION)
          else if subtype = EAP_AKA_CLIENT_ERROR then
            (.RLM_MODULE_REJECT, eap_aka_state_enter x s1 .EAP_AKA_SERVER_FAILURE)
          else if subtype = EAP_AKA_NOTIFICATION then mod_process_notification x s1
          else mod_process_unexpected_subtype x s1
        | .EAP_AKA_SERVER_CHALLENGE =>
          if subtype = EAP_AKA_CHALLENGE then
            let r := process_eap_aka_challenge x s1 vps
            if r.1 = 0 then (.RLM_MODULE_HANDLED, r.2)
            else (.RLM_MODULE_HANDLED,
              eap_aka_state_enter x r.2 .EAP_AKA_SERVER_FAILURE_NOTIFICATION)
          else if subtype = EAP_AKA_SYNCHRONIZATION_FAILURE then
            (.RLM_MODULE_HANDLED, eap_aka_state_enter x s1 .EAP_AKA_SERVER_FAILURE_NOTIFICATION)
          else if subtype = EAP_AKA_CLIENT_ERROR then
            (.RLM_MODULE_REJECT, eap_aka_state_enter x s1 .EAP_AKA_SERVER_FAILURE)
          else if subtype = EAP_AKA_AUTHENTICATION_REJECT then
            (.RLM_MODULE_REJECT, eap_aka_state_enter x s1 .EAP_AKA_SERVER_FAILURE)
          else if subtype = EAP_AKA_NOTIFICATION then mod_process_notification x s1
          else mod_process_unexpected_subtype x s1
        | .EAP_AKA_SERVER_FAILURE_NOTIFICATION =>
          if subtype = EAP_AKA_NOTIFICATION then
            (.RLM_MODULE_REJECT, eap_aka_state_enter x s1 .EAP_AKA_SERVER_FAILURE)
          else mod_process_unexpected_subtype x s1
        | _ =>
          (.RLM_MODULE_HANDLED,
            eap_aka_state_enter x { s1 with assert_failed := true }
              .EAP_AKA_SERVER_FAILURE_NOTIFICATION)

/-- The zeroed session `talloc_zero` returns. -/
def eap_aka_session_zero : eap_aka_session_t :=
  { state := .EAP_AKA_SERVER_IDENTITY, type := 0, kdf := 0, id_req := .SIM_NO_ID_REQ,
    keys := { identity := [], identity_len := 0, network := [], network_len := 0,
              vector := { rand := [], autn := [], ck := [], ik := [], xres := [], xres_len := 0 },
              k_encr := [], k_aut := [], k_aut_len := 0, msk := [], emsk := [] },
    checkcode_md := none, mac_md := none, checkcode_state := none, checkcode := [],
    checkcode_len := 0, challenge_success := false, allow_encrypted := false,
    request_identity := false, send_result_ind := false, send_at_bidding := false, aka_id := 0 }

/-- Start the state machine of a new session: `mod_session_init`. -/
def mod_session_init (x : ext) (inst : rlm_eap_aka_t) (s : eap_session_t) :
    rlm_rcode_t × eap_session_t :=
  let a0 : eap_aka_session_t := { eap_aka_session_zero with
    request_identity := inst.request_identity
    send_result_ind := inst.protected_success
    id_req := .SIM_NO_ID_REQ
    aka_id := x.fr_rand % 256 }
  let type := (x.fr_sim_id_type s.identity).2.1
  let a1 : eap_aka_session_t :=
    if s.type = FR_EAP_AKA then
      { a0 with
        type := FR_EAP_AKA
        kdf := 0
        checkcode_md := some EVP_MD.sha1
        mac_md := some EVP_MD.sha1
        send_at_bidding := true }
    else
      { a0 with
        type := FR_EAP_AKA_PRIME
        kdf := FR_EAP_AKA_KDF_VALUE_EAP_AKA_PRIME_WITH_CK_PRIME_IK_PRIME
        checkcode_md := some EVP_MD.sha256
        mac_md := some EVP_MD.sha256
        keys := { a0.keys with network := inst.network_id, network_len := inst.network_id.length } }
  let s1 : eap_session_t := { s with eap_aka_session := a1 }
  let request_id : rlm_rcode_t × eap_session_t :=
    (.RLM_MODULE_OK, eap_aka_state_enter x
      { s1 with eap_aka_session := { a1 with id_req := .SIM_ANY_ID_REQ } }
      .EAP_AKA_SERVER_IDENTITY)
  if inst.request_identity then request_id
  else
    match type with
    | .SIM_ID_TYPE_UNKNOWN => request_id
    | _ =>
      (.RLM_MODULE_OK, eap_aka_state_enter x
        { s1 with
          eap_aka_session := { a1 with
            keys := { a1.keys with
              identity_len := s.identity.length
              identity := s.identity.take s.identity.length } } }
        .EAP_AKA_SERVER_CHALLENGE)

/-! ## Vocabulary of the statements -/

/-- The part of a session no composer changes: the authentication flag, the
state, the log of entered states and the finished flag. -/
def core (s : eap_session_t) : Bool × eap_aka_server_state_t × List eap_aka_server_state_t × Bool :=
  (s.eap_aka_session.challenge_success, s.eap_aka_session.state, s.entered, s.finished)

/-- The MAC check of `process_eap_aka_challenge` passes: an EAP-AKA-MAC of
exactly `SIM_MAC_DIGEST_SIZE` bytes is present, the MAC of the response
computed with `k_aut` has a positive length, and the bytes are equal. -/
def mac_valid (x : ext) (s : eap_session_t) (vps : List VALUE_PAIR) : Prop :=
  ∃ mac, fr_pair_find_by_child_num vps dict_aka_root fr_attr_num.FR_EAP_AKA_MAC = some mac ∧
    mac.vp_length = SIM_MAC_DIGEST_SIZE ∧
    0 < (x.fr_sim_crypto_sign_packet s.this_round_response s.eap_aka_session.mac_md
          s.eap_aka_session.keys.k_aut s.eap_aka_session.keys.k_aut_len).1 ∧
    mac.vp_octets = (x.fr_sim_crypto_sign_packet s.this_round_response s.eap_aka_session.mac_md
          s.eap_aka_session.keys.k_aut s.eap_aka_session.keys.k_aut_len).2.take SIM_MAC_DIGEST_SIZE

/-- The checkcode check passes: a checkcode the peer sent has the length and
the bytes of the session's checkcode; an absent checkcode passes. -/
def checkcode_valid (s : eap_session_t) (vps : List VALUE_PAIR) : Prop :=
  ∀ checkcode,
    fr_pair_find_by_child_num vps dict_aka_root fr_attr_num.FR_EAP_AKA_CHECKCODE = some checkcode →
    checkcode.vp_length = s.eap_aka_session.checkcode_len ∧
    checkcode.vp_octets = s.eap_aka_session.checkcode.take s.eap_aka_session.checkcode_len

/-- The RES check passes: an EAP-AKA-RES is present, has the length of XRES
and its bytes. -/
def res_valid (s : eap_session_t) (vps : List VALUE_PAIR) : Prop :=
  ∃ vp, fr_pair_find_by_child_num vps dict_aka_root fr_attr_num.FR_EAP_AKA_RES = some vp ∧
    vp.vp_length = s.eap_aka_session.keys.vector.xres_len ∧
    vp.vp_octets = s.eap_aka_session.keys.vector.xres.take s.eap_aka_session.keys.vector.xres_len

/-- The state `process_eap_aka_challenge` enters after a valid response. -/
def challenge_next_state (vps : List VALUE_PAIR) : eap_aka_server_state_t :=
  if (fr_pair_find_by_child_num vps dict_aka_root fr_attr_num.FR_EAP_AKA_RESULT_IND).isSome then
    .EAP_AKA_SERVER_SUCCESS_NOTIFICATION
  else .EAP_AKA_SERVER_SUCCESS

/-- The settings of a session that no state entry changes: the identity
request level, the variant, the KDF, the two digests and the three flags
taken from the configuration. -/
def config (s : eap_session_t) :
    fr_sim_id_req_type_t × Nat × Nat × Option EVP_MD × Option EVP_MD × Bool × Bool × Bool :=
  (s.eap_aka_session.id_req, s.eap_aka_session.type, s.eap_aka_session.kdf,
    s.eap_aka_session.checkcode_md, s.eap_aka_session.mac_md,
    s.eap_aka_session.request_identity, s.eap_aka_session.send_result_ind,
    s.eap_aka_session.send_at_bidding)

/-- Position of an identity request level on the ladder. -/
def ladder_rank : fr_sim_id_req_type_t → Nat
  | .SIM_NO_ID_REQ => 0
  | .SIM_ANY_ID_REQ => 1
  | .SIM_FULLAUTH_ID_REQ => 2
  | .SIM_PERMANENT_ID_REQ => 3

/-- The round stored in the session is an identity round the negotiator
handles: the session is in state Identity, the response decodes, its subtype
is Identity and it is digested into the checkcode without error. -/
def identity_round (x : ext) (s : eap_session_t) : Prop :=
  s.eap_aka_session.state = .EAP_AKA_SERVER_IDENTITY ∧
  ¬ (x.fr_sim_decode s.this_round_response.type_data s.eap_aka_session.keys).1 < 0 ∧
  (∃ subtype_vp, fr_pair_find_by_child_num (mod_process_vps x s) dict_aka_root
      fr_attr_num.FR_EAP_AKA_SUBTYPE = some subtype_vp ∧
    subtype_vp.vp_uint16 = EAP_AKA_IDENTITY) ∧
  ¬ (x.fr_sim_crypto_update_checkcode s.eap_aka_session.checkcode_state
      s.this_round_response).1 < 0

/-- Flip bit `k` of byte `i` of a buffer. -/
def flip_bit (bs : List uint8_t) (i k : Nat) : List uint8_t :=
  bs.set i (bs.getD i 0 ^^^ 2 ^ k)

/-- One round of the exchange as the EAP layer presents it to the method: the
peer's response and the pair lists of the request it arrived in. -/
structure round where
  response : eap_packet_t
  packet_vps : List VALUE_PAIR
  reply_vps : List VALUE_PAIR
  control : List VALUE_PAIR

/-- The EAP layer stores the round in the session before calling `process`. -/
def deliver (s : eap_session_t) (m : round) : eap_session_t :=
  { s with
    this_round_response := m.response
    request_packet_vps := m.packet_vps
    request_reply_vps := m.reply_vps
    request_control := m.control }

/-- The session after `mod_process` handled the given rounds in order. -/
def run (x : ext) (s : eap_session_t) : List round → eap_session_t
  | [] => s
  | m :: ms => run x (mod_process x (deliver s m)).2 ms

/-- The list `eap_aka_compose` hands to the encoder: the loop over the reply
takes each pair below `dict_aka_root`, frees it when encrypted attributes are
not allowed and it is below `encr`, and appends it to `to_encode`
otherwise. -/
def eap_aka_compose_head (x : ext) (s : eap_session_t) : List VALUE_PAIR :=
  let encr := fr_dict_attr_child_by_num x.dict_sim_root fr_attr_num.FR_EAP_AKA_ENCR_DATA
  (s.request_reply_vps.filter (fun vp => x.fr_dict_parent_common dict_aka_root vp.da true)).filter
    (fun vp =>
      !(!s.eap_aka_session.allow_encrypted && x.fr_dict_parent_common encr vp.da true))

/-- The module data after `process_eap_aka_challenge` accepted a response:
`challenge_success` is set, nothing else changes. -/
def challenge_accepted (a : eap_aka_session_t) : eap_aka_session_t :=
  { a with challenge_success := true }

/-- The vector `eap_aka_send_challenge` acquires for `s`: the result of
`fr_sim_vector_umts_from_attrs` on the control list, in which an AKA'
session has put the AMF pair with the separation bit. -/
def eap_aka_challenge_vector (x : ext) (s : eap_session_t) : Int × fr_sim_keys_t :=
  x.fr_sim_vector_umts_from_attrs s.identity
    (if s.eap_aka_session.type = FR_EAP_AKA_PRIME then
      fr_pair_replace s.request_control
        { fr_pair_afrom_child_num fr_dict_internal_root fr_attr_num.FR_SIM_AMF with
          vp_octets := [0x80, 0x00] }
    else s.request_control)
    s.eap_aka_session.keys

/-- The session `eap_aka_send_identity_request` hands to `eap_aka_compose`:
the code of the request is Request, encrypted attributes are not allowed, and
the subtype and the identity request attribute of the level are appended to
the reply. -/
def eap_aka_identity_request_session (s : eap_session_t) : eap_session_t :=
  let subtype := { fr_pair_afrom_child_num dict_aka_root fr_attr_num.FR_EAP_AKA_SUBTYPE with
    vp_uint16 := FR_EAP_AKA_SUBTYPE_VALUE_AKA_IDENTITY }
  let vps1 := fr_cursor_append s.request_reply_vps subtype
  let id_req_vp := fun (attr : fr_attr_num) =>
    { fr_pair_afrom_child_num dict_aka_root attr with vp_bool := true }
  { s with
    this_round_request := { s.this_round_request with code := FR_EAP_CODE_REQUEST }
    eap_aka_session := { s.eap_aka_session with allow_encrypted := false }
    request_reply_vps :=
      match s.eap_aka_session.id_req with
      | .SIM_ANY_ID_REQ => fr_cursor_append vps1 (id_req_vp fr_attr_num.FR_EAP_AKA_ANY_ID_REQ)
      | .SIM_PERMANENT_ID_REQ =>
        fr_cursor_append vps1 (id_req_vp fr_attr_num.FR_EAP_AKA_PERMANENT_ID_REQ)
      | .SIM_FULLAUTH_ID_REQ =>
        fr_cursor_append vps1 (id_req_vp fr_attr_num.FR_EAP_AKA_FULLAUTH_ID_REQ)
      | .SIM_NO_ID_REQ =>
        fr_cursor_append (fr_cursor_append s.request_reply_vps { subtype with vp_bool := true })
          { subtype with vp_bool := true }
    assert_failed := s.assert_failed || decide (s.eap_aka_session.id_req = .SIM_NO_ID_REQ) }

/-- The session `eap_aka_send_challenge` hands to `eap_aka_compose` when it
gets that far: the keys are derived from the vector, the AMF pair is gone
from the control list, the checkcode is finalised, encrypted attributes are
allowed, and the reply holds the attributes of the challenge followed by the
checkcode. -/
def eap_aka_challenge_session (x : ext) (s : eap_session_t) : eap_session_t :=
  let amf := fr_dict_attr_child_by_num fr_dict_internal_root fr_attr_num.FR_SIM_AMF
  let control1 : List VALUE_PAIR :=
    if s.eap_aka_session.type = FR_EAP_AKA_PRIME then
      fr_pair_replace s.request_control
        { fr_pair_afrom_child_num fr_dict_internal_root fr_attr_num.FR_SIM_AMF with
          vp_octets := [0x80, 0x00] }
    else s.request_control
  let v := x.fr_sim_vector_umts_from_attrs s.identity control1 s.eap_aka_session.keys
  let keys :=
    if s.eap_aka_session.kdf = FR_EAP_AKA_KDF_VALUE_EAP_AKA_PRIME_WITH_CK_PRIME_IK_PRIME then
      x.fr_sim_crypto_kdf_1_umts v.2
    else x.fr_sim_crypto_kdf_0_umts v.2
  let a : eap_aka_session_t := { s.eap_aka_session with keys := keys }
  let to_peer6 := eap_aka_challenge_attrs x a s.request_reply_vps
  { s with
    request_control :=
      if s.eap_aka_session.type = FR_EAP_AKA_PRIME then fr_pair_delete_by_num control1 amf
      else control1
    this_round_request := { s.this_round_request with code := FR_EAP_CODE_REQUEST }
    eap_aka_session :=
      match s.eap_aka_session.checkcode_state with
      | some st =>
        { a with
          checkcode := (x.fr_sim_crypto_finalise_checkcode a.checkcode (some st)).2.1
          checkcode_state := (x.fr_sim_crypto_finalise_checkcode a.checkcode (some st)).2.2
          checkcode_len := (x.fr_sim_crypto_finalise_checkcode a.checkcode (some st)).1.toNat
          allow_encrypted := true }
      | none => { a with checkcode_len := 0, allow_encrypted := true }
    request_reply_vps :=
      match s.eap_aka_session.checkcode_state with
      | some st =>
        fr_pair_replace to_peer6
          { fr_pair_afrom_child_num dict_aka_root fr_attr_num.FR_EAP_AKA_CHECKCODE with
            vp_octets := (x.fr_sim_crypto_finalise_checkcode a.checkcode (some st)).2.1.take
              (x.fr_sim_crypto_finalise_checkcode a.checkcode (some st)).1.toNat }
      | none =>
        fr_pair_replace to_peer6
          (fr_pair_afrom_child_num dict_aka_root fr_attr_num.FR_EAP_AKA_CHECKCODE) }

/-- The call of `eap_aka_send_challenge` on `s` reaches its call of
`eap_aka_compose`: the vector is acquired, an AKA' session has a network
name, and a running checkcode digest is finalised without error. -/
def challenge_reaches_compose (x : ext) (s : eap_session_t) : Bool :=
  let control1 : List VALUE_PAIR :=
    if s.eap_aka_session.type = FR_EAP_AKA_PRIME then
      fr_pair_replace s.request_control
        { fr_pair_afrom_child_num fr_dict_internal_root fr_attr_num.FR_SIM_AMF with
          vp_octets := [0x80, 0x00] }
    else s.request_control
  let v := x.fr_sim_vector_umts_from_attrs s.identity control1 s.eap_aka_session.keys
  let keys :=
    if s.eap_aka_session.kdf = FR_EAP_AKA_KDF_VALUE_EAP_AKA_PRIME_WITH_CK_PRIME_IK_PRIME then
      x.fr_sim_crypto_kdf_1_umts v.2
    else x.fr_sim_crypto_kdf_0_umts v.2
  !decide (v.1 < 0) &&
    !decide (s.eap_aka_session.type = FR_EAP_AKA_PRIME ∧ keys.network_len = 0) &&
    (match s.eap_aka_session.checkcode_state with
      | some st =>
        !decide ((x.fr_sim_crypto_finalise_checkcode s.eap_aka_session.checkcode (some st)).1 < 0)
      | none => true)

/-! ## Sample data -/

/-- A dictionary query: is `a` the parent of `b`. -/
def sample_parent_common (a b : fr_dict_attr_t) (_ : Bool) : Bool :=
  match b with
  | .child p _ => decide (p = a)
  | _ => false

/-- A toy decoder: the first byte is the subtype, the remaining bytes are the
checkcode; the MAC and the RES are fixed.  An empty packet does not decode
and a packet starting with zero decodes to no attribute. -/
def sample_decode (data : List uint8_t) (_ : fr_sim_keys_t) : Int × List VALUE_PAIR :=
  match data with
  | [] => (-1, [])
  | 0 :: _ => (0, [])
  | b :: rest =>
    (0, [{ da := fr_dict_attr_child_by_num dict_aka_root fr_attr_num.FR_EAP_AKA_SUBTYPE,
           vp_uint16 := b, vp_bool := false, vp_octets := [] },
         { da := fr_dict_attr_child_by_num dict_aka_root fr_attr_num.FR_EAP_AKA_MAC,
           vp_uint16 := 0, vp_bool := false, vp_octets := List.replicate 16 7 },
         { da := fr_dict_attr_child_by_num dict_aka_root fr_attr_num.FR_EAP_AKA_CHECKCODE,
           vp_uint16 := 0, vp_bool := false, vp_octets := rest },
         { da := fr_dict_attr_child_by_num dict_aka_root fr_attr_num.FR_EAP_AKA_RES,
           vp_uint16 := 0, vp_bool := false, vp_octets := [1, 2, 3, 4] }])

/-- Sample helpers: every helper succeeds, the MAC of any packet is sixteen
bytes of value 7. -/
def sample_ext : ext :=
  { dict_sim_root := dict_aka_root
    fr_dict_parent_common := sample_parent_common
    fr_sim_encode := fun _ _ _ _ => (0, [])
    fr_sim_decode := sample_decode
    fr_sim_crypto_sign_packet := fun _ _ _ _ => (16, List.replicate 16 7)
    fr_sim_crypto_init_checkcode := fun _ => (0, some [])
    fr_sim_crypto_update_checkcode := fun st _ => (0, st)
    fr_sim_crypto_finalise_checkcode := fun buf _ => (0, buf, none)
    fr_sim_vector_umts_from_attrs := fun _ _ keys => (0, keys)
    fr_sim_crypto_kdf_0_umts := fun keys => keys
    fr_sim_crypto_kdf_1_umts := fun keys => keys
    fr_sim_id_type := fun _ =>
      (0, fr_sim_id_type_t.SIM_ID_TYPE_PERMANENT, fr_sim_method_hint_t.SIM_METHOD_HINT_AKA_PRIME)
    fr_rand := 255
    FR_EAP_AKA_NOTIFICATION_VALUE_GENERAL_FAILURE := 16384
    FR_EAP_AKA_NOTIFICATION_VALUE_SUCCESS := 32768
    FR_EAP_AKA_BIDDING_VALUE_PREFER_AKA_PRIME := 32768 }

/-- Sample helpers whose encoder always fails. -/
def sample_ext_encode_fails : ext :=
  { sample_ext with fr_sim_encode := fun _ _ _ _ => (-1, []) }

/-- Sample helpers whose vector provider always fails. -/
def sample_ext_vector_fails : ext :=
  { sample_ext with fr_sim_vector_umts_from_attrs := fun _ _ keys => (-1, keys) }

/-- Sample helpers whose checkcode digest cannot be updated. -/
def sample_ext_digest_fails : ext :=
  { sample_ext with fr_sim_crypto_update_checkcode := fun st _ => (-1, st) }

/-- A response packet whose type data is `data`. -/
def sample_response (data : List uint8_t) : eap_packet_t :=
  { code := FR_EAP_CODE_RESPONSE, id := 0, type_num := FR_EAP_AKA_PRIME, type_data := data }

/-- A session in the given state that received the response `data`; XRES is
`1 2 3 4`, no checkcode was computed, and the request packet carries one
pair that is not an EAP-AKA attribute. -/
def sample_session (state : eap_aka_server_state_t) (data : List uint8_t) : eap_session_t :=
  { eap_aka_session := { eap_aka_session_zero with
      state := state
      type := FR_EAP_AKA_PRIME
      kdf := FR_EAP_AKA_KDF_VALUE_EAP_AKA_PRIME_WITH_CK_PRIME_IK_PRIME
      id_req := .SIM_ANY_ID_REQ
      keys := { eap_aka_session_zero.keys with
        vector := { eap_aka_session_zero.keys.vector with xres := [1, 2, 3, 4], xres_len := 4 } } }
    type := FR_EAP_AKA_PRIME
    identity := [48, 49]
    finished := false
    this_round_request := { code := FR_EAP_CODE_REQUEST, id := 0, type_num := 0, type_data := [] }
    this_round_response := sample_response data
    set_request_id := false
    request_packet_vps := [{ da := fr_dict_attr_t.named "EAP-Message", vp_uint16 := 0,
                             vp_bool := false, vp_octets := data }]
    request_reply_vps := []
    request_control := []
    entered := []
    assert_failed := false }

/-- The round in which the peer answers with the response `data`. -/
def sample_round (data : List uint8_t) : round :=
  { response := sample_response data
    packet_vps := [{ da := fr_dict_attr_t.named "EAP-Message", vp_uint16 := 0,
                     vp_bool := false, vp_octets := data }]
    reply_vps := []
    control := [] }

/-- A sample configuration: identity requests are not forced, protected
success is off, the network name is `1 2 3`. -/
def sample_inst : rlm_eap_aka_t :=
  { network_id := [1, 2, 3], request_identity := false, protected_success := false }

/-- The pairs `mod_process` searches when the sample session in state
Challenge received the response `data`. -/
def sample_vps (data : List uint8_t) : List VALUE_PAIR :=
  mod_process_vps sample_ext (sample_session .EAP_AKA_SERVER_CHALLENGE data)

/-- A dictionary query: is `a` an ancestor of `b`. -/
def sample_ancestor (a : fr_dict_attr_t) : fr_dict_attr_t → Bool
  | .child p _ => decide (p = a) || sample_ancestor a p
  | _ => false

/-- Sample helpers with the ancestor query. -/
def sample_ext_ancestor : ext :=
  { sample_ext with fr_dict_parent_common := fun a b _ => sample_ancestor a b }

/-- A reply with a pair outside EAP-AKA, a plain EAP-AKA pair, a pair of the
encrypted category and a second plain EAP-AKA pair. -/
def sample_reply : List VALUE_PAIR :=
  [{ da := fr_dict_attr_t.named "Reply-Message", vp_uint16 := 0, vp_bool := false,
     vp_octets := [1] },
   fr_pair_afrom_child_num dict_aka_root fr_attr_num.FR_EAP_AKA_SUBTYPE,
   fr_pair_afrom_child_num
     (fr_dict_attr_child_by_num dict_aka_root fr_attr_num.FR_EAP_AKA_ENCR_DATA)
     fr_attr_num.FR_EAP_AKA_CHECKCODE,
   fr_pair_afrom_child_num dict_aka_root fr_attr_num.FR_EAP_AKA_MAC]

/-- A session about to send its first challenge: the sample session with a
network name, encrypted attributes not yet allowed. -/
def sample_challenge_session : eap_session_t :=
  { sample_session .EAP_AKA_SERVER_CHALLENGE [5] with
    eap_aka_session := { (sample_session .EAP_AKA_SERVER_CHALLENGE [5]).eap_aka_session with
      keys := { (sample_session .EAP_AKA_SERVER_CHALLENGE [5]).eap_aka_session.keys with
        network := [1, 2, 3], network_len := 3 } } }

/-- A session whose master session key is the bytes 0 to 63. -/
def sample_success_session : eap_session_t :=
  { sample_session .EAP_AKA_SERVER_CHALLENGE [1] with
    eap_aka_session := { (sample_session .EAP_AKA_SERVER_CHALLENGE [1]).eap_aka_session with
      challenge_success := true
      keys := { (sample_session .EAP_AKA_SERVER_CHALLENGE [1]).eap_aka_session.keys with
        msk := List.range 64 } } }

/-- A toy decoder for notifications: the first byte is the subtype, the next
two bytes are the notification code, high byte first. -/
def sample_decode_notification (data : List uint8_t) (_ : fr_sim_keys_t) :
    Int × List VALUE_PAIR :=
  match data with
  | [b, hi, lo] =>
    (0, [{ da := fr_dict_attr_child_by_num dict_aka_root fr_attr_num.FR_EAP_AKA_SUBTYPE,
           vp_uint16 := b, vp_bool := false, vp_octets := [] },
         { da := fr_dict_attr_child_by_num dict_aka_root fr_attr_num.FR_EAP_AKA_NOTIFICATION,
           vp_uint16 := hi * 256 + lo, vp_bool := false, vp_octets := [] }])
  | _ => (-1, [])

/-- Sample helpers with the notification decoder. -/
def sample_ext_notification : ext :=
  { sample_ext with fr_sim_decode := sample_decode_notification }

/-- An identity response carrying the identity `0 1 2` as EAP-AKA-Identity. -/
def sample_identity_vps : List VALUE_PAIR :=
  [{ da := fr_dict_attr_child_by_num dict_aka_root fr_attr_num.FR_EAP_AKA_SUBTYPE,
     vp_uint16 := EAP_AKA_IDENTITY, vp_bool := false, vp_octets := [] },
   { da := fr_dict_attr_child_by_num dict_aka_root fr_attr_num.FR_EAP_AKA_IDENTITY,
     vp_uint16 := 0, vp_bool := false, vp_octets := [48, 49, 50] }]

/-- The pairs of a valid challenge response of the sample session, followed
by a Result-Ind of the peer. -/
def sample_result_ind_vps : List VALUE_PAIR :=
  sample_vps [1] ++
    [{ fr_pair_afrom_child_num dict_aka_root fr_attr_num.FR_EAP_AKA_RESULT_IND with
        vp_bool := true }]

end EapAka

namespace CallEnv

/-! ## Call environments: `lib/unlang/call_env.c` -/

/-- A pair of a configuration section, `CONF_PAIR`: attribute, value (a byte
string) and the quoting of the value. -/
structure CONF_PAIR where
  attr : String
  value : List Nat
  quote : Nat
  deriving DecidableEq, Repr

/-- A configuration section, `CONF_SECTION`: its two names, its pairs in the
order of the file and its child sections. -/
inductive CONF_SECTION where
  | mk (name1 : String) (name2 : Option String) (pairs : List CONF_PAIR)
      (children : List CONF_SECTION)

/-- The pairs of a section. -/
def CONF_SECTION.pairs : CONF_SECTION → List CONF_PAIR
  | .mk _ _ ps _ => ps

/-- The child sections of a section. -/
def CONF_SECTION.children : CONF_SECTION → List CONF_SECTION
  | .mk _ _ _ cs => cs

/-- The first name of a section. -/
def CONF_SECTION.name1 : CONF_SECTION → String
  | .mk n _ _ _ => n

/-- The second name of a section. -/
def CONF_SECTION.name2 : CONF_SECTION → Option String
  | .mk _ n _ _ => n

/-- A `CONF_PAIR *` met while walking the pairs of one name: the pair pointed
at followed by the later pairs of that name; `[]` is `NULL`.  `cf_pair_find`
gives the first pair of the name. -/
def cf_pair_find (cs : CONF_SECTION) (attr : String) : List CONF_PAIR :=
  cs.pairs.filter (fun cp => decide (cp.attr = attr))

/-- The pair of the name after `prev`, the first one when `prev` is `NULL`:
`cf_pair_find_next`. -/
def cf_pair_find_next (cs : CONF_SECTION) (prev : List CONF_PAIR) (attr : String) :
    List CONF_PAIR :=
  match prev with
  | [] => cf_pair_find cs attr
  | _ :: rest => rest

/-- Number of pairs of the name: `cf_pair_count`. -/
def cf_pair_count (cs : CONF_SECTION) (attr : String) : Nat :=
  (cf_pair_find cs attr).length

/-- Length of the talloc array holding a string: its bytes and the final
zero byte. -/
def talloc_array_length (value : List Nat) : Nat := value.length + 1

/-- Length of a string: `strlen`. -/
def strlen (value : List Nat) : Nat := value.length

/-- Where the value of a rule goes: `call_env_dest_t`. -/
inductive call_env_dest_t where
  | CALL_ENV_TYPE_VALUE_BOX
  | CALL_ENV_TYPE_VALUE_BOX_LIST
  | CALL_ENV_TYPE_TMPL_ONLY
  deriving DecidableEq, Repr

/-- The fields of a rule for a pair that parsing and counting read. -/
structure call_env_pair_rule where
  name : String
  dflt : Option (List Nat)
  dflt_quote : Nat
  type : Nat
  required : Bool
  multi : Bool
  force_quote : Bool
  pair_type : call_env_dest_t
  deriving DecidableEq, Repr

/-- A pointer into a table of rules, `call_env_parser_t const *`: the
terminator, or the rule pointed at and the pointer to the next rule.  A rule
with the flag `CONF_FLAG_SUBSECTION` names a section and points to the table
for it. -/
inductive call_env_parser_t where
  | CALL_ENV_TERMINATOR
  | pair (rule : call_env_pair_rule) (next : call_env_parser_t)
  | subsection (name : String) (ident2 : Option String) (required : Bool)
      (subcs : call_env_parser_t) (next : call_env_parser_t)
  deriving DecidableEq, Repr

/-- The kind of a parsed template: `tmpl_type_t`. -/
inductive tmpl_type_t where
  | TMPL_TYPE_DATA
  | TMPL_TYPE_EXEC
  | TMPL_TYPE_XLAT
  | TMPL_TYPE_ATTR
  | TMPL_TYPE_OTHER (n : Nat)
  deriving DecidableEq, Repr

/-- A parsed template: `tmpl_t`. -/
structure tmpl_t where
  type : tmpl_type_t
  name : List Nat
  deriving DecidableEq, Repr

/-- One parsed entry of a call environment: `call_env_parsed_t`. -/
structure call_env_parsed_t where
  rule : call_env_pair_rule
  count : Nat
  multi_index : Nat
  tmpl_only : Bool
  tmpl : tmpl_t
  deriving DecidableEq, Repr

/-- The helpers and constants defined in other files: the lookup of a child
section, the tokenizer of templates (value, length, quoting, cast), two type
codes, the attribute flag and the size of one preallocated entry. -/
structure env_ext where
  cf_section_find : CONF_SECTION → String → Option String → Option CONF_SECTION
  tmpl_afrom_substr : List Nat → Nat → Nat → Nat → Int × tmpl_t
  FR_TYPE_VOID : Nat
  FR_TYPE_NULL : Nat
  CONF_FLAG_ATTRIBUTE : Nat
  sizeof_entry : Nat

/-- The loop of `call_env_parse` over the pairs of one rule: `todo` entries
are still to be made, `cp` is the pair for the next one, `NULL` when the
default is used. -/
def call_env_parse_pairs (x : env_ext) (cs : CONF_SECTION) (rule : call_env_pair_rule)
    (count : Nat) : Nat → Nat → List CONF_PAIR → List call_env_parsed_t →
    Int × List call_env_parsed_t
  | 0, _, _, parsed => (0, parsed)
  | todo + 1, multi_index, cp, parsed =>
    -- without a pair the default is there: the rule was skipped otherwise
    let value : List Nat := match cp with
      | c :: _ => c.value
      | [] => rule.dflt.getD []
    let len : Nat := match cp with
      | c :: _ => talloc_array_length c.value - 1
      | [] => strlen (rule.dflt.getD [])
    let quote : Nat := match cp with
      | c :: _ => if rule.force_quote then rule.dflt_quote else c.quote
      | [] => rule.dflt_quote
    let r := x.tmpl_afrom_substr value len quote
      (if rule.type = x.FR_TYPE_VOID then x.FR_TYPE_NULL else rule.type)
    let valid : Bool := match r.2.type with
      | .TMPL_TYPE_DATA => decide (rule.type &&& x.CONF_FLAG_ATTRIBUTE = 0)
      | .TMPL_TYPE_EXEC => decide (rule.type &&& x.CONF_FLAG_ATTRIBUTE = 0)
      | .TMPL_TYPE_XLAT => decide (rule.type &&& x.CONF_FLAG_ATTRIBUTE = 0)
      | .TMPL_TYPE_ATTR => true
      | .TMPL_TYPE_OTHER _ => false
    if r.1 < 0 then (-1, parsed)
    else if valid = false then (-1, parsed)
    else
      call_env_parse_pairs x cs rule count todo (multi_index + 1)
        (cf_pair_find_next cs cp rule.name)
        (parsed ++
          [{ rule := rule, count := count, multi_index := multi_index,
             tmpl_only := decide (rule.pair_type = .CALL_ENV_TYPE_TMPL_ONLY), tmpl := r.2 }])

/-- Parse the rules of a table against a section, appending to `parsed`:
`call_env_parse`. -/
def call_env_parse (x : env_ext) :
    call_env_parser_t → CONF_SECTION → List call_env_parsed_t → Int × List call_env_parsed_t
  | .CALL_ENV_TERMINATOR, _, parsed => (0, parsed)
  | .subsection name ident2 required subcs next, cs, parsed =>
    match x.cf_section_find cs name ident2 with
    | none => if required = false then call_env_parse x next cs parsed else (-1, parsed)
    | some sub =>
      if (call_env_parse x subcs sub parsed).1 < 0 then
        (-1, (call_env_parse x subcs sub parsed).2)
      else call_env_parse x next cs (call_env_parse x subcs sub parsed).2
  | .pair rule next, cs, parsed =>
    if cf_pair_find cs rule.name = [] ∧ rule.dflt = none then
      if rule.required = false then call_env_parse x next cs parsed else (-1, parsed)
    else if rule.multi = false ∧
        cf_pair_find_next cs (cf_pair_find cs rule.name) rule.name ≠ [] then (-1, parsed)
    else if (call_env_parse_pairs x cs rule
        (if cf_pair_count cs rule.name = 0 then 1 else cf_pair_count cs rule.name)
        (if cf_pair_count cs rule.name = 0 then 1 else cf_pair_count cs rule.name)
        0 (cf_pair_find cs rule.name) parsed).1 < 0 then
      (-1, (call_env_parse_pairs x cs rule
        (if cf_pair_count cs rule.name = 0 then 1 else cf_pair_count cs rule.name)
        (if cf_pair_count cs rule.name = 0 then 1 else cf_pair_count cs rule.name)
        0 (cf_pair_find cs rule.name) parsed).2)
    else
      call_env_parse x next cs (call_env_parse_pairs x cs rule
        (if cf_pair_count cs rule.name = 0 then 1 else cf_pair_count cs rule.name)
        (if cf_pair_count cs rule.name = 0 then 1 else cf_pair_count cs rule.name)
        0 (cf_pair_find cs rule.name) parsed).2

/-- The loop of `call_env_count` over the pairs of one name, on the pair
count and `*names_len`. -/
def call_env_count_pairs : List CONF_PAIR → Nat × Nat → Nat × Nat
  | [], acc => acc
  | cp :: rest, acc =>
    call_env_count_pairs rest (acc.1 + 1, acc.2 + talloc_array_length cp.value)

/-- The loop of `call_env_count` over the rules, on `tmpl_count` and
`*names_len`.  The call for a section found is the function itself: it
starts its own count at zero and its first statement sets `*names_len`, the
same location, to zero. -/
def call_env_count_loop (x : env_ext) :
    call_env_parser_t → CONF_SECTION → Nat × Nat → Nat × Nat
  | .CALL_ENV_TERMINATOR, _, acc => acc
  | .subsection name ident2 _ subcs next, cs, acc =>
    match x.cf_section_find cs name ident2 with
    | none => call_env_count_loop x next cs acc
    | some sub =>
      call_env_count_loop x next cs
        (acc.1 + (call_env_count_loop x subcs sub (0, 0)).1,
          (call_env_count_loop x subcs sub (0, 0)).2)
  | .pair rule next, cs, acc =>
    call_env_count_loop x next cs
      (if (call_env_count_pairs (cf_pair_find_next cs [] rule.name) (0, acc.2)).1 = 0 ∧
          rule.dflt.isSome = true then
        (acc.1 + 1,
          (call_env_count_pairs (cf_pair_find_next cs [] rule.name) (0, acc.2)).2 +
            strlen (rule.dflt.getD []))
      else
        (acc.1 + (call_env_count_pairs (cf_pair_find_next cs [] rule.name) (0, acc.2)).1,
          (call_env_count_pairs (cf_pair_find_next cs [] rule.name) (0, acc.2)).2))

/-- Number of entries expected and the value left in `*names_len`:
`call_env_count`. -/
def call_env_count (x : env_ext) (cs : CONF_SECTION) (call_env : call_env_parser_t) :
    Nat × Nat :=
  call_env_count_loop x call_env cs (0, 0)

/-- A parsed call environment, `call_env_t`, with the size of the pool it was
allocated with. -/
structure call_env_t where
  parsed : List call_env_parsed_t
  pool_headers : Nat
  pool_size : Nat
  deriving DecidableEq, Repr

/-- Parse the rules of a method for one call: `call_env_alloc`; `none` is
`NULL`. -/
def call_env_alloc (x : env_ext) (cs : CONF_SECTION) (env : call_env_parser_t) :
    Option call_env_t :=
  let count := (call_env_count x cs env).1 % 2 ^ 32
  let names_len := (call_env_count x cs env).2
  if (call_env_parse x env cs []).1 < 0 then none
  else
    some { parsed := (call_env_parse x env cs []).2
           pool_headers := count * 4
           pool_size := x.sizeof_entry * count + names_len * 2 }

/-- The sum the documentation of `call_env_count` describes: the bytes of
every string that will be parsed as a template, for the rules of the table
and of the tables of the sections found, a pair value counted with its final
zero byte as in the function. -/
def names_len_sum (x : env_ext) : call_env_parser_t → CONF_SECTION → Nat
  | .CALL_ENV_TERMINATOR, _ => 0
  | .subsection name ident2 _ subcs next, cs =>
    match x.cf_section_find cs name ident2 with
    | none => names_len_sum x next cs
    | some sub => names_len_sum x subcs sub + names_len_sum x next cs
  | .pair rule next, cs =>
    (if cf_pair_find cs rule.name = [] then
      (match rule.dflt with
        | some d => strlen d
        | none => 0)
    else ((cf_pair_find cs rule.name).map (fun cp => talloc_array_length cp.value)).sum) +
      names_len_sum x next cs

/-- The configuration is incomplete or ambiguous for the table: a required
rule has neither pair nor default, a rule that is not multi has two pairs, or
a required section is missing, at a rule of the table or of the table of a
section found. -/
inductive incomplete (x : env_ext) : CONF_SECTION → call_env_parser_t → Prop where
  | missing_required (cs : CONF_SECTION) (rule : call_env_pair_rule) (next : call_env_parser_t) :
      rule.required = true → cf_pair_find cs rule.name = [] → rule.dflt = none →
      incomplete x cs (.pair rule next)
  | duplicate (cs : CONF_SECTION) (rule : call_env_pair_rule) (next : call_env_parser_t)
      (p q : CONF_PAIR) (rest : List CONF_PAIR) :
      rule.multi = false → cf_pair_find cs rule.name = p :: q :: rest →
      incomplete x cs (.pair rule next)
  | missing_section (cs : CONF_SECTION) (name : String) (ident2 : Option String)
      (subcs next : call_env_parser_t) :
      x.cf_section_find cs name ident2 = none →
      incomplete x cs (.subsection name ident2 true subcs next)
  | in_section (cs sub : CONF_SECTION) (name : String) (ident2 : Option String)
      (required : Bool) (subcs next : call_env_parser_t) :
      x.cf_section_find cs name ident2 = some sub → incomplete x sub subcs →
      incomplete x cs (.subsection name ident2 required subcs next)
  | later_pair (cs : CONF_SECTION) (rule : call_env_pair_rule) (next : call_env_parser_t) :
      incomplete x cs next → incomplete x cs (.pair rule next)
  | later_section (cs : CONF_SECTION) (name : String) (ident2 : Option String)
      (required : Bool) (subcs next : call_env_parser_t) :
      incomplete x cs next → incomplete x cs (.subsection name ident2 required subcs next)

/-- A lookup of child sections by their first name. -/
def sample_section_find (cs : CONF_SECTION) (name : String) (_ : Option String) :
    Option CONF_SECTION :=
  cs.children.find? (fun c => decide (c.name1 = name))

/-- Sample helpers: every string parses to a template of type data. -/
def sample_env : env_ext :=
  { cf_section_find := sample_section_find
    tmpl_afrom_substr := fun value _ _ _ => (0, { type := .TMPL_TYPE_DATA, name := value })
    FR_TYPE_VOID := 0
    FR_TYPE_NULL := 1
    CONF_FLAG_ATTRIBUTE := 1024
    sizeof_entry := 64 }

/-- A rule for the pair `name`, not required and not multi, without default. -/
def sample_rule (name : String) : call_env_pair_rule :=
  { name := name, dflt := none, dflt_quote := 0, type := 0, required := false, multi := false,
    force_quote := false, pair_type := .CALL_ENV_TYPE_VALUE_BOX }

/-- A table: the pair `user`, then the section `tls` with the pair `cert`,
then the pair `realm` with the default `x`. -/
def sample_table : call_env_parser_t :=
  .pair (sample_rule "user")
    (.subsection "tls" none false
      (.pair (sample_rule "cert") .CALL_ENV_TERMINATOR)
      (.pair { sample_rule "realm" with dflt := some [120] } .CALL_ENV_TERMINATOR))

/-- A section with `user = ab` and a section `tls` with `cert = c`. -/
def sample_conf : CONF_SECTION :=
  .mk "mod" none [{ attr := "user", value := [97, 98], quote := 0 }]
    [.mk "tls" none [{ attr := "cert", value := [99], quote := 0 }] []]

end CallEnv

namespace EapAka

/-! ## Frame lemmas: what the composers leave alone -/

theorem compose_session (x : ext) (s : eap_session_t) :
    (eap_aka_compose x s).2.eap_aka_session =
      { s.eap_aka_session with aka_id := s.eap_aka_session.aka_id + 1 } := by
  unfold eap_aka_compose
  simp only []
  split <;> rfl

theorem compose_entered (x : ext) (s : eap_session_t) :
    (eap_aka_compose x s).2.entered = s.entered := by
  unfold eap_aka_compose
  simp only []
  split <;> rfl

theorem compose_finished (x : ext) (s : eap_session_t) :
    (eap_aka_compose x s).2.finished = s.finished := by
  unfold eap_aka_compose
  simp only []
  split <;> rfl

theorem compose_code (x : ext) (s : eap_session_t) :
    (eap_aka_compose x s).2.this_round_request.code = s.this_round_request.code := by
  unfold eap_aka_compose
  simp only []
  split <;> rfl

theorem compose_core (x : ext) (s : eap_session_t) : core (eap_aka_compose x s).2 = core s := by
  simp [core, compose_session, compose_entered, compose_finished]

theorem send_identity_request_core (x : ext) (s : eap_session_t) :
    core (eap_aka_send_identity_request x s).2 = core s := by
  unfold eap_aka_send_identity_request
  simp only [core]
  split_ifs <;> simp [compose_session, compose_entered, compose_finished]

theorem send_challenge_core (x : ext) (s : eap_session_t) :
    core (eap_aka_send_challenge x s).2 = core s := by
  unfold eap_aka_send_challenge
  simp only [core]
  split_ifs <;> (try split) <;> (try split_ifs) <;>
    simp [compose_session, compose_entered, compose_finished]

theorem send_success_notification_core (x : ext) (s : eap_session_t) :
    core (eap_aka_send_eap_success_notification x s).2 = core s := by
  unfold eap_aka_send_eap_success_notification
  simp only [core]
  split_ifs <;> simp [compose_session, compose_entered, compose_finished]

theorem send_failure_notification_core (x : ext) (s : eap_session_t) :
    core (eap_aka_send_eap_failure_notification x s).2 = core s := by
  unfold eap_aka_send_eap_failure_notification
  simp only [core]
  split_ifs <;> simp [compose_session, compose_entered, compose_finished]

theorem send_failure_notification_code (x : ext) (s : eap_session_t) :
    (eap_aka_send_eap_failure_notification x s).2.this_round_request.code = FR_EAP_CODE_REQUEST := by
  unfold eap_aka_send_eap_failure_notification
  simp only []
  split_ifs <;> simp [compose_code]

/-! ## The fallback chain of `eap_aka_state_enter` -/

theorem state_enter_failure (x : ext) (s : eap_session_t) :
    eap_aka_state_enter x s .EAP_AKA_SERVER_FAILURE =
      (eap_aka_send_eap_failure (state_log s .EAP_AKA_SERVER_FAILURE)).2 := by
  rw [eap_aka_state_enter]

theorem state_enter_failure_notification (x : ext) (s : eap_session_t) :
    eap_aka_state_enter x s .EAP_AKA_SERVER_FAILURE_NOTIFICATION =
      if (eap_aka_send_eap_failure_notification x
            (state_log s .EAP_AKA_SERVER_FAILURE_NOTIFICATION)).1 < 0 then
        eap_aka_state_enter x
          (eap_aka_send_eap_failure_notification x
            (state_log s .EAP_AKA_SERVER_FAILURE_NOTIFICATION)).2 .EAP_AKA_SERVER_FAILURE
      else
        (eap_aka_send_eap_failure_notification x
          (state_log s .EAP_AKA_SERVER_FAILURE_NOTIFICATION)).2 := by
  rw [eap_aka_state_enter]

theorem state_enter_success (x : ext) (s : eap_session_t) :
    eap_aka_state_enter x s .EAP_AKA_SERVER_SUCCESS =
      (eap_aka_send_eap_success (state_log s .EAP_AKA_SERVER_SUCCESS)).2 := by
  rw [eap_aka_state_enter]
  simp [eap_aka_send_eap_success]

theorem state_enter_identity (x : ext) (s : eap_session_t) :
    eap_aka_state_enter x s .EAP_AKA_SERVER_IDENTITY =
      if (eap_aka_send_identity_request x (state_log s .EAP_AKA_SERVER_IDENTITY)).1 < 0 then
        eap_aka_state_enter x
          (eap_aka_send_identity_request x (state_log s .EAP_AKA_SERVER_IDENTITY)).2
          .EAP_AKA_SERVER_FAILURE_NOTIFICATION
      else (eap_aka_send_identity_request x (state_log s .EAP_AKA_SERVER_IDENTITY)).2 := by
  rw [eap_aka_state_enter]

theorem state_enter_challenge (x : ext) (s : eap_session_t) :
    eap_aka_state_enter x s .EAP_AKA_SERVER_CHALLENGE =
      if (eap_aka_send_challenge x (state_log s .EAP_AKA_SERVER_CHALLENGE)).1 < 0 then
        eap_aka_state_enter x
          (eap_aka_send_challenge x (state_log s .EAP_AKA_SERVER_CHALLENGE)).2
          .EAP_AKA_SERVER_FAILURE_NOTIFICATION
      else (eap_aka_send_challenge x (state_log s .EAP_AKA_SERVER_CHALLENGE)).2 := by
  rw [eap_aka_state_enter]

theorem state_enter_success_notification (x : ext) (s : eap_session_t) :
    eap_aka_state_enter x s .EAP_AKA_SERVER_SUCCESS_NOTIFICATION =
      if (eap_aka_send_eap_success_notification x
            (state_log s .EAP_AKA_SERVER_SUCCESS_NOTIFICATION)).1 < 0 then
        eap_aka_state_enter x
          (eap_aka_send_eap_success_notification x
            (state_log s .EAP_AKA_SERVER_SUCCESS_NOTIFICATION)).2
          .EAP_AKA_SERVER_FAILURE_NOTIFICATION
      else
        (eap_aka_send_eap_success_notification x
          (state_log s .EAP_AKA_SERVER_SUCCESS_NOTIFICATION)).2 := by
  rw [eap_aka_state_enter]

theorem core_state_log (s : eap_session_t) (t : eap_aka_server_state_t) :
    core (state_log s t) = (s.eap_aka_session.challenge_success, t, s.entered ++ [t], s.finished) :=
  rfl

/-- Entering Failure: the session ends finished, in state Failure, with EAP
code Failure, and the reply is not touched. -/
theorem enter_failure_spec (x : ext) (s : eap_session_t) :
    core (eap_aka_state_enter x s .EAP_AKA_SERVER_FAILURE) =
        (s.eap_aka_session.challenge_success, .EAP_AKA_SERVER_FAILURE,
          s.entered ++ [.EAP_AKA_SERVER_FAILURE], true) ∧
      (eap_aka_state_enter x s .EAP_AKA_SERVER_FAILURE).this_round_request.code =
        FR_EAP_CODE_FAILURE ∧
      (eap_aka_state_enter x s .EAP_AKA_SERVER_FAILURE).request_reply_vps = s.request_reply_vps ∧
      (eap_aka_state_enter x s .EAP_AKA_SERVER_FAILURE).eap_aka_session.aka_id =
        s.eap_aka_session.aka_id := by
  rw [state_enter_failure]
  exact ⟨rfl, rfl, rfl, rfl⟩

/-- Entering FailureNotification: either the notification was composed and
the session stays there with an EAP request, or the session fell back to
Failure. -/
theorem enter_failure_notification_spec (x : ext) (s : eap_session_t) :
    (¬ (eap_aka_send_eap_failure_notification x
          (state_log s .EAP_AKA_SERVER_FAILURE_NOTIFICATION)).1 < 0 ∧
      core (eap_aka_state_enter x s .EAP_AKA_SERVER_FAILURE_NOTIFICATION) =
        (s.eap_aka_session.challenge_success, .EAP_AKA_SERVER_FAILURE_NOTIFICATION,
          s.entered ++ [.EAP_AKA_SERVER_FAILURE_NOTIFICATION], s.finished) ∧
      (eap_aka_state_enter x s .EAP_AKA_SERVER_FAILURE_NOTIFICATION).this_round_request.code =
        FR_EAP_CODE_REQUEST) ∨
    ((eap_aka_send_eap_failure_notification x
          (state_log s .EAP_AKA_SERVER_FAILURE_NOTIFICATION)).1 < 0 ∧
      core (eap_aka_state_enter x s .EAP_AKA_SERVER_FAILURE_NOTIFICATION) =
        (s.eap_aka_session.challenge_success, .EAP_AKA_SERVER_FAILURE,
          s.entered ++ [.EAP_AKA_SERVER_FAILURE_NOTIFICATION, .EAP_AKA_SERVER_FAILURE], true) ∧
      (eap_aka_state_enter x s .EAP_AKA_SERVER_FAILURE_NOTIFICATION).this_round_request.code =
        FR_EAP_CODE_FAILURE) := by
  rw [state_enter_failure_notification]
  by_cases h : (eap_aka_send_eap_failure_notification x
      (state_log s .EAP_AKA_SERVER_FAILURE_NOTIFICATION)).1 < 0
  · right
    refine ⟨h, ?_, ?_⟩
    · rw [if_pos h, (enter_failure_spec x _).1]
      have hc := send_failure_notification_core x (state_log s .EAP_AKA_SERVER_FAILURE_NOTIFICATION)
      rw [core_state_log] at hc
      simp only [core, Prod.mk.injEq] at hc
      obtain ⟨h1, _, h3, _⟩ := hc
      rw [h1, h3, List.append_assoc]
      rfl
    · rw [if_pos h]
      exact (enter_failure_spec x _).2.1
  · left
    refine ⟨h, ?_, ?_⟩
    · rw [if_neg h, send_failure_notification_core, core_state_log]
    · rw [if_neg h]
      exact send_failure_notification_code x _

/-- Entering a state through a composer that may fall back to
FailureNotification: the authentication flag is kept and the log grows by
the target, possibly followed by the fallback chain. -/
theorem enter_via (x : ext) (s : eap_session_t) (t : eap_aka_server_state_t)
    (f : eap_session_t → Int × eap_session_t) (hf : ∀ u, core (f u).2 = core u)
    (hrec : eap_aka_state_enter x s t =
      if (f (state_log s t)).1 < 0 then
        eap_aka_state_enter x (f (state_log s t)).2 .EAP_AKA_SERVER_FAILURE_NOTIFICATION
      else (f (state_log s t)).2) :
    (eap_aka_state_enter x s t).eap_aka_session.challenge_success =
        s.eap_aka_session.challenge_success ∧
      ∃ rest, (eap_aka_state_enter x s t).entered = s.entered ++ t :: rest ∧
        (rest = [] ∨ rest = [.EAP_AKA_SERVER_FAILURE_NOTIFICATION] ∨
          rest = [.EAP_AKA_SERVER_FAILURE_NOTIFICATION, .EAP_AKA_SERVER_FAILURE]) := by
  have hc := hf (state_log s t)
  rw [core_state_log] at hc
  simp only [core, Prod.mk.injEq] at hc
  obtain ⟨h1, _, h3, _⟩ := hc
  rw [hrec]
  by_cases h : (f (state_log s t)).1 < 0
  · rw [if_pos h]
    rcases enter_failure_notification_spec x (f (state_log s t)).2 with ⟨_, hk, _⟩ | ⟨_, hk, _⟩
    · simp only [core, Prod.mk.injEq] at hk
      refine ⟨by rw [hk.1, h1], [.EAP_AKA_SERVER_FAILURE_NOTIFICATION], ?_, Or.inr (Or.inl rfl)⟩
      rw [hk.2.2.1, h3, List.append_assoc]
      rfl
    · simp only [core, Prod.mk.injEq] at hk
      refine ⟨by rw [hk.1, h1],
        [.EAP_AKA_SERVER_FAILURE_NOTIFICATION, .EAP_AKA_SERVER_FAILURE], ?_, Or.inr (Or.inr rfl)⟩
      rw [hk.2.2.1, h3, List.append_assoc]
      rfl
  · rw [if_neg h]
    exact ⟨h1, [], by rw [h3], Or.inl rfl⟩

/-- Whatever state is entered, the authentication flag is kept and the log
grows by the target followed by at most the fallback chain. -/
theorem enter_spec (x : ext) (s : eap_session_t) (t : eap_aka_server_state_t) :
    (eap_aka_state_enter x s t).eap_aka_session.challenge_success =
        s.eap_aka_session.challenge_success ∧
      ∃ rest, (eap_aka_state_enter x s t).entered = s.entered ++ t :: rest ∧
        (rest = [] ∨ rest = [.EAP_AKA_SERVER_FAILURE_NOTIFICATION] ∨
          rest = [.EAP_AKA_SERVER_FAILURE_NOTIFICATION, .EAP_AKA_SERVER_FAILURE] ∨
          rest = [.EAP_AKA_SERVER_FAILURE]) := by
  cases t with
  | EAP_AKA_SERVER_IDENTITY =>
    obtain ⟨h1, r, h2, h3⟩ := enter_via x s _ (eap_aka_send_identity_request x)
      (send_identity_request_core x) (state_enter_identity x s)
    exact ⟨h1, r, h2, by tauto⟩
  | EAP_AKA_SERVER_CHALLENGE =>
    obtain ⟨h1, r, h2, h3⟩ := enter_via x s _ (eap_aka_send_challenge x)
      (send_challenge_core x) (state_enter_challenge x s)
    exact ⟨h1, r, h2, by tauto⟩
  | EAP_AKA_SERVER_SUCCESS_NOTIFICATION =>
    obtain ⟨h1, r, h2, h3⟩ := enter_via x s _ (eap_aka_send_eap_success_notification x)
      (send_success_notification_core x) (state_enter_success_notification x s)
    exact ⟨h1, r, h2, by tauto⟩
  | EAP_AKA_SERVER_SUCCESS =>
    rw [state_enter_success]
    exact ⟨rfl, [], rfl, Or.inl rfl⟩
  | EAP_AKA_SERVER_FAILURE_NOTIFICATION =>
    rcases enter_failure_notification_spec x s with ⟨_, hk, _⟩ | ⟨_, hk, _⟩
    · simp only [core, Prod.mk.injEq] at hk
      exact ⟨hk.1, [], hk.2.2.1, Or.inl rfl⟩
    · simp only [core, Prod.mk.injEq] at hk
      exact ⟨hk.1, [.EAP_AKA_SERVER_FAILURE], hk.2.2.1, Or.inr (Or.inr (Or.inr rfl))⟩
  | EAP_AKA_SERVER_FAILURE =>
    have hk := (enter_failure_spec x s).1
    simp only [core, Prod.mk.injEq] at hk
    exact ⟨hk.1, [], hk.2.2.1, Or.inl rfl⟩

theorem take_eq_of_length {a : List uint8_t} {n : Nat} (h : a.length = n) : a.take n = a := by
  rw [← h, List.take_length]

/-- `process_eap_aka_challenge` accepts exactly when the three checks pass.
On acceptance it sets `challenge_success` and enters the next state; on
rejection it returns `-1` and leaves the session as it was. -/
theorem challenge_result (x : ext) (s : eap_session_t) (vps : List VALUE_PAIR) :
    ((mac_valid x s vps ∧ checkcode_valid s vps ∧ res_valid s vps) ∧
      process_eap_aka_challenge x s vps =
        (0, eap_aka_state_enter x
          { s with eap_aka_session := { s.eap_aka_session with challenge_success := true } }
          (challenge_next_state vps))) ∨
    (¬ (mac_valid x s vps ∧ checkcode_valid s vps ∧ res_valid s vps) ∧
      process_eap_aka_challenge x s vps = (-1, s)) := by
  unfold process_eap_aka_challenge mac_valid checkcode_valid res_valid challenge_next_state
  rcases hm : fr_pair_find_by_child_num vps dict_aka_root fr_attr_num.FR_EAP_AKA_MAC with _ | mac
  · right; simp
  by_cases hl : mac.vp_length = SIM_MAC_DIGEST_SIZE
  swap
  · right; simp [hl]
  by_cases hs : 0 < (x.fr_sim_crypto_sign_packet s.this_round_response s.eap_aka_session.mac_md
          s.eap_aka_session.keys.k_aut s.eap_aka_session.keys.k_aut_len).1
  swap
  · right
    have h' : (x.fr_sim_crypto_sign_packet s.this_round_response s.eap_aka_session.mac_md
          s.eap_aka_session.keys.k_aut s.eap_aka_session.keys.k_aut_len).1 < 0 ∨
        (x.fr_sim_crypto_sign_packet s.this_round_response s.eap_aka_session.mac_md
          s.eap_aka_session.keys.k_aut s.eap_aka_session.keys.k_aut_len).1 = 0 := by omega
    rcases h' with h' | h'
    · simp [hl, h', hs]
    · simp [hl, h', hs]
  have hs1 : ¬ (x.fr_sim_crypto_sign_packet s.this_round_response s.eap_aka_session.mac_md
          s.eap_aka_session.keys.k_aut s.eap_aka_session.keys.k_aut_len).1 < 0 := by omega
  have hs2 : ¬ (x.fr_sim_crypto_sign_packet s.this_round_response s.eap_aka_session.mac_md
          s.eap_aka_session.keys.k_aut s.eap_aka_session.keys.k_aut_len).1 = 0 := by omega
  have hmt : mac.vp_octets.take SIM_MAC_DIGEST_SIZE = mac.vp_octets := take_eq_of_length hl
  by_cases hmm : mac.vp_octets = (x.fr_sim_crypto_sign_packet s.this_round_response
          s.eap_aka_session.mac_md s.eap_aka_session.keys.k_aut
          s.eap_aka_session.keys.k_aut_len).2.take SIM_MAC_DIGEST_SIZE
  swap
  · right; simp [hl, hs1, hs2, memcmp_eq, hmt, hmm]
  have hmc : memcmp_eq mac.vp_octets (x.fr_sim_crypto_sign_packet s.this_round_response
          s.eap_aka_session.mac_md s.eap_aka_session.keys.k_aut
          s.eap_aka_session.keys.k_aut_len).2 SIM_MAC_DIGEST_SIZE = true := by
    simp only [memcmp_eq, hmt, decide_eq_true_eq]; exact hmm
  simp only [hl, hs1, hs2, hmc, not_true_eq_false, ne_eq, if_false, if_true, hs, true_and,
    Option.some.injEq, exists_eq_left', ← hmm]
  have hcc : ((match fr_pair_find_by_child_num vps dict_aka_root
        fr_attr_num.FR_EAP_AKA_CHECKCODE with
      | some checkcode =>
        if ¬checkcode.vp_length = s.eap_aka_session.checkcode_len then true
        else if memcmp_eq checkcode.vp_octets s.eap_aka_session.checkcode
            s.eap_aka_session.checkcode_len = true then false
        else true
      | none => false) = true) ↔
      ¬ (∀ checkcode, fr_pair_find_by_child_num vps dict_aka_root
          fr_attr_num.FR_EAP_AKA_CHECKCODE = some checkcode →
        checkcode.vp_length = s.eap_aka_session.checkcode_len ∧
        checkcode.vp_octets =
          s.eap_aka_session.checkcode.take s.eap_aka_session.checkcode_len) := by
    rcases fr_pair_find_by_child_num vps dict_aka_root fr_attr_num.FR_EAP_AKA_CHECKCODE
      with _ | cc
    · simp
    · simp only [Option.some.injEq, forall_eq']
      by_cases h1 : cc.vp_length = s.eap_aka_session.checkcode_len
      · have h2 := take_eq_of_length h1
        simp [h1, memcmp_eq, h2]
      · simp [h1]
  simp only [hcc]
  by_cases hv : ∀ checkcode, fr_pair_find_by_child_num vps dict_aka_root
          fr_attr_num.FR_EAP_AKA_CHECKCODE = some checkcode →
        checkcode.vp_length = s.eap_aka_session.checkcode_len ∧
        checkcode.vp_octets =
          s.eap_aka_session.checkcode.take s.eap_aka_session.checkcode_len
  swap
  · right; simp [hv]
  simp only [eq_true hv, not_true_eq_false, if_false, true_and]
  rcases fr_pair_find_by_child_num vps dict_aka_root fr_attr_num.FR_EAP_AKA_RES with _ | vp
  · right; simp
  simp only [Option.some.injEq, exists_eq_left']
  by_cases hrl : vp.vp_length = s.eap_aka_session.keys.vector.xres_len
  swap
  · right; simp [hrl]
  have hrt := take_eq_of_length hrl
  by_cases hrm : vp.vp_octets =
      s.eap_aka_session.keys.vector.xres.take s.eap_aka_session.keys.vector.xres_len
  · left
    have hmc2 : memcmp_eq vp.vp_octets s.eap_aka_session.keys.vector.xres vp.vp_length = true := by
      simp only [memcmp_eq, hrl, hrt, decide_eq_true_eq]; exact hrm
    simp only [hmc2, not_true_eq_false, if_false]
    simp only [hrl, not_true_eq_false, if_false, true_and]
    refine ⟨hrm, ?_⟩
    split <;> rfl
  · right
    have hmc2 : ¬ memcmp_eq vp.vp_octets s.eap_aka_session.keys.vector.xres vp.vp_length = true := by
      simp only [memcmp_eq, hrl, hrt, decide_eq_true_eq]; exact hrm
    simp only [hmc2, not_false_eq_true, if_true]
    simp [hrl, hrm]

theorem challenge_ret (x : ext) (s : eap_session_t) (vps : List VALUE_PAIR) :
    (process_eap_aka_challenge x s vps).1 = 0 ∨ (process_eap_aka_challenge x s vps).1 = -1 := by
  rcases challenge_result x s vps with ⟨_, h⟩ | ⟨_, h⟩ <;> simp [h]

theorem challenge_accept_iff (x : ext) (s : eap_session_t) (vps : List VALUE_PAIR) :
    (process_eap_aka_challenge x s vps).1 = 0 ↔
      (mac_valid x s vps ∧ checkcode_valid s vps ∧ res_valid s vps) := by
  rcases challenge_result x s vps with ⟨hv, h⟩ | ⟨hv, h⟩
  · simp [h, hv]
  · simp only [h, hv, iff_false]
    decide

theorem challenge_reject (x : ext) (s : eap_session_t) (vps : List VALUE_PAIR)
    (h : ¬ (mac_valid x s vps ∧ checkcode_valid s vps ∧ res_valid s vps)) :
    process_eap_aka_challenge x s vps = (-1, s) := by
  rcases challenge_result x s vps with ⟨hv, _⟩ | ⟨_, h'⟩
  · exact absurd hv h
  · exact h'

theorem flip_bit_ne (bs : List uint8_t) (i k : Nat) (h : i < bs.length) : flip_bit bs i k ≠ bs := by
  intro e
  have h1 : (flip_bit bs i k)[i]? = some (bs.getD i 0 ^^^ 2 ^ k) := List.getElem?_set_self h
  rw [e, List.getElem?_eq_getElem h, List.getD_eq_getElem bs 0 h] at h1
  have h2 : bs[i] = bs[i] ^^^ 2 ^ k := Option.some.inj h1
  have h3 : bs[i] ^^^ (bs[i] ^^^ 2 ^ k) = bs[i] ^^^ bs[i] := by rw [← h2]
  rw [Nat.xor_cancel_left, Nat.xor_self] at h3
  exact absurd h3 (by positivity)

/-! ## The challenge response (C1 to C5) -/

/-- C1.  MAC correctness of `process_eap_aka_challenge`: when the checkcode
and RES checks pass, the verifier returns 0 if and only if an EAP-AKA-MAC is
present, is exactly `SIM_MAC_DIGEST_SIZE` (16) bytes long, the MAC computed
over the response with `k_aut` has a positive length and the supplied bytes
equal the computed ones; a supplied MAC that is the computed MAC with one bit
flipped is rejected with `-1`. -/
theorem mac_correctness (x : ext) (s : eap_session_t) (vps : List VALUE_PAIR)
    (hcc : checkcode_valid s vps) (hres : res_valid s vps) :
    ((process_eap_aka_challenge x s vps).1 = 0 ↔
      ∃ mac, fr_pair_find_by_child_num vps dict_aka_root fr_attr_num.FR_EAP_AKA_MAC = some mac ∧
        mac.vp_length = 16 ∧
        0 < (x.fr_sim_crypto_sign_packet s.this_round_response s.eap_aka_session.mac_md
              s.eap_aka_session.keys.k_aut s.eap_aka_session.keys.k_aut_len).1 ∧
        mac.vp_octets = (x.fr_sim_crypto_sign_packet s.this_round_response
              s.eap_aka_session.mac_md s.eap_aka_session.keys.k_aut
              s.eap_aka_session.keys.k_aut_len).2.take 16) ∧
    (∀ mac i k,
      fr_pair_find_by_child_num vps dict_aka_root fr_attr_num.FR_EAP_AKA_MAC = some mac →
      i < 16 → k < 8 →
      mac.vp_octets = flip_bit ((x.fr_sim_crypto_sign_packet s.this_round_response
              s.eap_aka_session.mac_md s.eap_aka_session.keys.k_aut
              s.eap_aka_session.keys.k_aut_len).2.take 16) i k →
      (process_eap_aka_challenge x s vps).1 = -1) := by
  constructor
  · rw [challenge_accept_iff]
    exact ⟨fun h => h.1, fun h => ⟨h, hcc, hres⟩⟩
  · intro mac i k hm hi _ hflip
    have hn : ¬ (mac_valid x s vps ∧ checkcode_valid s vps ∧ res_valid s vps) := by
      rintro ⟨⟨mac', hm', hl, _, he⟩, _⟩
      rw [hm] at hm'
      cases hm'
      have hlen : i < ((x.fr_sim_crypto_sign_packet s.this_round_response
              s.eap_aka_session.mac_md s.eap_aka_session.keys.k_aut
              s.eap_aka_session.keys.k_aut_len).2.take 16).length := by
        have hl' : mac.vp_octets.length = 16 := hl
        have he' : mac.vp_octets = (x.fr_sim_crypto_sign_packet s.this_round_response
              s.eap_aka_session.mac_md s.eap_aka_session.keys.k_aut
              s.eap_aka_session.keys.k_aut_len).2.take 16 := he
        rw [← he', hl']
        exact hi
      exact flip_bit_ne _ i k hlen (hflip.symm.trans he)
    rw [challenge_reject x s vps hn]

/-- C2.  RES and XRES in `process_eap_aka_challenge`: the verifier returns 0
only when an EAP-AKA-RES is present, its length is `xres_len` and its bytes
are those of XRES; when the RES is missing, shorter or longer than XRES, or
differs from XRES in some byte, the verifier returns `-1` and the session is
left as it was. -/
theorem res_equality (x : ext) (s : eap_session_t) (vps : List VALUE_PAIR) :
    ((process_eap_aka_challenge x s vps).1 = 0 →
      ∃ vp, fr_pair_find_by_child_num vps dict_aka_root fr_attr_num.FR_EAP_AKA_RES = some vp ∧
        vp.vp_length = s.eap_aka_session.keys.vector.xres_len ∧
        vp.vp_octets =
          s.eap_aka_session.keys.vector.xres.take s.eap_aka_session.keys.vector.xres_len) ∧
    (fr_pair_find_by_child_num vps dict_aka_root fr_attr_num.FR_EAP_AKA_RES = none →
      process_eap_aka_challenge x s vps = (-1, s)) ∧
    (∀ vp, fr_pair_find_by_child_num vps dict_aka_root fr_attr_num.FR_EAP_AKA_RES = some vp →
      (vp.vp_length ≠ s.eap_aka_session.keys.vector.xres_len ∨
        vp.vp_octets ≠
          s.eap_aka_session.keys.vector.xres.take s.eap_aka_session.keys.vector.xres_len) →
      process_eap_aka_challenge x s vps = (-1, s)) := by
  refine ⟨fun h => ((challenge_accept_iff x s vps).1 h).2.2, fun hn => ?_, fun vp hv hne => ?_⟩
  · apply challenge_reject
    rintro ⟨_, _, vp, hv, _⟩
    rw [hn] at hv
    cases hv
  · apply challenge_reject
    rintro ⟨_, _, vp', hv', hl, he⟩
    rw [hv] at hv'
    cases hv'
    rcases hne with h | h
    · exact h hl
    · exact h he

/-- C3.  Checkcode rule in `process_eap_aka_challenge`, for a response with a
valid MAC: a checkcode that is present and whose length differs from
`checkcode_len` or whose bytes differ from the stored checkcode is rejected
with `-1`; an absent checkcode never causes rejection, whatever
`checkcode_len` is: the verifier then returns 0 exactly when the RES check
passes. -/
theorem checkcode_rule (x : ext) (s : eap_session_t) (vps : List VALUE_PAIR)
    (hmac : mac_valid x s vps) :
    (∀ checkcode,
      fr_pair_find_by_child_num vps dict_aka_root fr_attr_num.FR_EAP_AKA_CHECKCODE =
        some checkcode →
      (checkcode.vp_length ≠ s.eap_aka_session.checkcode_len ∨
        checkcode.vp_octets ≠
          s.eap_aka_session.checkcode.take s.eap_aka_session.checkcode_len) →
      process_eap_aka_challenge x s vps = (-1, s)) ∧
    (∀ checkcode,
      fr_pair_find_by_child_num vps dict_aka_root fr_attr_num.FR_EAP_AKA_CHECKCODE =
        some checkcode →
      checkcode.vp_length = s.eap_aka_session.checkcode_len →
      checkcode.vp_octets =
        s.eap_aka_session.checkcode.take s.eap_aka_session.checkcode_len →
      ((process_eap_aka_challenge x s vps).1 = 0 ↔ res_valid s vps)) ∧
    (fr_pair_find_by_child_num vps dict_aka_root fr_attr_num.FR_EAP_AKA_CHECKCODE = none →
      ((process_eap_aka_challenge x s vps).1 = 0 ↔ res_valid s vps)) := by
  refine ⟨fun cc hc hne => ?_, fun cc hc hl he => ?_, fun hn => ?_⟩
  · apply challenge_reject
    rintro ⟨_, hv, _⟩
    obtain ⟨hl, he⟩ := hv cc hc
    rcases hne with h | h
    · exact h hl
    · exact h he
  · rw [challenge_accept_iff]
    have hv : checkcode_valid s vps := by
      intro cc' hc'
      rw [hc] at hc'
      cases hc'
      exact ⟨hl, he⟩
    exact ⟨fun h => h.2.2, fun h => ⟨hmac, hv, h⟩⟩
  · rw [challenge_accept_iff]
    have hv : checkcode_valid s vps := by
      intro cc' hc'
      rw [hn] at hc'
      cases hc'
    exact ⟨fun h => h.2.2, fun h => ⟨hmac, hv, h⟩⟩

/-- Witness of C1: a response whose MAC is the computed one is accepted. -/
theorem mac_correctness_witness :
    checkcode_valid (sample_session .EAP_AKA_SERVER_CHALLENGE [1]) (sample_vps [1]) ∧
    res_valid (sample_session .EAP_AKA_SERVER_CHALLENGE [1]) (sample_vps [1]) ∧
    (process_eap_aka_challenge sample_ext (sample_session .EAP_AKA_SERVER_CHALLENGE [1])
      (sample_vps [1])).1 = 0 :=
  have hcc : checkcode_valid (sample_session .EAP_AKA_SERVER_CHALLENGE [1]) (sample_vps [1]) :=
    fun cc h => by
      have h' : some _ = some cc := h
      cases h'
      exact ⟨rfl, rfl⟩
  have hres : res_valid (sample_session .EAP_AKA_SERVER_CHALLENGE [1]) (sample_vps [1]) :=
    ⟨_, rfl, rfl, rfl⟩
  ⟨hcc, hres,
    (mac_correctness sample_ext (sample_session .EAP_AKA_SERVER_CHALLENGE [1]) (sample_vps [1])
      hcc hres).1.2 ⟨_, rfl, rfl, by decide, rfl⟩⟩

/-- Witness of C2: a response without RES is rejected. -/
theorem res_equality_witness :
    fr_pair_find_by_child_num [] dict_aka_root fr_attr_num.FR_EAP_AKA_RES = none ∧
    process_eap_aka_challenge sample_ext (sample_session .EAP_AKA_SERVER_CHALLENGE [1]) [] =
      (-1, sample_session .EAP_AKA_SERVER_CHALLENGE [1]) :=
  ⟨rfl, (res_equality sample_ext (sample_session .EAP_AKA_SERVER_CHALLENGE [1]) []).2.1 rfl⟩

/-- Witness of C3: with a valid MAC, a one byte checkcode against an empty
stored checkcode is rejected. -/
theorem checkcode_rule_witness :
    mac_valid sample_ext (sample_session .EAP_AKA_SERVER_CHALLENGE [1, 9]) (sample_vps [1, 9]) ∧
    process_eap_aka_challenge sample_ext (sample_session .EAP_AKA_SERVER_CHALLENGE [1, 9])
      (sample_vps [1, 9]) = (-1, sample_session .EAP_AKA_SERVER_CHALLENGE [1, 9]) :=
  have hmac : mac_valid sample_ext (sample_session .EAP_AKA_SERVER_CHALLENGE [1, 9])
      (sample_vps [1, 9]) := ⟨_, rfl, rfl, by decide, rfl⟩
  ⟨hmac,
    (checkcode_rule sample_ext (sample_session .EAP_AKA_SERVER_CHALLENGE [1, 9])
      (sample_vps [1, 9]) hmac).1 _ rfl (Or.inl (by decide))⟩

theorem enter_cs (x : ext) (s : eap_session_t) (t : eap_aka_server_state_t) :
    (eap_aka_state_enter x s t).eap_aka_session.challenge_success =
      s.eap_aka_session.challenge_success :=
  (enter_spec x s t).1

/-- C4.  Rejection leaves the session unauthenticated: when a Challenge
response handled in state Challenge fails the MAC, checkcode or RES check,
`mod_process` returns HANDLED and its result is the one of entering
FailureNotification on the session as decoded; `challenge_success` keeps
its value and the only states entered are FailureNotification, possibly
followed by the fallback Failure, never Success or SuccessNotification. -/
theorem rejection_leaves_unauthenticated (x : ext) (s : eap_session_t) (subtype_vp : VALUE_PAIR)
    (hstate : s.eap_aka_session.state = .EAP_AKA_SERVER_CHALLENGE)
    (hdec : ¬ (x.fr_sim_decode s.this_round_response.type_data s.eap_aka_session.keys).1 < 0)
    (hsub : fr_pair_find_by_child_num (mod_process_vps x s) dict_aka_root
      fr_attr_num.FR_EAP_AKA_SUBTYPE = some subtype_vp)
    (hval : subtype_vp.vp_uint16 = EAP_AKA_CHALLENGE)
    (hfail : ¬ (mac_valid x s (mod_process_vps x s) ∧ checkcode_valid s (mod_process_vps x s) ∧
      res_valid s (mod_process_vps x s))) :
    mod_process x s = (.RLM_MODULE_HANDLED,
      eap_aka_state_enter x (mod_process_decoded x s) .EAP_AKA_SERVER_FAILURE_NOTIFICATION) ∧
    (mod_process x s).2.eap_aka_session.challenge_success =
      s.eap_aka_session.challenge_success ∧
    (((mod_process x s).2.entered = s.entered ++ [.EAP_AKA_SERVER_FAILURE_NOTIFICATION] ∧
        (mod_process x s).2.eap_aka_session.state = .EAP_AKA_SERVER_FAILURE_NOTIFICATION) ∨
      ((mod_process x s).2.entered =
          s.entered ++ [.EAP_AKA_SERVER_FAILURE_NOTIFICATION, .EAP_AKA_SERVER_FAILURE] ∧
        (mod_process x s).2.eap_aka_session.state = .EAP_AKA_SERVER_FAILURE)) := by
  have hfail' : ¬ (mac_valid x (mod_process_decoded x s) (mod_process_vps x s) ∧
      checkcode_valid (mod_process_decoded x s) (mod_process_vps x s) ∧
      res_valid (mod_process_decoded x s) (mod_process_vps x s)) := hfail
  have hstate' : (mod_process_decoded x s).eap_aka_session.state = .EAP_AKA_SERVER_CHALLENGE :=
    hstate
  have hne : s.eap_aka_session.state ≠ .EAP_AKA_SERVER_SUCCESS_NOTIFICATION := by
    rw [hstate]; decide
  have hmp : mod_process x s = (.RLM_MODULE_HANDLED,
      eap_aka_state_enter x (mod_process_decoded x s) .EAP_AKA_SERVER_FAILURE_NOTIFICATION) := by
    unfold mod_process
    simp only [if_neg hne, if_neg hdec, hsub, hstate', hval, if_true,
      challenge_reject x _ _ hfail']
    rfl
  refine ⟨hmp, ?_, ?_⟩
  · rw [hmp]
    exact enter_cs x _ _
  · rw [hmp]
    rcases enter_failure_notification_spec x (mod_process_decoded x s) with ⟨_, hk, _⟩ | ⟨_, hk, _⟩
    · simp only [core, Prod.mk.injEq] at hk
      exact Or.inl ⟨hk.2.2.1, hk.2.1⟩
    · simp only [core, Prod.mk.injEq] at hk
      exact Or.inr ⟨hk.2.2.1, hk.2.1⟩

/-- Witness of C4: correct MAC and RES but a checkcode of the wrong length. -/
theorem rejection_leaves_unauthenticated_witness :
    (sample_session .EAP_AKA_SERVER_CHALLENGE [1, 9]).eap_aka_session.state =
      .EAP_AKA_SERVER_CHALLENGE ∧
    mac_valid sample_ext (sample_session .EAP_AKA_SERVER_CHALLENGE [1, 9]) (sample_vps [1, 9]) ∧
    res_valid (sample_session .EAP_AKA_SERVER_CHALLENGE [1, 9]) (sample_vps [1, 9]) ∧
    ¬ checkcode_valid (sample_session .EAP_AKA_SERVER_CHALLENGE [1, 9]) (sample_vps [1, 9]) ∧
    (mod_process sample_ext (sample_session .EAP_AKA_SERVER_CHALLENGE [1, 9])).1 =
      .RLM_MODULE_HANDLED ∧
    (mod_process sample_ext
      (sample_session .EAP_AKA_SERVER_CHALLENGE [1, 9])).2.eap_aka_session.challenge_success =
      false :=
  have hcc : ¬ checkcode_valid (sample_session .EAP_AKA_SERVER_CHALLENGE [1, 9])
      (sample_vps [1, 9]) := fun h => absurd (h _ rfl).1 (by decide)
  have h := rejection_leaves_unauthenticated sample_ext
    (sample_session .EAP_AKA_SERVER_CHALLENGE [1, 9]) _ rfl (by decide) rfl rfl
    (fun h => hcc h.2.1)
  ⟨rfl, ⟨_, rfl, rfl, by decide, rfl⟩, ⟨_, rfl, rfl, rfl⟩, hcc, by rw [h.1], h.2.1⟩

/-- C5.  On a response that passes the MAC, checkcode and RES checks,
`process_eap_aka_challenge` returns 0, sets `challenge_success` and enters
SuccessNotification when the response contains EAP-AKA-Result-Ind, and
Success otherwise (then the session is in state Success). -/
theorem valid_response_next_state (x : ext) (s : eap_session_t) (vps : List VALUE_PAIR)
    (hmac : mac_valid x s vps) (hcc : checkcode_valid s vps) (hres : res_valid s vps) :
    (∀ ind,
      fr_pair_find_by_child_num vps dict_aka_root fr_attr_num.FR_EAP_AKA_RESULT_IND = some ind →
      process_eap_aka_challenge x s vps =
        (0, eap_aka_state_enter x
          { s with eap_aka_session := { s.eap_aka_session with challenge_success := true } }
          .EAP_AKA_SERVER_SUCCESS_NOTIFICATION) ∧
      ∃ rest, (process_eap_aka_challenge x s vps).2.entered =
        s.entered ++ .EAP_AKA_SERVER_SUCCESS_NOTIFICATION :: rest) ∧
    (fr_pair_find_by_child_num vps dict_aka_root fr_attr_num.FR_EAP_AKA_RESULT_IND = none →
      process_eap_aka_challenge x s vps =
        (0, eap_aka_state_enter x
          { s with eap_aka_session := { s.eap_aka_session with challenge_success := true } }
          .EAP_AKA_SERVER_SUCCESS) ∧
      (process_eap_aka_challenge x s vps).2.entered = s.entered ++ [.EAP_AKA_SERVER_SUCCESS] ∧
      (process_eap_aka_challenge x s vps).2.eap_aka_session.state = .EAP_AKA_SERVER_SUCCESS) ∧
    (process_eap_aka_challenge x s vps).2.eap_aka_session.challenge_success = true := by
  have hr : process_eap_aka_challenge x s vps =
      (0, eap_aka_state_enter x
        { s with eap_aka_session := { s.eap_aka_session with challenge_success := true } }
        (challenge_next_state vps)) := by
    rcases challenge_result x s vps with ⟨_, h⟩ | ⟨hn, _⟩
    · exact h
    · exact absurd ⟨hmac, hcc, hres⟩ hn
  refine ⟨fun ind hi => ?_, fun hn => ?_, ?_⟩
  · have hns : challenge_next_state vps = .EAP_AKA_SERVER_SUCCESS_NOTIFICATION := by
      simp [challenge_next_state, hi]
    rw [hr, hns]
    refine ⟨rfl, ?_⟩
    obtain ⟨_, rest, h2, _⟩ := enter_spec x
      { s with eap_aka_session := { s.eap_aka_session with challenge_success := true } }
      .EAP_AKA_SERVER_SUCCESS_NOTIFICATION
    exact ⟨rest, h2⟩
  · have hns : challenge_next_state vps = .EAP_AKA_SERVER_SUCCESS := by
      simp [challenge_next_state, hn]
    rw [hr, hns]
    refine ⟨rfl, ?_, ?_⟩
    · rw [state_enter_success]; rfl
    · rw [state_enter_success]; rfl
  · rw [hr]
    exact enter_cs x _ _

/-- Witness of C5: a valid response without Result-Ind enters Success. -/
theorem valid_response_next_state_witness :
    mac_valid sample_ext (sample_session .EAP_AKA_SERVER_CHALLENGE [1]) (sample_vps [1]) ∧
    checkcode_valid (sample_session .EAP_AKA_SERVER_CHALLENGE [1]) (sample_vps [1]) ∧
    res_valid (sample_session .EAP_AKA_SERVER_CHALLENGE [1]) (sample_vps [1]) ∧
    (process_eap_aka_challenge sample_ext (sample_session .EAP_AKA_SERVER_CHALLENGE [1])
      (sample_vps [1])).2.eap_aka_session.state = .EAP_AKA_SERVER_SUCCESS ∧
    (process_eap_aka_challenge sample_ext (sample_session .EAP_AKA_SERVER_CHALLENGE [1])
      (sample_vps [1])).2.eap_aka_session.challenge_success = true :=
  have hmac : mac_valid sample_ext (sample_session .EAP_AKA_SERVER_CHALLENGE [1])
      (sample_vps [1]) := ⟨_, rfl, rfl, by decide, rfl⟩
  have hcc : checkcode_valid (sample_session .EAP_AKA_SERVER_CHALLENGE [1]) (sample_vps [1]) :=
    fun cc h => by
      have h' : some _ = some cc := h
      cases h'
      exact ⟨rfl, rfl⟩
  have hres : res_valid (sample_session .EAP_AKA_SERVER_CHALLENGE [1]) (sample_vps [1]) :=
    ⟨_, rfl, rfl, rfl⟩
  have h := valid_response_next_state sample_ext (sample_session .EAP_AKA_SERVER_CHALLENGE [1])
    (sample_vps [1]) hmac hcc hres
  ⟨hmac, hcc, hres, (h.2.1 rfl).2.2, h.2.2⟩

/-! ## The driver `mod_process` (C6 to C9) and the fallback (C10) -/

/-- C7.  In state SuccessNotification `mod_process` ignores the inbound
message: it returns HANDLED, the session is the one obtained by sending
EAP-Success (state Success, EAP code Success, finished), nothing is decoded
into the request packet, and the result is the same whatever the response,
the pairs of the request packet and the helpers (decoder included) are. -/
theorem success_notification_forces_success (x : ext) (s : eap_session_t)
    (hstate : s.eap_aka_session.state = .EAP_AKA_SERVER_SUCCESS_NOTIFICATION) :
    mod_process x s =
      (.RLM_MODULE_HANDLED, (eap_aka_send_eap_success (state_log s .EAP_AKA_SERVER_SUCCESS)).2) ∧
    (mod_process x s).2.eap_aka_session.state = .EAP_AKA_SERVER_SUCCESS ∧
    (mod_process x s).2.this_round_request.code = FR_EAP_CODE_SUCCESS ∧
    (mod_process x s).2.finished = true ∧
    (mod_process x s).2.entered = s.entered ++ [.EAP_AKA_SERVER_SUCCESS] ∧
    (mod_process x s).2.request_packet_vps = s.request_packet_vps ∧
    (∀ (y : ext) (response : eap_packet_t) (vps : List VALUE_PAIR),
      mod_process y { s with this_round_response := response, request_packet_vps := vps } =
        (.RLM_MODULE_HANDLED,
          { (mod_process x s).2 with this_round_response := response, request_packet_vps := vps })) := by
  have hmp : ∀ (y : ext) (u : eap_session_t),
      u.eap_aka_session.state = .EAP_AKA_SERVER_SUCCESS_NOTIFICATION →
      mod_process y u =
        (.RLM_MODULE_HANDLED, (eap_aka_send_eap_success (state_log u .EAP_AKA_SERVER_SUCCESS)).2) := by
    intro y u hu
    unfold mod_process
    rw [if_pos hu, state_enter_success]
  refine ⟨hmp x s hstate, ?_, ?_, ?_, ?_, ?_, ?_⟩
  · rw [hmp x s hstate]; rfl
  · rw [hmp x s hstate]; rfl
  · rw [hmp x s hstate]; rfl
  · rw [hmp x s hstate]; rfl
  · rw [hmp x s hstate]; rfl
  · intro y response vps
    rw [hmp x s hstate,
      hmp y { s with this_round_response := response, request_packet_vps := vps } hstate]
    rfl

/-- Witness of C7: a response that does not decode, in state SuccessNotification. -/
theorem success_notification_forces_success_witness :
    (sample_ext.fr_sim_decode
      (sample_session .EAP_AKA_SERVER_SUCCESS_NOTIFICATION []).this_round_response.type_data
      (sample_session .EAP_AKA_SERVER_SUCCESS_NOTIFICATION []).eap_aka_session.keys).1 < 0 ∧
    (mod_process sample_ext (sample_session .EAP_AKA_SERVER_SUCCESS_NOTIFICATION [])).1 =
      .RLM_MODULE_HANDLED ∧
    (mod_process sample_ext
      (sample_session .EAP_AKA_SERVER_SUCCESS_NOTIFICATION [])).2.eap_aka_session.state =
      .EAP_AKA_SERVER_SUCCESS :=
  have h := success_notification_forces_success sample_ext
    (sample_session .EAP_AKA_SERVER_SUCCESS_NOTIFICATION []) rfl
  ⟨by decide, by rw [h.1], h.2.1⟩

/-- C8.  Peer-initiated rejects go straight to Failure: in state Challenge
with subtype AuthenticationReject or ClientError, and in state Identity with
subtype ClientError (whether or not a client error code is present),
`mod_process` returns REJECT and its result is the one of entering Failure:
state Failure, EAP code Failure, finished; Failure is the only state entered
and no notification is composed (the reply and the message id counter are
untouched). -/
theorem peer_reject_goes_to_failure (x : ext) (s : eap_session_t) (subtype_vp : VALUE_PAIR)
    (hdec : ¬ (x.fr_sim_decode s.this_round_response.type_data s.eap_aka_session.keys).1 < 0)
    (hsub : fr_pair_find_by_child_num (mod_process_vps x s) dict_aka_root
      fr_attr_num.FR_EAP_AKA_SUBTYPE = some subtype_vp)
    (hcase :
      (s.eap_aka_session.state = .EAP_AKA_SERVER_CHALLENGE ∧
        (subtype_vp.vp_uint16 = EAP_AKA_AUTHENTICATION_REJECT ∨
          subtype_vp.vp_uint16 = EAP_AKA_CLIENT_ERROR)) ∨
      (s.eap_aka_session.state = .EAP_AKA_SERVER_IDENTITY ∧
        subtype_vp.vp_uint16 = EAP_AKA_CLIENT_ERROR)) :
    mod_process x s = (.RLM_MODULE_REJECT,
      eap_aka_state_enter x (mod_process_decoded x s) .EAP_AKA_SERVER_FAILURE) ∧
    (mod_process x s).2.eap_aka_session.state = .EAP_AKA_SERVER_FAILURE ∧
    (mod_process x s).2.this_round_request.code = FR_EAP_CODE_FAILURE ∧
    (mod_process x s).2.finished = true ∧
    (mod_process x s).2.entered = s.entered ++ [.EAP_AKA_SERVER_FAILURE] ∧
    (mod_process x s).2.request_reply_vps = s.request_reply_vps ∧
    (mod_process x s).2.eap_aka_session.aka_id = s.eap_aka_session.aka_id := by
  have hmp : mod_process x s = (.RLM_MODULE_REJECT,
      eap_aka_state_enter x (mod_process_decoded x s) .EAP_AKA_SERVER_FAILURE) := by
    rcases hcase with ⟨hstate, hv | hv⟩ | ⟨hstate, hv⟩
    all_goals
      have hstate' : (mod_process_decoded x s).eap_aka_session.state = _ := hstate
      have hne : s.eap_aka_session.state ≠ .EAP_AKA_SERVER_SUCCESS_NOTIFICATION := by
        rw [hstate]; decide
      unfold mod_process
      simp only [if_neg hne, if_neg hdec, hsub, hstate', hv]
      rfl
  have hk := enter_failure_spec x (mod_process_decoded x s)
  simp only [core, Prod.mk.injEq] at hk
  rw [hmp]
  exact ⟨rfl, hk.1.2.1, hk.2.1, hk.1.2.2.2, hk.1.2.2.1, hk.2.2.1, hk.2.2.2⟩

/-- Witness of C8: AuthenticationReject received in state Challenge. -/
theorem peer_reject_goes_to_failure_witness :
    (sample_session .EAP_AKA_SERVER_CHALLENGE [2]).eap_aka_session.state =
      .EAP_AKA_SERVER_CHALLENGE ∧
    (mod_process sample_ext (sample_session .EAP_AKA_SERVER_CHALLENGE [2])).1 =
      .RLM_MODULE_REJECT ∧
    (mod_process sample_ext (sample_session .EAP_AKA_SERVER_CHALLENGE [2])).2.entered =
      [.EAP_AKA_SERVER_FAILURE] ∧
    (mod_process sample_ext (sample_session .EAP_AKA_SERVER_CHALLENGE [2])).2.finished = true :=
  have h := peer_reject_goes_to_failure sample_ext (sample_session .EAP_AKA_SERVER_CHALLENGE [2])
    _ (by decide) rfl (Or.inl ⟨rfl, Or.inl rfl⟩)
  ⟨rfl, by rw [h.1], h.2.2.2.2.1, h.2.2.2.1⟩

/-- C9.  Outside state SuccessNotification, a response that cannot be
decoded, or that decodes to pairs without EAP-AKA-Subtype, makes
`mod_process` return HANDLED with the result of entering
FailureNotification: the first state entered is FailureNotification, and the
session stays there with an EAP request unless composing the notification
failed, in which case it falls back to Failure. -/
theorem undecodable_is_notified (x : ext) (s : eap_session_t)
    (hstate : s.eap_aka_session.state ≠ .EAP_AKA_SERVER_SUCCESS_NOTIFICATION)
    (hbad : (x.fr_sim_decode s.this_round_response.type_data s.eap_aka_session.keys).1 < 0 ∨
      fr_pair_find_by_child_num (mod_process_vps x s) dict_aka_root
        fr_attr_num.FR_EAP_AKA_SUBTYPE = none) :
    mod_process x s = (.RLM_MODULE_HANDLED,
      eap_aka_state_enter x (mod_process_decoded x s) .EAP_AKA_SERVER_FAILURE_NOTIFICATION) ∧
    (((mod_process x s).2.entered = s.entered ++ [.EAP_AKA_SERVER_FAILURE_NOTIFICATION] ∧
        (mod_process x s).2.eap_aka_session.state = .EAP_AKA_SERVER_FAILURE_NOTIFICATION ∧
        (mod_process x s).2.this_round_request.code = FR_EAP_CODE_REQUEST) ∨
      ((eap_aka_send_eap_failure_notification x
          (state_log (mod_process_decoded x s) .EAP_AKA_SERVER_FAILURE_NOTIFICATION)).1 < 0 ∧
        (mod_process x s).2.entered =
          s.entered ++ [.EAP_AKA_SERVER_FAILURE_NOTIFICATION, .EAP_AKA_SERVER_FAILURE] ∧
        (mod_process x s).2.eap_aka_session.state = .EAP_AKA_SERVER_FAILURE)) := by
  have hmp : mod_process x s = (.RLM_MODULE_HANDLED,
      eap_aka_state_enter x (mod_process_decoded x s) .EAP_AKA_SERVER_FAILURE_NOTIFICATION) := by
    unfold mod_process
    rw [if_neg hstate]
    by_cases hdec : (x.fr_sim_decode s.this_round_response.type_data s.eap_aka_session.keys).1 < 0
    · simp only [if_pos hdec]
    · rcases hbad with h | h
      · exact absurd h hdec
      · simp only [if_neg hdec, h]
  refine ⟨hmp, ?_⟩
  rw [hmp]
  rcases enter_failure_notification_spec x (mod_process_decoded x s) with ⟨_, hk, hc⟩ | ⟨hf, hk, _⟩
  · simp only [core, Prod.mk.injEq] at hk
    exact Or.inl ⟨hk.2.2.1, hk.2.1, hc⟩
  · simp only [core, Prod.mk.injEq] at hk
    exact Or.inr ⟨hf, hk.2.2.1, hk.2.1⟩

/-- Witness of C9: an empty response does not decode, in state Identity. -/
theorem undecodable_is_notified_witness :
    (sample_session .EAP_AKA_SERVER_IDENTITY []).eap_aka_session.state ≠
      .EAP_AKA_SERVER_SUCCESS_NOTIFICATION ∧
    (sample_ext.fr_sim_decode
      (sample_session .EAP_AKA_SERVER_IDENTITY []).this_round_response.type_data
      (sample_session .EAP_AKA_SERVER_IDENTITY []).eap_aka_session.keys).1 < 0 ∧
    mod_process sample_ext (sample_session .EAP_AKA_SERVER_IDENTITY []) =
      (.RLM_MODULE_HANDLED,
        eap_aka_state_enter sample_ext
          (mod_process_decoded sample_ext (sample_session .EAP_AKA_SERVER_IDENTITY []))
          .EAP_AKA_SERVER_FAILURE_NOTIFICATION) :=
  ⟨by decide, by decide,
    (undecodable_is_notified sample_ext (sample_session .EAP_AKA_SERVER_IDENTITY [])
      (by decide) (Or.inl (by decide))).1⟩

/-- C10.  Failure-notification fallback: when `eap_aka_state_enter` enters
FailureNotification and composing the failure notification fails, the
session ends in state Failure with EAP code Failure and finished; in every
case the session has either composed a notification request (state
FailureNotification, EAP code Request) or reached the terminal Failure. -/
theorem failure_notification_fallback (x : ext) (s : eap_session_t) :
    ((eap_aka_send_eap_failure_notification x
        (state_log s .EAP_AKA_SERVER_FAILURE_NOTIFICATION)).1 < 0 →
      (eap_aka_state_enter x s .EAP_AKA_SERVER_FAILURE_NOTIFICATION).eap_aka_session.state =
        .EAP_AKA_SERVER_FAILURE ∧
      (eap_aka_state_enter x s .EAP_AKA_SERVER_FAILURE_NOTIFICATION).this_round_request.code =
        FR_EAP_CODE_FAILURE ∧
      (eap_aka_state_enter x s .EAP_AKA_SERVER_FAILURE_NOTIFICATION).finished = true ∧
      (eap_aka_state_enter x s .EAP_AKA_SERVER_FAILURE_NOTIFICATION).entered =
        s.entered ++ [.EAP_AKA_SERVER_FAILURE_NOTIFICATION, .EAP_AKA_SERVER_FAILURE]) ∧
    (((eap_aka_send_eap_failure_notification x
          (state_log s .EAP_AKA_SERVER_FAILURE_NOTIFICATION)).1 = 0 ∧
        eap_aka_state_enter x s .EAP_AKA_SERVER_FAILURE_NOTIFICATION =
          (eap_aka_send_eap_failure_notification x
            (state_log s .EAP_AKA_SERVER_FAILURE_NOTIFICATION)).2 ∧
        (eap_aka_state_enter x s .EAP_AKA_SERVER_FAILURE_NOTIFICATION).eap_aka_session.state =
          .EAP_AKA_SERVER_FAILURE_NOTIFICATION ∧
        (eap_aka_state_enter x s .EAP_AKA_SERVER_FAILURE_NOTIFICATION).this_round_request.code =
          FR_EAP_CODE_REQUEST) ∨
      ((eap_aka_state_enter x s .EAP_AKA_SERVER_FAILURE_NOTIFICATION).eap_aka_session.state =
          .EAP_AKA_SERVER_FAILURE ∧
        (eap_aka_state_enter x s .EAP_AKA_SERVER_FAILURE_NOTIFICATION).this_round_request.code =
          FR_EAP_CODE_FAILURE ∧
        (eap_aka_state_enter x s .EAP_AKA_SERVER_FAILURE_NOTIFICATION).finished = true)) := by
  have hret : (eap_aka_send_eap_failure_notification x
        (state_log s .EAP_AKA_SERVER_FAILURE_NOTIFICATION)).1 < 0 ∨
      (eap_aka_send_eap_failure_notification x
        (state_log s .EAP_AKA_SERVER_FAILURE_NOTIFICATION)).1 = 0 := by
    unfold eap_aka_send_eap_failure_notification
    simp only []
    split_ifs <;> simp
  rcases enter_failure_notification_spec x s with ⟨hf, hk, hc⟩ | ⟨hf, hk, hc⟩
  · simp only [core, Prod.mk.injEq] at hk
    refine ⟨fun h => absurd h hf, Or.inl ⟨?_, ?_, hk.2.1, hc⟩⟩
    · rcases hret with h | h
      · exact absurd h hf
      · exact h
    · rw [state_enter_failure_notification, if_neg hf]
  · simp only [core, Prod.mk.injEq] at hk
    exact ⟨fun _ => ⟨hk.2.1, hc, hk.2.2.2, hk.2.2.1⟩, Or.inr ⟨hk.2.1, hc, hk.2.2.2⟩⟩

/-- Witness of C10: with an encoder that fails, entering FailureNotification
ends in Failure. -/
theorem failure_notification_fallback_witness :
    (eap_aka_send_eap_failure_notification sample_ext_encode_fails
      (state_log (sample_session .EAP_AKA_SERVER_CHALLENGE [1])
        .EAP_AKA_SERVER_FAILURE_NOTIFICATION)).1 < 0 ∧
    (eap_aka_state_enter sample_ext_encode_fails (sample_session .EAP_AKA_SERVER_CHALLENGE [1])
      .EAP_AKA_SERVER_FAILURE_NOTIFICATION).eap_aka_session.state = .EAP_AKA_SERVER_FAILURE ∧
    (eap_aka_state_enter sample_ext_encode_fails (sample_session .EAP_AKA_SERVER_CHALLENGE [1])
      .EAP_AKA_SERVER_FAILURE_NOTIFICATION).finished = true :=
  have h := (failure_notification_fallback sample_ext_encode_fails
    (sample_session .EAP_AKA_SERVER_CHALLENGE [1])).1 (by decide)
  ⟨by decide, h.1, h.2.2.1⟩

theorem process_identity_cs (x : ext) (s : eap_session_t) (vps : List VALUE_PAIR) :
    (process_eap_aka_identity x s vps).2.eap_aka_session.challenge_success =
      s.eap_aka_session.challenge_success := by
  unfold process_eap_aka_identity
  simp only []
  split_ifs
  · rfl
  · cases s.eap_aka_session.id_req <;> simp only [enter_cs]

/-- One call of `mod_process` either keeps `challenge_success`, or handles a
Challenge response in state Challenge that passes the three checks and sets
it. -/
theorem mod_process_cs (x : ext) (s : eap_session_t) :
    (mod_process x s).2.eap_aka_session.challenge_success =
        s.eap_aka_session.challenge_success ∨
      ((mod_process x s).2.eap_aka_session.challenge_success = true ∧
        s.eap_aka_session.state = .EAP_AKA_SERVER_CHALLENGE ∧
        mac_valid x s (mod_process_vps x s) ∧ checkcode_valid s (mod_process_vps x s) ∧
        res_valid s (mod_process_vps x s)) := by
  unfold mod_process
  by_cases h1 : s.eap_aka_session.state = .EAP_AKA_SERVER_SUCCESS_NOTIFICATION
  · left; rw [if_pos h1]; exact enter_cs x _ _
  rw [if_neg h1]
  simp only []
  by_cases h2 : (x.fr_sim_decode s.this_round_response.type_data s.eap_aka_session.keys).1 < 0
  · left; rw [if_pos h2]; exact enter_cs x _ _
  rw [if_neg h2]
  rcases fr_pair_find_by_child_num (mod_process_vps x s) dict_aka_root
      fr_attr_num.FR_EAP_AKA_SUBTYPE with _ | sv
  · left; exact enter_cs x _ _
  simp only []
  have hst : (mod_process_decoded x s).eap_aka_session.state = s.eap_aka_session.state := rfl
  rw [hst]
  cases hs : s.eap_aka_session.state with
  | EAP_AKA_SERVER_CHALLENGE =>
    simp only []
    by_cases hc : sv.vp_uint16 = EAP_AKA_CHALLENGE
    · rw [if_pos hc]
      rcases challenge_result x (mod_process_decoded x s) (mod_process_vps x s) with
        ⟨hv, hr⟩ | ⟨_, hr⟩
      · right
        rw [hr]
        exact ⟨enter_cs x _ _, trivial, hv⟩
      · left
        rw [hr]
        simp only [show ¬ ((-1 : Int) = 0) by decide, if_false]
        exact enter_cs x _ _
    · left
      rw [if_neg hc]
      unfold mod_process_notification mod_process_unexpected_subtype
      split_ifs <;> exact enter_cs x _ _
  | EAP_AKA_SERVER_IDENTITY =>
    left
    simp only []
    unfold mod_process_notification mod_process_unexpected_subtype
    split_ifs
    · exact process_identity_cs x _ _
    · exact (enter_cs x _ _).trans (process_identity_cs x _ _)
    all_goals exact enter_cs x _ _
  | _ =>
    left
    simp only []
    try unfold mod_process_unexpected_subtype
    try split_ifs
    all_goals exact enter_cs x _ _

theorem session_init_cs (x : ext) (inst : rlm_eap_aka_t) (s : eap_session_t) :
    (mod_session_init x inst s).2.eap_aka_session.challenge_success = false := by
  unfold mod_session_init
  simp only []
  split_ifs
  all_goals first
    | (rw [enter_cs]; rfl)
    | (split <;> (rw [enter_cs]; rfl))

theorem run_append (x : ext) (s : eap_session_t) (ms ns : List round) :
    run x s (ms ++ ns) = run x (run x s ms) ns := by
  induction ms generalizing s with
  | nil => rfl
  | cons m ms ih => exact ih _

theorem run_cs_mono (x : ext) (s : eap_session_t) (ms : List round)
    (h : s.eap_aka_session.challenge_success = true) :
    (run x s ms).eap_aka_session.challenge_success = true := by
  induction ms generalizing s with
  | nil => exact h
  | cons m ms ih =>
    apply ih
    rcases mod_process_cs x (deliver s m) with hk | hk
    · rw [hk]; exact h
    · exact hk.1

/-- C6.  `challenge_success` is monotone and earned: after `mod_session_init`
it is false; in a run of `mod_process` calls it turns from false to true
only in a call handling, in state Challenge, a response whose MAC check and
RES check (RES equal to XRES) both passed; and once it is true it is true
after every further call. -/
theorem challenge_success_monotone_earned (x : ext) (inst : rlm_eap_aka_t) (s0 : eap_session_t) :
    (mod_session_init x inst s0).2.eap_aka_session.challenge_success = false ∧
    (∀ (ms : List round) (m : round),
      (run x (mod_session_init x inst s0).2 ms).eap_aka_session.challenge_success = false →
      (run x (mod_session_init x inst s0).2 (ms ++ [m])).eap_aka_session.challenge_success = true →
      (run x (mod_session_init x inst s0).2 ms).eap_aka_session.state =
          .EAP_AKA_SERVER_CHALLENGE ∧
        mac_valid x (deliver (run x (mod_session_init x inst s0).2 ms) m)
          (mod_process_vps x (deliver (run x (mod_session_init x inst s0).2 ms) m)) ∧
        res_valid (deliver (run x (mod_session_init x inst s0).2 ms) m)
          (mod_process_vps x (deliver (run x (mod_session_init x inst s0).2 ms) m))) ∧
    (∀ (ms ns : List round),
      (run x (mod_session_init x inst s0).2 ms).eap_aka_session.challenge_success = true →
      (run x (mod_session_init x inst s0).2 (ms ++ ns)).eap_aka_session.challenge_success = true) := by
  refine ⟨session_init_cs x inst s0, fun ms m hf ht => ?_, fun ms ns h => ?_⟩
  · rw [run_append] at ht
    have ht' : (mod_process x (deliver (run x (mod_session_init x inst s0).2 ms) m)
        ).2.eap_aka_session.challenge_success = true := ht
    rcases mod_process_cs x (deliver (run x (mod_session_init x inst s0).2 ms) m) with hk | hk
    · rw [ht'] at hk
      have hf' : (deliver (run x (mod_session_init x inst s0).2 ms) m
          ).eap_aka_session.challenge_success = false := hf
      rw [hf'] at hk
      cases hk
    · exact ⟨hk.2.1, hk.2.2.1, hk.2.2.2.2⟩
  · rw [run_append]
    exact run_cs_mono x _ ns h

/-! ## Entering Challenge (C11) -/

/-- The value `eap_aka_send_challenge` returns: `RLM_MODULE_FAIL` when the
vector cannot be acquired, `-1` on the other failures, `0` on success. -/
theorem send_challenge_ret (x : ext) (s : eap_session_t) :
    (eap_aka_send_challenge x s).1 = rlm_rcode_t.RLM_MODULE_FAIL.toInt ∨
      (eap_aka_send_challenge x s).1 = -1 ∨ (eap_aka_send_challenge x s).1 = 0 := by
  unfold eap_aka_send_challenge
  simp only []
  split_ifs <;> (try split) <;> (try split_ifs) <;> simp

/-- C11, the code at the failing input.  When the vector provider fails,
`eap_aka_send_challenge` returns `RLM_MODULE_FAIL`, which is not negative, so
`eap_aka_state_enter` does not enter FailureNotification: the session stays
in state Challenge, Challenge is the only state entered, and no message is
composed (the request packet, the reply and the message id counter are as
before). -/
theorem challenge_vector_failure_stays_in_challenge :
    (sample_ext_vector_fails.fr_sim_vector_umts_from_attrs
        (sample_session .EAP_AKA_SERVER_IDENTITY [5]).identity []
        (sample_session .EAP_AKA_SERVER_IDENTITY [5]).eap_aka_session.keys).1 < 0 ∧
    (eap_aka_send_challenge sample_ext_vector_fails
      (state_log (sample_session .EAP_AKA_SERVER_IDENTITY [5]) .EAP_AKA_SERVER_CHALLENGE)).1 = 1 ∧
    (eap_aka_state_enter sample_ext_vector_fails (sample_session .EAP_AKA_SERVER_IDENTITY [5])
      .EAP_AKA_SERVER_CHALLENGE).eap_aka_session.state = .EAP_AKA_SERVER_CHALLENGE ∧
    (eap_aka_state_enter sample_ext_vector_fails (sample_session .EAP_AKA_SERVER_IDENTITY [5])
      .EAP_AKA_SERVER_CHALLENGE).entered = [.EAP_AKA_SERVER_CHALLENGE] ∧
    (eap_aka_state_enter sample_ext_vector_fails (sample_session .EAP_AKA_SERVER_IDENTITY [5])
      .EAP_AKA_SERVER_CHALLENGE).this_round_request =
      (sample_session .EAP_AKA_SERVER_IDENTITY [5]).this_round_request ∧
    (eap_aka_state_enter sample_ext_vector_fails (sample_session .EAP_AKA_SERVER_IDENTITY [5])
      .EAP_AKA_SERVER_CHALLENGE).request_reply_vps = [] ∧
    (eap_aka_state_enter sample_ext_vector_fails (sample_session .EAP_AKA_SERVER_IDENTITY [5])
      .EAP_AKA_SERVER_CHALLENGE).eap_aka_session.aka_id =
      (sample_session .EAP_AKA_SERVER_IDENTITY [5]).eap_aka_session.aka_id ∧
    (eap_aka_state_enter sample_ext_vector_fails (sample_session .EAP_AKA_SERVER_IDENTITY [5])
      .EAP_AKA_SERVER_CHALLENGE).finished = false := by
  rw [state_enter_challenge]
  decide

theorem send_challenge_failure_notifies (x : ext) (s : eap_session_t)
    (h : (eap_aka_send_challenge x (state_log s .EAP_AKA_SERVER_CHALLENGE)).1 = -1) :
    eap_aka_state_enter x s .EAP_AKA_SERVER_CHALLENGE =
      eap_aka_state_enter x (eap_aka_send_challenge x (state_log s .EAP_AKA_SERVER_CHALLENGE)).2
        .EAP_AKA_SERVER_FAILURE_NOTIFICATION := by
  rw [state_enter_challenge, h]
  simp

theorem send_challenge_fail_code_stays (x : ext) (s : eap_session_t)
    (h : (eap_aka_send_challenge x (state_log s .EAP_AKA_SERVER_CHALLENGE)).1 =
      rlm_rcode_t.RLM_MODULE_FAIL.toInt) :
    eap_aka_state_enter x s .EAP_AKA_SERVER_CHALLENGE =
        (eap_aka_send_challenge x (state_log s .EAP_AKA_SERVER_CHALLENGE)).2 ∧
      (eap_aka_state_enter x s .EAP_AKA_SERVER_CHALLENGE).eap_aka_session.state =
        .EAP_AKA_SERVER_CHALLENGE := by
  have he : eap_aka_state_enter x s .EAP_AKA_SERVER_CHALLENGE =
      (eap_aka_send_challenge x (state_log s .EAP_AKA_SERVER_CHALLENGE)).2 := by
    rw [state_enter_challenge, h]
    simp [rlm_rcode_t.toInt]
  refine ⟨he, ?_⟩
  rw [he]
  have hc := send_challenge_core x (state_log s .EAP_AKA_SERVER_CHALLENGE)
  rw [core_state_log] at hc
  simp only [core, Prod.mk.injEq] at hc
  exact hc.2.1

/-! ## Settings kept by every state entry -/

theorem send_identity_request_config (x : ext) (s : eap_session_t) :
    config (eap_aka_send_identity_request x s).2 = config s := by
  unfold eap_aka_send_identity_request
  simp only [config]
  split_ifs <;> simp [compose_session]

theorem send_challenge_config (x : ext) (s : eap_session_t) :
    config (eap_aka_send_challenge x s).2 = config s := by
  unfold eap_aka_send_challenge
  simp only [config]
  split_ifs <;> (try split) <;> (try split_ifs) <;> simp [compose_session]

theorem send_success_notification_config (x : ext) (s : eap_session_t) :
    config (eap_aka_send_eap_success_notification x s).2 = config s := by
  unfold eap_aka_send_eap_success_notification
  simp only [config]
  split_ifs <;> simp [compose_session]

theorem send_failure_notification_config (x : ext) (s : eap_session_t) :
    config (eap_aka_send_eap_failure_notification x s).2 = config s := by
  unfold eap_aka_send_eap_failure_notification
  simp only [config]
  split_ifs <;> simp [compose_session]

/-- A projection of the session that the log entry and the six composers
keep is kept by every state entry. -/
theorem enter_frame {α : Type} (P : eap_session_t → α) (x : ext)
    (hlog : ∀ s t, P (state_log s t) = P s)
    (hid : ∀ s, P (eap_aka_send_identity_request x s).2 = P s)
    (hch : ∀ s, P (eap_aka_send_challenge x s).2 = P s)
    (hsn : ∀ s, P (eap_aka_send_eap_success_notification x s).2 = P s)
    (hsu : ∀ s, P (eap_aka_send_eap_success s).2 = P s)
    (hfn : ∀ s, P (eap_aka_send_eap_failure_notification x s).2 = P s)
    (hfa : ∀ s, P (eap_aka_send_eap_failure s).2 = P s)
    (s : eap_session_t) (t : eap_aka_server_state_t) :
    P (eap_aka_state_enter x s t) = P s := by
  have hF : ∀ u, P (eap_aka_state_enter x u .EAP_AKA_SERVER_FAILURE) = P u := by
    intro u
    rw [state_enter_failure, hfa, hlog]
  have hN : ∀ u, P (eap_aka_state_enter x u .EAP_AKA_SERVER_FAILURE_NOTIFICATION) = P u := by
    intro u
    rw [state_enter_failure_notification]
    split_ifs
    · rw [hF, hfn, hlog]
    · rw [hfn, hlog]
  cases t with
  | EAP_AKA_SERVER_IDENTITY =>
    rw [state_enter_identity]
    split_ifs
    · rw [hN, hid, hlog]
    · rw [hid, hlog]
  | EAP_AKA_SERVER_CHALLENGE =>
    rw [state_enter_challenge]
    split_ifs
    · rw [hN, hch, hlog]
    · rw [hch, hlog]
  | EAP_AKA_SERVER_SUCCESS_NOTIFICATION =>
    rw [state_enter_success_notification]
    split_ifs
    · rw [hN, hsn, hlog]
    · rw [hsn, hlog]
  | EAP_AKA_SERVER_SUCCESS => rw [state_enter_success, hsu, hlog]
  | EAP_AKA_SERVER_FAILURE_NOTIFICATION => exact hN s
  | EAP_AKA_SERVER_FAILURE => exact hF s

theorem enter_config (x : ext) (s : eap_session_t) (t : eap_aka_server_state_t) :
    config (eap_aka_state_enter x s t) = config s :=
  enter_frame config x (fun _ _ => rfl) (send_identity_request_config x)
    (send_challenge_config x) (send_success_notification_config x) (fun _ => rfl)
    (send_failure_notification_config x) (fun _ => rfl) s t

theorem enter_id_req (x : ext) (s : eap_session_t) (t : eap_aka_server_state_t) :
    (eap_aka_state_enter x s t).eap_aka_session.id_req = s.eap_aka_session.id_req := by
  have h := enter_config x s t
  simp only [config, Prod.mk.injEq] at h
  exact h.1

/-! ## The identity ladder (C12) -/

/-- The session `process_eap_aka_identity` steps the ladder on: the response
is digested and the identity of an EAP-AKA-Identity pair, if any, is stored. -/
theorem process_identity_digest_failure (x : ext) (s : eap_session_t) (vps : List VALUE_PAIR)
    (h : (x.fr_sim_crypto_update_checkcode s.eap_aka_session.checkcode_state
      s.this_round_response).1 < 0) :
    process_eap_aka_identity x s vps =
      (-1, { s with eap_aka_session := { s.eap_aka_session with
        checkcode_state := (x.fr_sim_crypto_update_checkcode s.eap_aka_session.checkcode_state
          s.this_round_response).2 } }) := by
  unfold process_eap_aka_identity
  simp only [if_pos h]

theorem process_identity_step (x : ext) (s : eap_session_t) (vps : List VALUE_PAIR)
    (h : ¬ (x.fr_sim_crypto_update_checkcode s.eap_aka_session.checkcode_state
      s.this_round_response).1 < 0) :
    (s.eap_aka_session.id_req = .SIM_ANY_ID_REQ →
      (process_eap_aka_identity x s vps).1 = 0 ∧
      (process_eap_aka_identity x s vps).2.eap_aka_session.id_req = .SIM_FULLAUTH_ID_REQ ∧
      ∃ rest, (process_eap_aka_identity x s vps).2.entered =
        s.entered ++ .EAP_AKA_SERVER_IDENTITY :: rest) ∧
    (s.eap_aka_session.id_req = .SIM_FULLAUTH_ID_REQ →
      (process_eap_aka_identity x s vps).1 = 0 ∧
      (process_eap_aka_identity x s vps).2.eap_aka_session.id_req = .SIM_PERMANENT_ID_REQ ∧
      ∃ rest, (process_eap_aka_identity x s vps).2.entered =
        s.entered ++ .EAP_AKA_SERVER_IDENTITY :: rest) ∧
    (s.eap_aka_session.id_req = .SIM_PERMANENT_ID_REQ →
      (process_eap_aka_identity x s vps).1 = 0 ∧
      (process_eap_aka_identity x s vps).2.eap_aka_session.id_req = .SIM_PERMANENT_ID_REQ ∧
      ∃ rest, (process_eap_aka_identity x s vps).2.entered =
        s.entered ++ .EAP_AKA_SERVER_CHALLENGE :: rest) ∧
    (s.eap_aka_session.id_req = .SIM_NO_ID_REQ →
      (process_eap_aka_identity x s vps).1 = -1 ∧
      (process_eap_aka_identity x s vps).2.eap_aka_session.id_req = .SIM_NO_ID_REQ ∧
      (process_eap_aka_identity x s vps).2.entered = s.entered) := by
  unfold process_eap_aka_identity
  simp only [if_neg h]
  refine ⟨fun hl => ?_, fun hl => ?_, fun hl => ?_, fun hl => ?_⟩
  all_goals simp only [hl]
  · exact ⟨trivial, by rw [enter_id_req], (enter_spec x _ _).2.imp (fun _ h => h.1)⟩
  · exact ⟨trivial, by rw [enter_id_req], (enter_spec x _ _).2.imp (fun _ h => h.1)⟩
  · exact ⟨trivial, by rw [enter_id_req], (enter_spec x _ _).2.imp (fun _ h => h.1)⟩
  · exact ⟨trivial, trivial, trivial⟩

theorem process_identity_rank (x : ext) (s : eap_session_t) (vps : List VALUE_PAIR) :
    ladder_rank s.eap_aka_session.id_req ≤
      ladder_rank (process_eap_aka_identity x s vps).2.eap_aka_session.id_req := by
  by_cases h : (x.fr_sim_crypto_update_checkcode s.eap_aka_session.checkcode_state
      s.this_round_response).1 < 0
  · exact Nat.le_of_eq (by rw [process_identity_digest_failure x s vps h])
  · obtain ⟨h1, h2, h3, h4⟩ := process_identity_step x s vps h
    cases hl : s.eap_aka_session.id_req with
    | SIM_NO_ID_REQ => rw [(h4 hl).2.1]
    | SIM_ANY_ID_REQ => rw [(h1 hl).2.1]; decide
    | SIM_FULLAUTH_ID_REQ => rw [(h2 hl).2.1]; decide
    | SIM_PERMANENT_ID_REQ => rw [(h3 hl).2.1]

theorem process_challenge_id_req (x : ext) (s : eap_session_t) (vps : List VALUE_PAIR) :
    (process_eap_aka_challenge x s vps).2.eap_aka_session.id_req = s.eap_aka_session.id_req := by
  rcases challenge_result x s vps with ⟨_, h⟩ | ⟨_, h⟩
  · rw [h]; exact enter_id_req x _ _
  · rw [h]

/-- No call of `mod_process` moves the identity request level down the
ladder. -/
theorem mod_process_rank (x : ext) (s : eap_session_t) :
    ladder_rank s.eap_aka_session.id_req ≤
      ladder_rank (mod_process x s).2.eap_aka_session.id_req := by
  have hkeep : ∀ (u : eap_session_t) (t : eap_aka_server_state_t),
      u.eap_aka_session.id_req = s.eap_aka_session.id_req →
      ladder_rank s.eap_aka_session.id_req ≤
        ladder_rank (eap_aka_state_enter x u t).eap_aka_session.id_req := by
    intro u t hu
    rw [enter_id_req, hu]
  unfold mod_process
  by_cases h1 : s.eap_aka_session.state = .EAP_AKA_SERVER_SUCCESS_NOTIFICATION
  · rw [if_pos h1]; exact hkeep _ _ rfl
  rw [if_neg h1]
  simp only []
  by_cases h2 : (x.fr_sim_decode s.this_round_response.type_data s.eap_aka_session.keys).1 < 0
  · rw [if_pos h2]; exact hkeep _ _ rfl
  rw [if_neg h2]
  rcases fr_pair_find_by_child_num (mod_process_vps x s) dict_aka_root
      fr_attr_num.FR_EAP_AKA_SUBTYPE with _ | sv
  · exact hkeep _ _ rfl
  simp only []
  have hst : (mod_process_decoded x s).eap_aka_session.state = s.eap_aka_session.state := rfl
  rw [hst]
  cases hs : s.eap_aka_session.state with
  | EAP_AKA_SERVER_CHALLENGE =>
    simp only []
    unfold mod_process_notification mod_process_unexpected_subtype
    split_ifs
    · exact Nat.le_of_eq (by rw [process_challenge_id_req]; rfl)
    · exact hkeep _ _ (process_challenge_id_req x _ _)
    all_goals exact hkeep _ _ rfl
  | EAP_AKA_SERVER_IDENTITY =>
    simp only []
    unfold mod_process_notification mod_process_unexpected_subtype
    split_ifs
    · exact process_identity_rank x (mod_process_decoded x s) _
    · rw [enter_id_req]
      exact process_identity_rank x (mod_process_decoded x s) _
    all_goals exact hkeep _ _ rfl
  | _ =>
    simp only []
    try unfold mod_process_unexpected_subtype
    try split_ifs
    all_goals exact hkeep _ _ rfl

theorem mod_process_identity_subtype (x : ext) (s : eap_session_t) (subtype_vp : VALUE_PAIR)
    (hstate : s.eap_aka_session.state = .EAP_AKA_SERVER_IDENTITY)
    (hdec : ¬ (x.fr_sim_decode s.this_round_response.type_data s.eap_aka_session.keys).1 < 0)
    (hsub : fr_pair_find_by_child_num (mod_process_vps x s) dict_aka_root
      fr_attr_num.FR_EAP_AKA_SUBTYPE = some subtype_vp)
    (hval : subtype_vp.vp_uint16 = EAP_AKA_IDENTITY) :
    mod_process x s =
      if (process_eap_aka_identity x (mod_process_decoded x s) (mod_process_vps x s)).1 = 0 then
        (.RLM_MODULE_HANDLED,
          (process_eap_aka_identity x (mod_process_decoded x s) (mod_process_vps x s)).2)
      else
        (.RLM_MODULE_HANDLED,
          eap_aka_state_enter x
            (process_eap_aka_identity x (mod_process_decoded x s) (mod_process_vps x s)).2
            .EAP_AKA_SERVER_FAILURE_NOTIFICATION) := by
  have hstate' : (mod_process_decoded x s).eap_aka_session.state = .EAP_AKA_SERVER_IDENTITY :=
    hstate
  have hne : s.eap_aka_session.state ≠ .EAP_AKA_SERVER_SUCCESS_NOTIFICATION := by
    rw [hstate]; decide
  unfold mod_process
  simp only [if_neg hne, if_neg hdec, hsub, hstate', hval, if_true]

theorem mod_process_identity_round (x : ext) (s : eap_session_t) (h : identity_round x s) :
    mod_process x s =
      if (process_eap_aka_identity x (mod_process_decoded x s) (mod_process_vps x s)).1 = 0 then
        (.RLM_MODULE_HANDLED,
          (process_eap_aka_identity x (mod_process_decoded x s) (mod_process_vps x s)).2)
      else
        (.RLM_MODULE_HANDLED,
          eap_aka_state_enter x
            (process_eap_aka_identity x (mod_process_decoded x s) (mod_process_vps x s)).2
            .EAP_AKA_SERVER_FAILURE_NOTIFICATION) := by
  obtain ⟨hstate, hdec, ⟨sv, hsub, hval⟩, _⟩ := h
  exact mod_process_identity_subtype x s sv hstate hdec hsub hval

/-- One identity round handled by the negotiator: the level steps from Any
to FullAuth or from FullAuth to Permanent and Identity is entered again; at
level Permanent the level is kept and Challenge is entered. -/
theorem identity_round_step (x : ext) (s : eap_session_t) (h : identity_round x s) :
    (s.eap_aka_session.id_req = .SIM_ANY_ID_REQ →
      (mod_process x s).1 = .RLM_MODULE_HANDLED ∧
      (mod_process x s).2.eap_aka_session.id_req = .SIM_FULLAUTH_ID_REQ ∧
      ∃ rest, (mod_process x s).2.entered = s.entered ++ .EAP_AKA_SERVER_IDENTITY :: rest) ∧
    (s.eap_aka_session.id_req = .SIM_FULLAUTH_ID_REQ →
      (mod_process x s).1 = .RLM_MODULE_HANDLED ∧
      (mod_process x s).2.eap_aka_session.id_req = .SIM_PERMANENT_ID_REQ ∧
      ∃ rest, (mod_process x s).2.entered = s.entered ++ .EAP_AKA_SERVER_IDENTITY :: rest) ∧
    (s.eap_aka_session.id_req = .SIM_PERMANENT_ID_REQ →
      (mod_process x s).1 = .RLM_MODULE_HANDLED ∧
      (mod_process x s).2.eap_aka_session.id_req = .SIM_PERMANENT_ID_REQ ∧
      ∃ rest, (mod_process x s).2.entered = s.entered ++ .EAP_AKA_SERVER_CHALLENGE :: rest) := by
  have hmp := mod_process_identity_round x s h
  have hdig : ¬ (x.fr_sim_crypto_update_checkcode
      (mod_process_decoded x s).eap_aka_session.checkcode_state
      (mod_process_decoded x s).this_round_response).1 < 0 := h.2.2.2
  obtain ⟨h1, h2, h3, _⟩ := process_identity_step x (mod_process_decoded x s)
    (mod_process_vps x s) hdig
  refine ⟨fun hl => ?_, fun hl => ?_, fun hl => ?_⟩
  · obtain ⟨hr, hi, he⟩ := h1 hl
    rw [hmp, if_pos hr]
    exact ⟨rfl, hi, he⟩
  · obtain ⟨hr, hi, he⟩ := h2 hl
    rw [hmp, if_pos hr]
    exact ⟨rfl, hi, he⟩
  · obtain ⟨hr, hi, he⟩ := h3 hl
    rw [hmp, if_pos hr]
    exact ⟨rfl, hi, he⟩

/-- An Identity response whose digest fails does not step the ladder: the
level is kept and FailureNotification is entered. -/
theorem identity_digest_failure_notifies (x : ext) (s : eap_session_t) (subtype_vp : VALUE_PAIR)
    (hstate : s.eap_aka_session.state = .EAP_AKA_SERVER_IDENTITY)
    (hdec : ¬ (x.fr_sim_decode s.this_round_response.type_data s.eap_aka_session.keys).1 < 0)
    (hsub : fr_pair_find_by_child_num (mod_process_vps x s) dict_aka_root
      fr_attr_num.FR_EAP_AKA_SUBTYPE = some subtype_vp)
    (hval : subtype_vp.vp_uint16 = EAP_AKA_IDENTITY)
    (hdig : (x.fr_sim_crypto_update_checkcode s.eap_aka_session.checkcode_state
      s.this_round_response).1 < 0) :
    (mod_process x s).1 = .RLM_MODULE_HANDLED ∧
    (mod_process x s).2.eap_aka_session.id_req = s.eap_aka_session.id_req ∧
    ((mod_process x s).2.entered = s.entered ++ [.EAP_AKA_SERVER_FAILURE_NOTIFICATION] ∨
      (mod_process x s).2.entered =
        s.entered ++ [.EAP_AKA_SERVER_FAILURE_NOTIFICATION, .EAP_AKA_SERVER_FAILURE]) := by
  have hdig' : (x.fr_sim_crypto_update_checkcode
      (mod_process_decoded x s).eap_aka_session.checkcode_state
      (mod_process_decoded x s).this_round_response).1 < 0 := hdig
  have hp := process_identity_digest_failure x (mod_process_decoded x s) (mod_process_vps x s) hdig'
  have hr : ¬ (process_eap_aka_identity x (mod_process_decoded x s) (mod_process_vps x s)).1 = 0 := by
    rw [hp]
    show ¬ ((-1 : Int) = 0)
    decide
  rw [mod_process_identity_subtype x s subtype_vp hstate hdec hsub hval, if_neg hr, hp]
  refine ⟨rfl, enter_id_req x _ _, ?_⟩
  rcases enter_failure_notification_spec x
      { mod_process_decoded x s with
        eap_aka_session := { (mod_process_decoded x s).eap_aka_session with
          checkcode_state := (x.fr_sim_crypto_update_checkcode
            (mod_process_decoded x s).eap_aka_session.checkcode_state
            (mod_process_decoded x s).this_round_response).2 } } with ⟨_, hk, _⟩ | ⟨_, hk, _⟩
  · simp only [core, Prod.mk.injEq] at hk
    exact Or.inl hk.2.2.1
  · simp only [core, Prod.mk.injEq] at hk
    exact Or.inr hk.2.2.1

theorem enter_identity_state (x : ext) (s : eap_session_t)
    (h : ¬ (eap_aka_send_identity_request x (state_log s .EAP_AKA_SERVER_IDENTITY)).1 < 0) :
    (eap_aka_state_enter x s .EAP_AKA_SERVER_IDENTITY).eap_aka_session.state =
      .EAP_AKA_SERVER_IDENTITY := by
  rw [state_enter_identity, if_neg h]
  have hc := send_identity_request_core x (state_log s .EAP_AKA_SERVER_IDENTITY)
  rw [core_state_log] at hc
  simp only [core, Prod.mk.injEq] at hc
  exact hc.2.1

/-- After an identity round at level Any or FullAuth the session is again in
state Identity when the identity request could be composed and digested. -/
theorem identity_round_stays (x : ext) (s : eap_session_t) (h : identity_round x s)
    (hl : s.eap_aka_session.id_req = .SIM_ANY_ID_REQ ∨
      s.eap_aka_session.id_req = .SIM_FULLAUTH_ID_REQ)
    (hok : ∀ u, ¬ (eap_aka_send_identity_request x u).1 < 0) :
    (mod_process x s).2.eap_aka_session.state = .EAP_AKA_SERVER_IDENTITY := by
  have hmp := mod_process_identity_round x s h
  have hdig : ¬ (x.fr_sim_crypto_update_checkcode
      (mod_process_decoded x s).eap_aka_session.checkcode_state
      (mod_process_decoded x s).this_round_response).1 < 0 := h.2.2.2
  have hl' : (mod_process_decoded x s).eap_aka_session.id_req = .SIM_ANY_ID_REQ ∨
      (mod_process_decoded x s).eap_aka_session.id_req = .SIM_FULLAUTH_ID_REQ := hl
  have hr : (process_eap_aka_identity x (mod_process_decoded x s) (mod_process_vps x s)).1 = 0 := by
    obtain ⟨h1, h2, _, _⟩ := process_identity_step x (mod_process_decoded x s)
      (mod_process_vps x s) hdig
    rcases hl' with hl' | hl'
    · exact (h1 hl').1
    · exact (h2 hl').1
  rw [hmp, if_pos hr]
  unfold process_eap_aka_identity
  simp only [if_neg hdig]
  rcases hl' with hl' | hl'
  · simp only [hl']
    exact enter_identity_state x _ (hok _)
  · simp only [hl']
    exact enter_identity_state x _ (hok _)

theorem compose_ok (x : ext) (s : eap_session_t)
    (henc : ∀ head keys md packet, ¬ (x.fr_sim_encode head keys md packet).1 < 0) :
    ¬ (eap_aka_compose x s).1 < 0 := by
  unfold eap_aka_compose
  simp only []
  split_ifs with h
  · exact absurd h (henc _ _ _ _)
  · show ¬ ((0 : Int) < 0)
    decide

/-- With an encoder and a checkcode digest that do not fail, the identity
request is composed. -/
theorem send_identity_request_ok (x : ext)
    (henc : ∀ head keys md packet, ¬ (x.fr_sim_encode head keys md packet).1 < 0)
    (hinit : ∀ md, ¬ (x.fr_sim_crypto_init_checkcode md).1 < 0)
    (hupd : ∀ st packet, ¬ (x.fr_sim_crypto_update_checkcode st packet).1 < 0)
    (u : eap_session_t) : ¬ (eap_aka_send_identity_request x u).1 < 0 := by
  unfold eap_aka_send_identity_request
  simp only []
  split_ifs with h1 h2 h3
  · exact absurd h1 (compose_ok x _ henc)
  · exfalso
    split at h2
    · exact hinit _ h2
    · exact absurd h2 (show ¬ ((0 : Int) < 0) by decide)
  · exact absurd h3 (hupd _ _)
  · show ¬ ((0 : Int) < 0)
    decide

theorem sample_identity_request_ok (u : eap_session_t) :
    ¬ (eap_aka_send_identity_request sample_ext u).1 < 0 :=
  send_identity_request_ok sample_ext
    (fun _ _ _ _ => by show ¬ ((0 : Int) < 0); decide)
    (fun _ => by show ¬ ((0 : Int) < 0); decide)
    (fun _ _ => by show ¬ ((0 : Int) < 0); decide) u

/-- C12, as amended.  Identity ladder: an Identity response handled in state
Identity and digested into the checkcode without error steps the request
level from Any to FullAuth and from FullAuth to Permanent, entering Identity
again, and at level Permanent keeps the level and enters Challenge; so three
such rounds from level Any see the levels Any, FullAuth, Permanent, the first
two re-enter Identity and only the third enters Challenge.  A response whose
digest fails keeps the level and enters FailureNotification.  No call of
`mod_process` moves the level back to an earlier value. -/
theorem identity_ladder (x : ext) :
    (∀ s, identity_round x s →
      (s.eap_aka_session.id_req = .SIM_ANY_ID_REQ →
        (mod_process x s).1 = .RLM_MODULE_HANDLED ∧
        (mod_process x s).2.eap_aka_session.id_req = .SIM_FULLAUTH_ID_REQ ∧
        ∃ rest, (mod_process x s).2.entered = s.entered ++ .EAP_AKA_SERVER_IDENTITY :: rest) ∧
      (s.eap_aka_session.id_req = .SIM_FULLAUTH_ID_REQ →
        (mod_process x s).1 = .RLM_MODULE_HANDLED ∧
        (mod_process x s).2.eap_aka_session.id_req = .SIM_PERMANENT_ID_REQ ∧
        ∃ rest, (mod_process x s).2.entered = s.entered ++ .EAP_AKA_SERVER_IDENTITY :: rest) ∧
      (s.eap_aka_session.id_req = .SIM_PERMANENT_ID_REQ →
        (mod_process x s).1 = .RLM_MODULE_HANDLED ∧
        (mod_process x s).2.eap_aka_session.id_req = .SIM_PERMANENT_ID_REQ ∧
        ∃ rest, (mod_process x s).2.entered = s.entered ++ .EAP_AKA_SERVER_CHALLENGE :: rest)) ∧
    (∀ s m1 m2 m3, s.eap_aka_session.id_req = .SIM_ANY_ID_REQ →
      identity_round x (deliver s m1) →
      identity_round x (deliver (run x s [m1]) m2) →
      identity_round x (deliver (run x s [m1, m2]) m3) →
      (run x s [m1]).eap_aka_session.id_req = .SIM_FULLAUTH_ID_REQ ∧
      (run x s [m1, m2]).eap_aka_session.id_req = .SIM_PERMANENT_ID_REQ ∧
      (run x s [m1, m2, m3]).eap_aka_session.id_req = .SIM_PERMANENT_ID_REQ ∧
      (∃ rest, (run x s [m1]).entered = s.entered ++ .EAP_AKA_SERVER_IDENTITY :: rest) ∧
      (∃ rest, (run x s [m1, m2]).entered =
        (run x s [m1]).entered ++ .EAP_AKA_SERVER_IDENTITY :: rest) ∧
      (∃ rest, (run x s [m1, m2, m3]).entered =
        (run x s [m1, m2]).entered ++ .EAP_AKA_SERVER_CHALLENGE :: rest)) ∧
    (∀ s subtype_vp, s.eap_aka_session.state = .EAP_AKA_SERVER_IDENTITY →
      ¬ (x.fr_sim_decode s.this_round_response.type_data s.eap_aka_session.keys).1 < 0 →
      fr_pair_find_by_child_num (mod_process_vps x s) dict_aka_root
        fr_attr_num.FR_EAP_AKA_SUBTYPE = some subtype_vp →
      subtype_vp.vp_uint16 = EAP_AKA_IDENTITY →
      (x.fr_sim_crypto_update_checkcode s.eap_aka_session.checkcode_state
        s.this_round_response).1 < 0 →
      (mod_process x s).2.eap_aka_session.id_req = s.eap_aka_session.id_req ∧
      ((mod_process x s).2.entered = s.entered ++ [.EAP_AKA_SERVER_FAILURE_NOTIFICATION] ∨
        (mod_process x s).2.entered =
          s.entered ++ [.EAP_AKA_SERVER_FAILURE_NOTIFICATION, .EAP_AKA_SERVER_FAILURE])) ∧
    (∀ s, ladder_rank s.eap_aka_session.id_req ≤
      ladder_rank (mod_process x s).2.eap_aka_session.id_req) := by
  refine ⟨identity_round_step x, ?_, ?_, mod_process_rank x⟩
  · intro s m1 m2 m3 hl h1 h2 h3
    have e1 : run x s [m1] = (mod_process x (deliver s m1)).2 := rfl
    have e2 : run x s [m1, m2] = (mod_process x (deliver (run x s [m1]) m2)).2 := rfl
    have e3 : run x s [m1, m2, m3] = (mod_process x (deliver (run x s [m1, m2]) m3)).2 := rfl
    obtain ⟨_, a2, a3⟩ := (identity_round_step x _ h1).1 hl
    have hl2 : (deliver (run x s [m1]) m2).eap_aka_session.id_req = .SIM_FULLAUTH_ID_REQ := by
      rw [e1]; exact a2
    obtain ⟨_, b2, b3⟩ := (identity_round_step x _ h2).2.1 hl2
    have hl3 : (deliver (run x s [m1, m2]) m3).eap_aka_session.id_req = .SIM_PERMANENT_ID_REQ := by
      rw [e2]; exact b2
    obtain ⟨_, c2, c3⟩ := (identity_round_step x _ h3).2.2 hl3
    refine ⟨by rw [e1]; exact a2, by rw [e2]; exact b2, by rw [e3]; exact c2, ?_, ?_, ?_⟩
    · rw [e1]; exact a3
    · rw [e2]; exact b3
    · rw [e3]; exact c3
  · intro s sv hstate hdec hsub hval hdig
    exact (identity_digest_failure_notifies x s sv hstate hdec hsub hval hdig).2

/-- Witness of C12: three identity rounds of the sample session walk the
ladder from Any to Permanent. -/
theorem identity_ladder_witness :
    (sample_session .EAP_AKA_SERVER_IDENTITY [5]).eap_aka_session.id_req = .SIM_ANY_ID_REQ ∧
    identity_round sample_ext
      (deliver (sample_session .EAP_AKA_SERVER_IDENTITY [5]) (sample_round [5])) ∧
    (run sample_ext (sample_session .EAP_AKA_SERVER_IDENTITY [5])
      [sample_round [5]]).eap_aka_session.id_req = .SIM_FULLAUTH_ID_REQ ∧
    (run sample_ext (sample_session .EAP_AKA_SERVER_IDENTITY [5])
      [sample_round [5], sample_round [5]]).eap_aka_session.id_req = .SIM_PERMANENT_ID_REQ ∧
    (run sample_ext (sample_session .EAP_AKA_SERVER_IDENTITY [5])
      [sample_round [5], sample_round [5], sample_round [5]]).eap_aka_session.id_req =
      .SIM_PERMANENT_ID_REQ :=
  have h1 : identity_round sample_ext
      (deliver (sample_session .EAP_AKA_SERVER_IDENTITY [5]) (sample_round [5])) :=
    ⟨rfl, by decide, ⟨_, rfl, rfl⟩, by decide⟩
  have a := ((identity_ladder sample_ext).1 _ h1).1 rfl
  have h2 : identity_round sample_ext
      (deliver (run sample_ext (sample_session .EAP_AKA_SERVER_IDENTITY [5]) [sample_round [5]])
        (sample_round [5])) :=
    ⟨identity_round_stays sample_ext _ h1 (Or.inl rfl) sample_identity_request_ok,
      by show ¬ ((0 : Int) < 0); decide, ⟨_, rfl, rfl⟩, by show ¬ ((0 : Int) < 0); decide⟩
  have h3 : identity_round sample_ext
      (deliver (run sample_ext (sample_session .EAP_AKA_SERVER_IDENTITY [5])
        [sample_round [5], sample_round [5]]) (sample_round [5])) :=
    ⟨identity_round_stays sample_ext _ h2 (Or.inr a.2.1) sample_identity_request_ok,
      by show ¬ ((0 : Int) < 0); decide, ⟨_, rfl, rfl⟩, by show ¬ ((0 : Int) < 0); decide⟩
  have r := (identity_ladder sample_ext).2.1 (sample_session .EAP_AKA_SERVER_IDENTITY [5])
    (sample_round [5]) (sample_round [5]) (sample_round [5]) rfl h1 h2 h3
  ⟨rfl, h1, r.1, r.2.1, r.2.2.1⟩

/-- C12, counterexample to the claim as stated.  The sample session is in
state Identity at level Any and receives an Identity response, but the
checkcode digest cannot be updated: the level is still Any after the
response and the only state entered is FailureNotification, not Identity. -/
theorem identity_ladder_counterexample :
    (sample_session .EAP_AKA_SERVER_IDENTITY [5]).eap_aka_session.state =
      .EAP_AKA_SERVER_IDENTITY ∧
    (sample_session .EAP_AKA_SERVER_IDENTITY [5]).eap_aka_session.id_req = .SIM_ANY_ID_REQ ∧
    (∃ subtype_vp, fr_pair_find_by_child_num
        (mod_process_vps sample_ext_digest_fails (sample_session .EAP_AKA_SERVER_IDENTITY [5]))
        dict_aka_root fr_attr_num.FR_EAP_AKA_SUBTYPE = some subtype_vp ∧
      subtype_vp.vp_uint16 = EAP_AKA_IDENTITY) ∧
    (mod_process sample_ext_digest_fails
      (sample_session .EAP_AKA_SERVER_IDENTITY [5])).2.eap_aka_session.id_req = .SIM_ANY_ID_REQ ∧
    (mod_process sample_ext_digest_fails
      (sample_session .EAP_AKA_SERVER_IDENTITY [5])).2.entered =
      [.EAP_AKA_SERVER_FAILURE_NOTIFICATION] := by
  have h := identity_digest_failure_notifies sample_ext_digest_fails
    (sample_session .EAP_AKA_SERVER_IDENTITY [5]) _ rfl (by decide) rfl rfl (by decide)
  have hmp := mod_process_identity_subtype sample_ext_digest_fails
    (sample_session .EAP_AKA_SERVER_IDENTITY [5]) _ rfl (by decide) rfl rfl
  refine ⟨rfl, rfl, ⟨_, rfl, rfl⟩, h.2.1, ?_⟩
  have hp := process_identity_digest_failure sample_ext_digest_fails
    (mod_process_decoded sample_ext_digest_fails (sample_session .EAP_AKA_SERVER_IDENTITY [5]))
    (mod_process_vps sample_ext_digest_fails (sample_session .EAP_AKA_SERVER_IDENTITY [5]))
    (by decide)
  rw [hmp, hp, if_neg (by decide), state_enter_failure_notification,
    if_neg (by decide)]
  decide

/-! ## Session initialisation (C13, C14) -/

/-- The shape of `mod_session_init`: it returns OK with the result of
entering the initial state on a fresh session, described field by field. -/
theorem session_init_shape (x : ext) (inst : rlm_eap_aka_t) (s : eap_session_t) :
    ∃ s0 t, mod_session_init x inst s = (.RLM_MODULE_OK, eap_aka_state_enter x s0 t) ∧
      ((inst.request_identity = true ∨
          (x.fr_sim_id_type s.identity).2.1 = .SIM_ID_TYPE_UNKNOWN) →
        t = .EAP_AKA_SERVER_IDENTITY ∧ s0.eap_aka_session.id_req = .SIM_ANY_ID_REQ ∧
        s0.eap_aka_session.keys.identity = [] ∧ s0.eap_aka_session.keys.identity_len = 0) ∧
      (¬ (inst.request_identity = true ∨
          (x.fr_sim_id_type s.identity).2.1 = .SIM_ID_TYPE_UNKNOWN) →
        t = .EAP_AKA_SERVER_CHALLENGE ∧ s0.eap_aka_session.id_req = .SIM_NO_ID_REQ ∧
        s0.eap_aka_session.keys.identity = s.identity ∧
        s0.eap_aka_session.keys.identity_len = s.identity.length) ∧
      (s.type = FR_EAP_AKA →
        s0.eap_aka_session.type = FR_EAP_AKA ∧ s0.eap_aka_session.kdf = 0 ∧
        s0.eap_aka_session.mac_md = some EVP_MD.sha1 ∧
        s0.eap_aka_session.checkcode_md = some EVP_MD.sha1 ∧
        s0.eap_aka_session.send_at_bidding = true) ∧
      (s.type ≠ FR_EAP_AKA →
        s0.eap_aka_session.type = FR_EAP_AKA_PRIME ∧
        s0.eap_aka_session.kdf = FR_EAP_AKA_KDF_VALUE_EAP_AKA_PRIME_WITH_CK_PRIME_IK_PRIME ∧
        s0.eap_aka_session.mac_md = some EVP_MD.sha256 ∧
        s0.eap_aka_session.checkcode_md = some EVP_MD.sha256 ∧
        s0.eap_aka_session.send_at_bidding = false ∧
        s0.eap_aka_session.keys.network = inst.network_id ∧
        s0.eap_aka_session.keys.network_len = inst.network_id.length) ∧
      s0.entered = s.entered ∧
      s0.eap_aka_session.challenge_success = false ∧
      s0.eap_aka_session.allow_encrypted = false ∧
      s0.eap_aka_session.aka_id = x.fr_rand % 256 ∧
      s0.eap_aka_session.request_identity = inst.request_identity ∧
      s0.eap_aka_session.send_result_ind = inst.protected_success := by
  unfold mod_session_init
  simp only []
  by_cases hr : inst.request_identity = true
  · rw [if_pos hr]
    refine ⟨_, _, rfl, ?_⟩
    by_cases ht : s.type = FR_EAP_AKA <;> simp [ht, hr, eap_aka_session_zero]
  · rw [if_neg hr]
    cases hty : (x.fr_sim_id_type s.identity).2.1
    all_goals
      simp only []
      refine ⟨_, _, rfl, ?_⟩
      by_cases ht : s.type = FR_EAP_AKA <;> simp [ht, hr, hty, eap_aka_session_zero]

/-- C13.  Initial state chosen by `mod_session_init`: when `request_identity`
is set or the asserted identity classifies as Unknown, the session gets
`id_req` Any and Identity is entered; otherwise (Permanent, Pseudonym or
Fast-reauth) `keys.identity` is a copy of the asserted identity,
`identity_len` is its length, `id_req` stays None and Challenge is
entered. -/
theorem initial_state_choice (x : ext) (inst : rlm_eap_aka_t) (s : eap_session_t) :
    ((inst.request_identity = true ∨
        (x.fr_sim_id_type s.identity).2.1 = .SIM_ID_TYPE_UNKNOWN) →
      (mod_session_init x inst s).1 = .RLM_MODULE_OK ∧
      (∃ s0, (mod_session_init x inst s).2 =
          eap_aka_state_enter x s0 .EAP_AKA_SERVER_IDENTITY ∧
        s0.eap_aka_session.id_req = .SIM_ANY_ID_REQ) ∧
      (mod_session_init x inst s).2.eap_aka_session.id_req = .SIM_ANY_ID_REQ ∧
      ∃ rest, (mod_session_init x inst s).2.entered =
        s.entered ++ .EAP_AKA_SERVER_IDENTITY :: rest) ∧
    (inst.request_identity = false ∧
        ((x.fr_sim_id_type s.identity).2.1 = .SIM_ID_TYPE_PERMANENT ∨
          (x.fr_sim_id_type s.identity).2.1 = .SIM_ID_TYPE_PSEUDONYM ∨
          (x.fr_sim_id_type s.identity).2.1 = .SIM_ID_TYPE_FASTAUTH) →
      (mod_session_init x inst s).1 = .RLM_MODULE_OK ∧
      (∃ s0, (mod_session_init x inst s).2 =
          eap_aka_state_enter x s0 .EAP_AKA_SERVER_CHALLENGE ∧
        s0.eap_aka_session.keys.identity = s.identity ∧
        s0.eap_aka_session.keys.identity_len = s.identity.length ∧
        s0.eap_aka_session.id_req = .SIM_NO_ID_REQ) ∧
      (mod_session_init x inst s).2.eap_aka_session.id_req = .SIM_NO_ID_REQ ∧
      ∃ rest, (mod_session_init x inst s).2.entered =
        s.entered ++ .EAP_AKA_SERVER_CHALLENGE :: rest) := by
  obtain ⟨s0, t, he, hid, hch, _, _, hent, _⟩ := session_init_shape x inst s
  constructor
  · intro hc
    obtain ⟨ht, hl, _⟩ := hid hc
    subst ht
    rw [he]
    refine ⟨rfl, ⟨s0, rfl, hl⟩, by rw [enter_id_req]; exact hl, ?_⟩
    obtain ⟨_, rest, h2, _⟩ := enter_spec x s0 .EAP_AKA_SERVER_IDENTITY
    exact ⟨rest, by rw [h2, hent]⟩
  · rintro ⟨hr, hty⟩
    have hc : ¬ (inst.request_identity = true ∨
        (x.fr_sim_id_type s.identity).2.1 = .SIM_ID_TYPE_UNKNOWN) := by
      rintro (h | h)
      · rw [hr] at h; cases h
      · rcases hty with h' | h' | h' <;> rw [h] at h' <;> cases h'
    obtain ⟨ht, hl, hi, hn⟩ := hch hc
    subst ht
    rw [he]
    refine ⟨rfl, ⟨s0, rfl, hi, hn, hl⟩, by rw [enter_id_req]; exact hl, ?_⟩
    obtain ⟨_, rest, h2, _⟩ := enter_spec x s0 .EAP_AKA_SERVER_CHALLENGE
    exact ⟨rest, by rw [h2, hent]⟩

/-- Witness of C13: a Permanent identity without forced identity request
starts in Challenge with `id_req` None. -/
theorem initial_state_choice_witness :
    sample_inst.request_identity = false ∧
    (sample_ext.fr_sim_id_type (sample_session .EAP_AKA_SERVER_IDENTITY [5]).identity).2.1 =
      .SIM_ID_TYPE_PERMANENT ∧
    (mod_session_init sample_ext sample_inst
      (sample_session .EAP_AKA_SERVER_IDENTITY [5])).2.eap_aka_session.id_req =
      .SIM_NO_ID_REQ :=
  ⟨rfl, rfl,
    ((initial_state_choice sample_ext sample_inst
      (sample_session .EAP_AKA_SERVER_IDENTITY [5])).2 ⟨rfl, Or.inl rfl⟩).2.2.1⟩

/-- C14.  Variant selection in `mod_session_init`: the session is EAP-AKA
exactly when the outer EAP type is `FR_EAP_AKA` and EAP-AKA' for every other
type.  An EAP-AKA' session has the CK'/IK' KDF, SHA-256 for MAC and
checkcode, the configured network name and no bidding; an EAP-AKA session
has KDF 0, SHA-1 for MAC and checkcode, and bidding. -/
theorem variant_selection (x : ext) (inst : rlm_eap_aka_t) (s : eap_session_t) :
    ((mod_session_init x inst s).2.eap_aka_session.type = FR_EAP_AKA ↔ s.type = FR_EAP_AKA) ∧
    (s.type ≠ FR_EAP_AKA →
      (mod_session_init x inst s).2.eap_aka_session.type = FR_EAP_AKA_PRIME ∧
      (mod_session_init x inst s).2.eap_aka_session.kdf =
        FR_EAP_AKA_KDF_VALUE_EAP_AKA_PRIME_WITH_CK_PRIME_IK_PRIME ∧
      (mod_session_init x inst s).2.eap_aka_session.mac_md = some EVP_MD.sha256 ∧
      (mod_session_init x inst s).2.eap_aka_session.checkcode_md = some EVP_MD.sha256 ∧
      (mod_session_init x inst s).2.eap_aka_session.send_at_bidding = false ∧
      ∃ s0 t, (mod_session_init x inst s).2 = eap_aka_state_enter x s0 t ∧
        s0.eap_aka_session.keys.network = inst.network_id ∧
        s0.eap_aka_session.keys.network_len = inst.network_id.length) ∧
    (s.type = FR_EAP_AKA →
      (mod_session_init x inst s).2.eap_aka_session.kdf = 0 ∧
      (mod_session_init x inst s).2.eap_aka_session.mac_md = some EVP_MD.sha1 ∧
      (mod_session_init x inst s).2.eap_aka_session.checkcode_md = some EVP_MD.sha1 ∧
      (mod_session_init x inst s).2.eap_aka_session.send_at_bidding = true) := by
  obtain ⟨s0, t, he, _, _, hleg, hpri, _⟩ := session_init_shape x inst s
  have hc := enter_config x s0 t
  simp only [config, Prod.mk.injEq] at hc
  obtain ⟨_, c2, c3, c4, c5, _, _, c8⟩ := hc
  rw [he]
  refine ⟨⟨fun h => ?_, fun h => ?_⟩, fun h => ?_, fun h => ?_⟩
  · by_contra hn
    have h' := (hpri hn).1
    rw [c2, h'] at h
    exact absurd h (by decide)
  · rw [c2]; exact (hleg h).1
  · obtain ⟨p1, p2, p3, p4, p5, p6, p7⟩ := hpri h
    exact ⟨by rw [c2]; exact p1, by rw [c3]; exact p2, by rw [c5]; exact p3,
      by rw [c4]; exact p4, by rw [c8]; exact p5, s0, t, rfl, p6, p7⟩
  · obtain ⟨_, p2, p3, p4, p5⟩ := hleg h
    exact ⟨by rw [c3]; exact p2, by rw [c5]; exact p3, by rw [c4]; exact p4,
      by rw [c8]; exact p5⟩

/-- Witness of C14: an outer type other than `FR_EAP_AKA` gives EAP-AKA'. -/
theorem variant_selection_witness :
    (sample_session .EAP_AKA_SERVER_IDENTITY [5]).type ≠ FR_EAP_AKA ∧
    (mod_session_init sample_ext sample_inst
      (sample_session .EAP_AKA_SERVER_IDENTITY [5])).2.eap_aka_session.type =
      FR_EAP_AKA_PRIME ∧
    (mod_session_init sample_ext sample_inst
      (sample_session .EAP_AKA_SERVER_IDENTITY [5])).2.eap_aka_session.mac_md =
      some EVP_MD.sha256 :=
  have h := (variant_selection sample_ext sample_inst
    (sample_session .EAP_AKA_SERVER_IDENTITY [5])).2.1 (by decide)
  ⟨by decide, h.1, h.2.2.1⟩

/-! ## The failure notification (C15, C16) -/

/-- `eap_aka_send_eap_failure_notification` composes the reply described by
`eap_aka_failure_notification_attrs` as an EAP request. -/
theorem send_failure_notification_eq (x : ext) (s : eap_session_t) :
    eap_aka_send_eap_failure_notification x s =
      if (eap_aka_compose x { s with
            this_round_request := { s.this_round_request with code := FR_EAP_CODE_REQUEST }
            request_reply_vps := eap_aka_failure_notification_attrs x s }).1 < 0 then
        (-1, { (eap_aka_compose x { s with
            this_round_request := { s.this_round_request with code := FR_EAP_CODE_REQUEST }
            request_reply_vps := eap_aka_failure_notification_attrs x s }).2 with
          request_reply_vps := [] })
      else
        (0, (eap_aka_compose x { s with
            this_round_request := { s.this_round_request with code := FR_EAP_CODE_REQUEST }
            request_reply_vps := eap_aka_failure_notification_attrs x s }).2) := rfl

/-- The failure notification is the composition of
`eap_aka_failure_notification_request`; a failed composition frees the
reply. -/
theorem send_failure_notification_composes (x : ext) (s : eap_session_t) :
    eap_aka_send_eap_failure_notification x s =
      if (eap_aka_compose x (eap_aka_failure_notification_request x s)).1 < 0 then
        (-1, { (eap_aka_compose x (eap_aka_failure_notification_request x s)).2 with
          request_reply_vps := [] })
      else (0, (eap_aka_compose x (eap_aka_failure_notification_request x s)).2) := rfl

theorem testBit_0x7FFF (i : Nat) : (0x7FFF : Nat).testBit i = decide (i < 15) := by
  have h : (0x7FFF : Nat) = 2 ^ 15 - 1 := by norm_num
  rw [h, Nat.testBit_two_pow_sub_one]

theorem testBit_0x3FFF (i : Nat) : (0x3FFF : Nat).testBit i = decide (i < 14) := by
  have h : (0x3FFF : Nat) = 2 ^ 14 - 1 := by norm_num
  rw [h, Nat.testBit_two_pow_sub_one]

theorem testBit_0x4000 (i : Nat) : (0x4000 : Nat).testBit i = decide (14 = i) := by
  have h : (0x4000 : Nat) = 2 ^ 14 := by norm_num
  rw [h, Nat.testBit_two_pow]

theorem testBit_0x8000 (i : Nat) : (0x8000 : Nat).testBit i = decide (15 = i) := by
  have h : (0x8000 : Nat) = 2 ^ 15 := by norm_num
  rw [h, Nat.testBit_two_pow]

theorem testBit_0xBFFF (i : Nat) :
    (0xBFFF : Nat).testBit i = (decide (i < 16) && !decide (14 = i)) := by
  have h : (0xBFFF : Nat) = (2 ^ 16 - 1) ^^^ 2 ^ 14 := by decide
  rw [h, Nat.testBit_xor, Nat.testBit_two_pow_sub_one, Nat.testBit_two_pow]
  by_cases h1 : i < 16 <;> by_cases h2 : 14 = i <;> simp [h1, h2]
  omega

/-- Bit `i` of the rewritten notification code. -/
theorem notification_code_testBit (cs : Bool) (v i : Nat) :
    (eap_aka_failure_notification_code cs v).testBit i =
      (decide (i < 15) &&
        (if cs then v.testBit i && !decide (14 = i) else (v.testBit i || decide (14 = i)))) := by
  unfold eap_aka_failure_notification_code
  cases cs
  · simp only [Bool.false_eq_true, if_false, Nat.testBit_and, testBit_0x7FFF]
    have h : (65536 : Nat) = 2 ^ 16 := by norm_num
    rw [h, Nat.testBit_mod_two_pow, Nat.testBit_or, testBit_0x4000]
    by_cases h1 : i < 15
    · have h2 : i < 16 := by omega
      simp [h1, h2]
    · simp [h1]
  · simp only [if_true, Nat.testBit_and, testBit_0x7FFF, testBit_0xBFFF]
    by_cases h1 : i < 15
    · have h2 : i < 16 := by omega
      simp [h1, h2]
    · simp [h1]

theorem notification_code_success_bit (cs : Bool) (v : Nat) :
    eap_aka_failure_notification_code cs v &&& 0x8000 = 0 := by
  apply Nat.eq_of_testBit_eq
  intro i
  rw [Nat.testBit_and, notification_code_testBit, testBit_0x8000]
  by_cases h : 15 = i
  · subst h; simp
  · simp [h]

theorem notification_code_phase_bit (cs : Bool) (v : Nat) :
    eap_aka_failure_notification_code cs v &&& 0x4000 = if cs then 0 else 0x4000 := by
  apply Nat.eq_of_testBit_eq
  intro i
  rw [Nat.testBit_and, notification_code_testBit, testBit_0x4000]
  cases cs
  · by_cases h : 14 = i
    · subst h; simp [testBit_0x4000]
    · simp [h, testBit_0x4000]
  · by_cases h : 14 = i
    · subst h; simp
    · simp [h]

theorem notification_code_low_bits (cs : Bool) (v : Nat) :
    eap_aka_failure_notification_code cs v &&& 0x3FFF = v &&& 0x3FFF := by
  apply Nat.eq_of_testBit_eq
  intro i
  rw [Nat.testBit_and, Nat.testBit_and, notification_code_testBit, testBit_0x3FFF]
  by_cases h : i < 14
  · have h1 : i < 15 := by omega
    have h2 : ¬ 14 = i := by omega
    cases cs <;> simp [h, h1, h2]
  · simp [h]

theorem notification_code_lt (cs : Bool) (v : Nat) :
    eap_aka_failure_notification_code cs v < 65536 := by
  unfold eap_aka_failure_notification_code
  have h : ∀ n : Nat, n &&& 0x7FFF ≤ 0x7FFF := fun n => Nat.and_le_right
  exact Nat.lt_of_le_of_lt (h _) (by decide)

theorem find_replace_other (l : List VALUE_PAIR) (r : VALUE_PAIR) (da : fr_dict_attr_t)
    (h : r.da ≠ da) :
    (fr_pair_replace l r).find? (fun vp => decide (vp.da = da)) =
      l.find? (fun vp => decide (vp.da = da)) := by
  induction l with
  | nil => simp [fr_pair_replace, h]
  | cons i rest ih =>
    unfold fr_pair_replace
    by_cases hi : i.da = r.da
    · have hi' : i.da ≠ da := fun e => h (hi ▸ e)
      simp [hi, h, hi']
    · simp only [if_neg hi, List.find?_cons, ih]

theorem find_replace_self (l : List VALUE_PAIR) (r : VALUE_PAIR) :
    (fr_pair_replace l r).find? (fun vp => decide (vp.da = r.da)) = some r := by
  induction l with
  | nil => simp [fr_pair_replace]
  | cons i rest ih =>
    unfold fr_pair_replace
    by_cases hi : i.da = r.da
    · simp [hi]
    · simp [hi, ih]

theorem find_update_first (l : List VALUE_PAIR) (vp old : VALUE_PAIR)
    (h : l.find? (fun p => decide (p.da = vp.da)) = some old) :
    (fr_pair_update_first l vp).find? (fun p => decide (p.da = vp.da)) = some vp := by
  induction l with
  | nil => simp at h
  | cons i rest ih =>
    unfold fr_pair_update_first
    by_cases hi : i.da = vp.da
    · simp [hi]
    · simp only [List.find?_cons, hi, decide_False] at h
      simp [hi, ih h]

theorem filter_update_first (l : List VALUE_PAIR) (vp : VALUE_PAIR) (da : fr_dict_attr_t)
    (h : vp.da ≠ da) :
    (fr_pair_update_first l vp).filter (fun p => decide (p.da = da)) =
      l.filter (fun p => decide (p.da = da)) := by
  induction l with
  | nil => rfl
  | cons i rest ih =>
    unfold fr_pair_update_first
    by_cases hi : i.da = vp.da
    · have hi' : i.da ≠ da := fun e => h (hi ▸ e)
      simp [hi, h, hi']
    · simp only [if_neg hi, List.filter_cons, ih]

/-- The notification pair in the reply of a failure notification: the pair
found in the reply, or the General-Failure default, with its code rewritten. -/
theorem failure_notification_pair (x : ext) (s : eap_session_t) :
    (∀ found, fr_pair_find_by_child_num s.request_reply_vps x.dict_sim_root
        fr_attr_num.FR_EAP_AKA_NOTIFICATION = some found →
      fr_pair_find_by_child_num (eap_aka_failure_notification_attrs x s) x.dict_sim_root
        fr_attr_num.FR_EAP_AKA_NOTIFICATION =
        some { found with
          vp_uint16 := eap_aka_failure_notification_code
            s.eap_aka_session.challenge_success found.vp_uint16 }) ∧
    (fr_pair_find_by_child_num s.request_reply_vps x.dict_sim_root
        fr_attr_num.FR_EAP_AKA_NOTIFICATION = none →
      fr_pair_find_by_child_num (eap_aka_failure_notification_attrs x s) x.dict_sim_root
        fr_attr_num.FR_EAP_AKA_NOTIFICATION =
        some { fr_pair_afrom_child_num x.dict_sim_root fr_attr_num.FR_EAP_AKA_NOTIFICATION with
          vp_uint16 := eap_aka_failure_notification_code
            s.eap_aka_session.challenge_success
            x.FR_EAP_AKA_NOTIFICATION_VALUE_GENERAL_FAILURE }) := by
  have hmac : (fr_pair_afrom_child_num x.dict_sim_root fr_attr_num.FR_EAP_AKA_MAC).da ≠
      fr_dict_attr_child_by_num x.dict_sim_root fr_attr_num.FR_EAP_AKA_NOTIFICATION := by
    intro e
    simp [fr_pair_afrom_child_num, fr_dict_attr_child_by_num] at e
  have hsub : ¬ (fr_dict_attr_child_by_num dict_aka_root fr_attr_num.FR_EAP_AKA_SUBTYPE =
      fr_dict_attr_child_by_num x.dict_sim_root fr_attr_num.FR_EAP_AKA_NOTIFICATION) := by
    intro e
    simp [fr_dict_attr_child_by_num] at e
  constructor
  · intro found hf
    have hda : found.da =
        fr_dict_attr_child_by_num x.dict_sim_root fr_attr_num.FR_EAP_AKA_NOTIFICATION := by
      have := List.find?_some hf
      simpa using this
    unfold eap_aka_failure_notification_attrs
    simp only [hf]
    unfold fr_pair_find_by_child_num at hf ⊢
    have hu := find_update_first s.request_reply_vps
      { found with
        vp_uint16 := eap_aka_failure_notification_code
          s.eap_aka_session.challenge_success found.vp_uint16 } found (by simpa [hda] using hf)
    simp only [hda] at hu ⊢
    split_ifs
    · rw [find_replace_other _ _ _ hmac, fr_cursor_append, List.find?_append, hu]
      rfl
    · rw [fr_cursor_append, List.find?_append, hu]
      rfl
  · intro hn
    unfold eap_aka_failure_notification_attrs
    simp only [hn]
    unfold fr_pair_find_by_child_num at hn ⊢
    split_ifs
    · rw [find_replace_other _ _ _ hmac]
      simp [fr_cursor_append, List.find?_append, hn, fr_pair_afrom_child_num]
    · simp [fr_cursor_append, List.find?_append, hn, fr_pair_afrom_child_num]

/-- C15.  Failure-notification code bits: `eap_aka_send_eap_failure_notification`
composes the reply `eap_aka_failure_notification_attrs`, whose notification
pair carries the code `v`
found in the reply, or the General-Failure default when there was none, with
the success bit `0x8000` clear, the phase bit `0x4000` set exactly when
`challenge_success` is false, and the low 14 bits of `v`; it is a 16 bit
value. -/
theorem failure_notification_code_bits (x : ext) (s : eap_session_t) :
    (eap_aka_send_eap_failure_notification x s =
      if (eap_aka_compose x (eap_aka_failure_notification_request x s)).1 < 0 then
        (-1, { (eap_aka_compose x (eap_aka_failure_notification_request x s)).2 with
          request_reply_vps := [] })
      else (0, (eap_aka_compose x (eap_aka_failure_notification_request x s)).2)) ∧
    (eap_aka_failure_notification_request x s).request_reply_vps =
      eap_aka_failure_notification_attrs x s ∧
    (∀ found, fr_pair_find_by_child_num s.request_reply_vps x.dict_sim_root
        fr_attr_num.FR_EAP_AKA_NOTIFICATION = some found →
      ∃ vp, fr_pair_find_by_child_num (eap_aka_failure_notification_attrs x s) x.dict_sim_root
          fr_attr_num.FR_EAP_AKA_NOTIFICATION = some vp ∧
        vp.vp_uint16 &&& 0x8000 = 0 ∧
        (vp.vp_uint16 &&& 0x4000 = 0x4000 ↔ s.eap_aka_session.challenge_success = false) ∧
        (vp.vp_uint16 &&& 0x4000 = 0 ↔ s.eap_aka_session.challenge_success = true) ∧
        vp.vp_uint16 &&& 0x3FFF = found.vp_uint16 &&& 0x3FFF ∧
        vp.vp_uint16 < 65536) ∧
    (fr_pair_find_by_child_num s.request_reply_vps x.dict_sim_root
        fr_attr_num.FR_EAP_AKA_NOTIFICATION = none →
      ∃ vp, fr_pair_find_by_child_num (eap_aka_failure_notification_attrs x s) x.dict_sim_root
          fr_attr_num.FR_EAP_AKA_NOTIFICATION = some vp ∧
        vp.vp_uint16 &&& 0x8000 = 0 ∧
        (vp.vp_uint16 &&& 0x4000 = 0x4000 ↔ s.eap_aka_session.challenge_success = false) ∧
        (vp.vp_uint16 &&& 0x4000 = 0 ↔ s.eap_aka_session.challenge_success = true) ∧
        vp.vp_uint16 &&& 0x3FFF = x.FR_EAP_AKA_NOTIFICATION_VALUE_GENERAL_FAILURE &&& 0x3FFF ∧
        vp.vp_uint16 < 65536) := by
  have hbits : ∀ v : Nat,
      eap_aka_failure_notification_code s.eap_aka_session.challenge_success v &&& 0x8000 = 0 ∧
      (eap_aka_failure_notification_code s.eap_aka_session.challenge_success v &&& 0x4000 =
        0x4000 ↔ s.eap_aka_session.challenge_success = false) ∧
      (eap_aka_failure_notification_code s.eap_aka_session.challenge_success v &&& 0x4000 =
        0 ↔ s.eap_aka_session.challenge_success = true) ∧
      eap_aka_failure_notification_code s.eap_aka_session.challenge_success v &&& 0x3FFF =
        v &&& 0x3FFF ∧
      eap_aka_failure_notification_code s.eap_aka_session.challenge_success v < 65536 := by
    intro v
    refine ⟨notification_code_success_bit _ v, ?_, ?_, notification_code_low_bits _ v,
      notification_code_lt _ v⟩
    · rw [notification_code_phase_bit]
      cases s.eap_aka_session.challenge_success <;> simp
    · rw [notification_code_phase_bit]
      cases s.eap_aka_session.challenge_success <;> simp
  obtain ⟨h1, h2⟩ := failure_notification_pair x s
  exact ⟨rfl, rfl, fun found hf => ⟨_, h1 found hf, hbits found.vp_uint16⟩,
    fun hn => ⟨_, h2 hn, hbits x.FR_EAP_AKA_NOTIFICATION_VALUE_GENERAL_FAILURE⟩⟩

/-- Witness of C15: before a successful challenge, with no notification in
the reply, the default code is sent with the phase bit set. -/
theorem failure_notification_code_bits_witness :
    fr_pair_find_by_child_num
      (sample_session .EAP_AKA_SERVER_CHALLENGE [1]).request_reply_vps sample_ext.dict_sim_root
      fr_attr_num.FR_EAP_AKA_NOTIFICATION = none ∧
    ∃ vp, fr_pair_find_by_child_num
        (eap_aka_failure_notification_attrs sample_ext
          (sample_session .EAP_AKA_SERVER_CHALLENGE [1]))
        sample_ext.dict_sim_root fr_attr_num.FR_EAP_AKA_NOTIFICATION = some vp ∧
      vp.vp_uint16 &&& 0x8000 = 0 ∧ vp.vp_uint16 &&& 0x4000 = 0x4000 :=
  have h := (failure_notification_code_bits sample_ext
    (sample_session .EAP_AKA_SERVER_CHALLENGE [1])).2.2.2 rfl
  ⟨rfl, h.imp (fun _ hv => ⟨hv.1, hv.2.1, hv.2.2.1.2 rfl⟩)⟩

/-- C16.  The failure notification built by
`eap_aka_send_eap_failure_notification` carries the zeroed MAC placeholder
when `challenge_success` is true; when it is false the composer adds no MAC
pair: the MAC pairs of the reply, under any dictionary root, are those that
were there before, so a reply without a MAC pair stays without one.  For a
reply that had no MAC pair, the notification has one if and only if
`challenge_success` is true. -/
theorem failure_notification_mac (x : ext) (s : eap_session_t) :
    (eap_aka_send_eap_failure_notification x s =
      if (eap_aka_compose x (eap_aka_failure_notification_request x s)).1 < 0 then
        (-1, { (eap_aka_compose x (eap_aka_failure_notification_request x s)).2 with
          request_reply_vps := [] })
      else (0, (eap_aka_compose x (eap_aka_failure_notification_request x s)).2)) ∧
    (eap_aka_failure_notification_request x s).request_reply_vps =
      eap_aka_failure_notification_attrs x s ∧
    (s.eap_aka_session.challenge_success = true →
      fr_pair_find_by_child_num (eap_aka_failure_notification_attrs x s) x.dict_sim_root
        fr_attr_num.FR_EAP_AKA_MAC =
        some (fr_pair_afrom_child_num x.dict_sim_root fr_attr_num.FR_EAP_AKA_MAC)) ∧
    (s.eap_aka_session.challenge_success = false →
      ∀ root : fr_dict_attr_t,
        (eap_aka_failure_notification_attrs x s).filter
            (fun vp => decide (vp.da = fr_dict_attr_child_by_num root fr_attr_num.FR_EAP_AKA_MAC)) =
          s.request_reply_vps.filter
            (fun vp => decide (vp.da = fr_dict_attr_child_by_num root fr_attr_num.FR_EAP_AKA_MAC))) ∧
    (s.eap_aka_session.challenge_success = false →
      ∀ root : fr_dict_attr_t,
        fr_pair_find_by_child_num s.request_reply_vps root fr_attr_num.FR_EAP_AKA_MAC = none →
        fr_pair_find_by_child_num (eap_aka_failure_notification_attrs x s) root
          fr_attr_num.FR_EAP_AKA_MAC = none) ∧
    (fr_pair_find_by_child_num s.request_reply_vps x.dict_sim_root
        fr_attr_num.FR_EAP_AKA_MAC = none →
      ((fr_pair_find_by_child_num (eap_aka_failure_notification_attrs x s) x.dict_sim_root
          fr_attr_num.FR_EAP_AKA_MAC).isSome = true ↔
        s.eap_aka_session.challenge_success = true)) := by
  have hplace : s.eap_aka_session.challenge_success = true →
      fr_pair_find_by_child_num (eap_aka_failure_notification_attrs x s) x.dict_sim_root
        fr_attr_num.FR_EAP_AKA_MAC =
        some (fr_pair_afrom_child_num x.dict_sim_root fr_attr_num.FR_EAP_AKA_MAC) := by
    intro hcs
    unfold eap_aka_failure_notification_attrs fr_pair_find_by_child_num
    simp only [hcs, if_true]
    exact find_replace_self _
      (fr_pair_afrom_child_num x.dict_sim_root fr_attr_num.FR_EAP_AKA_MAC)
  have hfilter : s.eap_aka_session.challenge_success = false →
      ∀ root : fr_dict_attr_t,
        (eap_aka_failure_notification_attrs x s).filter
            (fun vp => decide (vp.da = fr_dict_attr_child_by_num root fr_attr_num.FR_EAP_AKA_MAC)) =
          s.request_reply_vps.filter
            (fun vp => decide (vp.da = fr_dict_attr_child_by_num root fr_attr_num.FR_EAP_AKA_MAC)) := by
    intro hcs root
    have hnot : fr_dict_attr_child_by_num x.dict_sim_root fr_attr_num.FR_EAP_AKA_NOTIFICATION ≠
        fr_dict_attr_child_by_num root fr_attr_num.FR_EAP_AKA_MAC := by
      intro e
      simp [fr_dict_attr_child_by_num] at e
    have hsub : fr_dict_attr_child_by_num dict_aka_root fr_attr_num.FR_EAP_AKA_SUBTYPE ≠
        fr_dict_attr_child_by_num root fr_attr_num.FR_EAP_AKA_MAC := by
      intro e
      simp [fr_dict_attr_child_by_num] at e
    unfold eap_aka_failure_notification_attrs
    simp only [hcs, Bool.false_eq_true, if_false]
    rcases hf : fr_pair_find_by_child_num s.request_reply_vps x.dict_sim_root
        fr_attr_num.FR_EAP_AKA_NOTIFICATION with _ | found
    · simp [fr_cursor_append, List.filter_append, fr_pair_afrom_child_num, hnot, hsub]
    · have hda : found.da =
          fr_dict_attr_child_by_num x.dict_sim_root fr_attr_num.FR_EAP_AKA_NOTIFICATION := by
        have := List.find?_some hf
        simpa using this
      simp only []
      rw [fr_cursor_append, List.filter_append, filter_update_first _ _ _ (by rw [hda]; exact hnot)]
      simp [fr_pair_afrom_child_num, hsub]
  have hnone : s.eap_aka_session.challenge_success = false →
      ∀ root : fr_dict_attr_t,
        fr_pair_find_by_child_num s.request_reply_vps root fr_attr_num.FR_EAP_AKA_MAC = none →
        fr_pair_find_by_child_num (eap_aka_failure_notification_attrs x s) root
          fr_attr_num.FR_EAP_AKA_MAC = none := by
    intro hcs root hn
    unfold fr_pair_find_by_child_num at hn ⊢
    rw [List.find?_eq_none] at hn ⊢
    intro vp hvp hp
    have hmem : vp ∈ (eap_aka_failure_notification_attrs x s).filter
        (fun vp => decide (vp.da = fr_dict_attr_child_by_num root fr_attr_num.FR_EAP_AKA_MAC)) :=
      List.mem_filter.2 ⟨hvp, hp⟩
    rw [hfilter hcs root] at hmem
    exact hn vp (List.mem_filter.1 hmem).1 (List.mem_filter.1 hmem).2
  refine ⟨rfl, rfl, hplace, hfilter, hnone, fun hn => ?_⟩
  cases hcs : s.eap_aka_session.challenge_success
  · rw [hnone hcs _ hn]
    simp
  · rw [hplace hcs]
    simp

/-- Witness of C16: before a successful challenge the notification built on
an empty reply has no MAC pair. -/
theorem failure_notification_mac_witness :
    (sample_session .EAP_AKA_SERVER_CHALLENGE [1]).eap_aka_session.challenge_success = false ∧
    fr_pair_find_by_child_num
      (sample_session .EAP_AKA_SERVER_CHALLENGE [1]).request_reply_vps dict_aka_root
      fr_attr_num.FR_EAP_AKA_MAC = none ∧
    fr_pair_find_by_child_num
      (eap_aka_failure_notification_attrs sample_ext
        (sample_session .EAP_AKA_SERVER_CHALLENGE [1]))
      dict_aka_root fr_attr_num.FR_EAP_AKA_MAC = none :=
  ⟨rfl, rfl,
    (failure_notification_mac sample_ext (sample_session .EAP_AKA_SERVER_CHALLENGE [1])).2.2.2.2.1
      rfl dict_aka_root rfl⟩

/-! ## Composition: encryption gating and message ids (C17, C19) -/

/-- The encoder is called on `eap_aka_compose_head`, its output becomes the
type data of the request and its sign decides the return value. -/
theorem compose_encode (x : ext) (s : eap_session_t) :
    (eap_aka_compose x s).2.this_round_request.type_data =
      (x.fr_sim_encode (eap_aka_compose_head x s) s.eap_aka_session.keys
        s.eap_aka_session.mac_md
        { s.this_round_request with
          type_num := s.eap_aka_session.type, id := s.eap_aka_session.aka_id % 256 }).2 ∧
    (eap_aka_compose x s).1 =
      (if (x.fr_sim_encode (eap_aka_compose_head x s) s.eap_aka_session.keys
        s.eap_aka_session.mac_md
        { s.this_round_request with
          type_num := s.eap_aka_session.type, id := s.eap_aka_session.aka_id % 256 }).1 < 0
        then -1 else 0) ∧
    (eap_aka_compose x s).2.request_reply_vps =
      s.request_reply_vps.filter
        (fun vp => !x.fr_dict_parent_common dict_aka_root vp.da true) := by
  unfold eap_aka_compose eap_aka_compose_head
  simp only []
  split <;> exact ⟨rfl, rfl, rfl⟩

/-- C17.  Encryption gating in `eap_aka_compose`: the encoder is called on
`eap_aka_compose_head`; when `allow_encrypted` is false this list is the
EAP-AKA pairs of the reply that are not of the encrypted category, when it is
true it is all the EAP-AKA pairs of the reply; in both cases the pairs are
those of the reply, unmodified and in their original relative order. -/
theorem compose_encryption_gating (x : ext) (s : eap_session_t) :
    (eap_aka_compose x s).2.this_round_request.type_data =
      (x.fr_sim_encode (eap_aka_compose_head x s) s.eap_aka_session.keys
        s.eap_aka_session.mac_md
        { s.this_round_request with
          type_num := s.eap_aka_session.type, id := s.eap_aka_session.aka_id % 256 }).2 ∧
    (s.eap_aka_session.allow_encrypted = false →
      eap_aka_compose_head x s =
        s.request_reply_vps.filter (fun vp =>
          x.fr_dict_parent_common dict_aka_root vp.da true &&
          !x.fr_dict_parent_common
            (fr_dict_attr_child_by_num x.dict_sim_root fr_attr_num.FR_EAP_AKA_ENCR_DATA)
            vp.da true) ∧
      ∀ vp ∈ eap_aka_compose_head x s,
        x.fr_dict_parent_common
          (fr_dict_attr_child_by_num x.dict_sim_root fr_attr_num.FR_EAP_AKA_ENCR_DATA)
          vp.da true = false) ∧
    (s.eap_aka_session.allow_encrypted = true →
      eap_aka_compose_head x s =
        s.request_reply_vps.filter (fun vp => x.fr_dict_parent_common dict_aka_root vp.da true)) ∧
    (eap_aka_compose_head x s).Sublist s.request_reply_vps := by
  refine ⟨(compose_encode x s).1, fun h => ?_, fun h => ?_, ?_⟩
  · have he : eap_aka_compose_head x s =
        s.request_reply_vps.filter (fun vp =>
          x.fr_dict_parent_common dict_aka_root vp.da true &&
          !x.fr_dict_parent_common
            (fr_dict_attr_child_by_num x.dict_sim_root fr_attr_num.FR_EAP_AKA_ENCR_DATA)
            vp.da true) := by
      unfold eap_aka_compose_head
      simp only [h, List.filter_filter]
      apply List.filter_congr
      intro vp _
      cases x.fr_dict_parent_common dict_aka_root vp.da true <;>
        cases x.fr_dict_parent_common
          (fr_dict_attr_child_by_num x.dict_sim_root fr_attr_num.FR_EAP_AKA_ENCR_DATA)
          vp.da true <;> rfl
    refine ⟨he, fun vp hvp => ?_⟩
    rw [he] at hvp
    have hp := (List.mem_filter.1 hvp).2
    simp only [Bool.and_eq_true, Bool.not_eq_true'] at hp
    exact hp.2
  · unfold eap_aka_compose_head
    simp only [h]
    simp
  · unfold eap_aka_compose_head
    exact (List.filter_sublist _).trans (List.filter_sublist _)

/-- Witness of C17: on the sample reply the encrypted pair is dropped while
encrypted attributes are not allowed and kept once they are; the pair that
is not an EAP-AKA attribute is never encoded. -/
theorem compose_encryption_gating_witness :
    eap_aka_compose_head sample_ext_ancestor
        { sample_challenge_session with request_reply_vps := sample_reply } =
      [fr_pair_afrom_child_num dict_aka_root fr_attr_num.FR_EAP_AKA_SUBTYPE,
       fr_pair_afrom_child_num dict_aka_root fr_attr_num.FR_EAP_AKA_MAC] ∧
    eap_aka_compose_head sample_ext_ancestor
        { sample_challenge_session with
          request_reply_vps := sample_reply
          eap_aka_session := { sample_challenge_session.eap_aka_session with
            allow_encrypted := true } } =
      sample_reply.drop 1 ∧
    ∀ vp ∈ eap_aka_compose_head sample_ext_ancestor
        { sample_challenge_session with request_reply_vps := sample_reply },
      sample_ext_ancestor.fr_dict_parent_common
        (fr_dict_attr_child_by_num sample_ext_ancestor.dict_sim_root
          fr_attr_num.FR_EAP_AKA_ENCR_DATA) vp.da true = false :=
  ⟨by decide, by decide,
    ((compose_encryption_gating sample_ext_ancestor
      { sample_challenge_session with request_reply_vps := sample_reply }).2.1 rfl).2⟩

/-- C19.  Message id arithmetic: `eap_aka_compose` sets the id of the request
to `aka_id` modulo 256, a value in 0..255, marks the id as set and adds one
to `aka_id`; the next composition on a session with that counter, whatever
else changed, uses the successor of the id modulo 256, so 255 is followed by
0; `mod_session_init` starts the counter at the low byte of a random
number. -/
theorem compose_message_id (x : ext) (s : eap_session_t) :
    (eap_aka_compose x s).2.this_round_request.id = s.eap_aka_session.aka_id % 256 ∧
    (eap_aka_compose x s).2.this_round_request.id < 256 ∧
    (eap_aka_compose x s).2.set_request_id = true ∧
    (eap_aka_compose x s).2.eap_aka_session.aka_id = s.eap_aka_session.aka_id + 1 ∧
    (∀ (y : ext) (u : eap_session_t),
      u.eap_aka_session.aka_id = (eap_aka_compose x s).2.eap_aka_session.aka_id →
      (eap_aka_compose y u).2.this_round_request.id =
        ((eap_aka_compose x s).2.this_round_request.id + 1) % 256 ∧
      ((eap_aka_compose x s).2.this_round_request.id = 255 →
        (eap_aka_compose y u).2.this_round_request.id = 0)) ∧
    (∀ inst : rlm_eap_aka_t, ∃ s0 t,
      mod_session_init x inst s = (.RLM_MODULE_OK, eap_aka_state_enter x s0 t) ∧
      s0.eap_aka_session.aka_id = x.fr_rand % 256) := by
  have hid : ∀ (y : ext) (u : eap_session_t),
      (eap_aka_compose y u).2.this_round_request.id = u.eap_aka_session.aka_id % 256 := by
    intro y u
    unfold eap_aka_compose
    simp only []
    split <;> rfl
  have hset : (eap_aka_compose x s).2.set_request_id = true := by
    unfold eap_aka_compose
    simp only []
    split <;> rfl
  have hnext : (eap_aka_compose x s).2.eap_aka_session.aka_id = s.eap_aka_session.aka_id + 1 := by
    rw [compose_session]
  refine ⟨hid x s, ?_, hset, hnext, fun y u hu => ?_, fun inst => ?_⟩
  · rw [hid]
    exact Nat.mod_lt _ (by decide)
  · have hsucc : (eap_aka_compose y u).2.this_round_request.id =
        ((eap_aka_compose x s).2.this_round_request.id + 1) % 256 := by
      rw [hid y u, hid x s, hu, hnext]
      omega
    refine ⟨hsucc, fun h255 => ?_⟩
    rw [hsucc, h255]
  · obtain ⟨s0, t, h0, h⟩ := session_init_shape x inst s
    exact ⟨s0, t, h0, h.2.2.2.2.2.2.2.1⟩

/-- Witness of C19: two consecutive compositions starting at counter 255
send the ids 255 and 0. -/
theorem compose_message_id_witness :
    (eap_aka_compose sample_ext
      { sample_challenge_session with
        eap_aka_session := { sample_challenge_session.eap_aka_session with
          aka_id := 255 } }).2.this_round_request.id = 255 ∧
    (eap_aka_compose sample_ext
      (eap_aka_compose sample_ext
        { sample_challenge_session with
          eap_aka_session := { sample_challenge_session.eap_aka_session with
            aka_id := 255 } }).2).2.this_round_request.id = 0 :=
  ⟨by decide,
    ((compose_message_id sample_ext
      { sample_challenge_session with
        eap_aka_session := { sample_challenge_session.eap_aka_session with
          aka_id := 255 } }).2.2.2.2.1 sample_ext _ rfl).2 (by decide)⟩

/-! ## The gate for encrypted attributes (C18) -/

theorem send_identity_request_allow (x : ext) (s : eap_session_t) :
    (eap_aka_send_identity_request x s).2.eap_aka_session.allow_encrypted = false := by
  unfold eap_aka_send_identity_request
  simp only []
  split_ifs <;> simp [compose_session]

theorem send_challenge_allow (x : ext) (s : eap_session_t) :
    (eap_aka_send_challenge x s).2.eap_aka_session.allow_encrypted =
      (s.eap_aka_session.allow_encrypted || challenge_reaches_compose x s) := by
  unfold eap_aka_send_challenge challenge_reaches_compose
  simp only []
  split_ifs <;> (try split) <;> (try split_ifs) <;> simp_all [compose_session]

theorem send_success_notification_allow (x : ext) (s : eap_session_t) :
    (eap_aka_send_eap_success_notification x s).2.eap_aka_session.allow_encrypted =
      s.eap_aka_session.allow_encrypted := by
  unfold eap_aka_send_eap_success_notification
  simp only []
  split_ifs <;> simp [compose_session]

theorem send_failure_notification_allow (x : ext) (s : eap_session_t) :
    (eap_aka_send_eap_failure_notification x s).2.eap_aka_session.allow_encrypted =
      s.eap_aka_session.allow_encrypted := by
  unfold eap_aka_send_eap_failure_notification
  simp only []
  split_ifs <;> simp [compose_session]

theorem enter_failure_allow (x : ext) (s : eap_session_t) :
    (eap_aka_state_enter x s .EAP_AKA_SERVER_FAILURE).eap_aka_session.allow_encrypted =
      s.eap_aka_session.allow_encrypted := by
  rw [state_enter_failure]
  rfl

theorem enter_failure_notification_allow (x : ext) (s : eap_session_t) :
    (eap_aka_state_enter x s
        .EAP_AKA_SERVER_FAILURE_NOTIFICATION).eap_aka_session.allow_encrypted =
      s.eap_aka_session.allow_encrypted := by
  rw [state_enter_failure_notification]
  split_ifs
  · rw [enter_failure_allow, send_failure_notification_allow]
    rfl
  · rw [send_failure_notification_allow]
    rfl

theorem enter_identity_allow (x : ext) (s : eap_session_t) :
    (eap_aka_state_enter x s .EAP_AKA_SERVER_IDENTITY).eap_aka_session.allow_encrypted =
      false := by
  rw [state_enter_identity]
  split_ifs
  · rw [enter_failure_notification_allow, send_identity_request_allow]
  · rw [send_identity_request_allow]

theorem enter_challenge_allow (x : ext) (s : eap_session_t) :
    (eap_aka_state_enter x s .EAP_AKA_SERVER_CHALLENGE).eap_aka_session.allow_encrypted =
      (s.eap_aka_session.allow_encrypted ||
        challenge_reaches_compose x (state_log s .EAP_AKA_SERVER_CHALLENGE)) := by
  rw [state_enter_challenge]
  split_ifs
  · rw [enter_failure_notification_allow, send_challenge_allow]
    rfl
  · rw [send_challenge_allow]
    rfl

theorem enter_other_allow (x : ext) (s : eap_session_t) (t : eap_aka_server_state_t)
    (hi : t ≠ .EAP_AKA_SERVER_IDENTITY) (hc : t ≠ .EAP_AKA_SERVER_CHALLENGE) :
    (eap_aka_state_enter x s t).eap_aka_session.allow_encrypted =
      s.eap_aka_session.allow_encrypted := by
  cases t with
  | EAP_AKA_SERVER_IDENTITY => exact absurd rfl hi
  | EAP_AKA_SERVER_CHALLENGE => exact absurd rfl hc
  | EAP_AKA_SERVER_SUCCESS_NOTIFICATION =>
    rw [state_enter_success_notification]
    split_ifs
    · rw [enter_failure_notification_allow, send_success_notification_allow]
      rfl
    · rw [send_success_notification_allow]
      rfl
  | EAP_AKA_SERVER_SUCCESS =>
    rw [state_enter_success]
    rfl
  | EAP_AKA_SERVER_FAILURE_NOTIFICATION => exact enter_failure_notification_allow x s
  | EAP_AKA_SERVER_FAILURE => exact enter_failure_allow x s

/-- C18, the claim at a failing input.  The sample session has
`allow_encrypted` false and its challenge reaches the composition; the
encoder fails, so `eap_aka_compose` and `eap_aka_send_challenge` return `-1`,
and `allow_encrypted` is true afterwards, also at the end of the state entry
that fell back to the failure path. -/
theorem challenge_encode_failure_allows_encrypted :
    sample_challenge_session.eap_aka_session.allow_encrypted = false ∧
    (eap_aka_send_challenge sample_ext_encode_fails sample_challenge_session).1 = -1 ∧
    (eap_aka_send_challenge sample_ext_encode_fails
      sample_challenge_session).2.eap_aka_session.allow_encrypted = true ∧
    (eap_aka_state_enter sample_ext_encode_fails sample_challenge_session
      .EAP_AKA_SERVER_CHALLENGE).eap_aka_session.allow_encrypted = true ∧
    (eap_aka_state_enter sample_ext_encode_fails sample_challenge_session
      .EAP_AKA_SERVER_CHALLENGE).eap_aka_session.state = .EAP_AKA_SERVER_FAILURE := by
  refine ⟨by decide, by decide, by decide, ?_, ?_⟩
  · rw [enter_challenge_allow]
    decide
  · rw [state_enter_challenge, if_pos (by decide), state_enter_failure_notification,
      if_pos (by decide), state_enter_failure]
    rfl

/-- C18, as the code has it.  `allow_encrypted` is false in a new session.
`eap_aka_send_challenge` sets it exactly when it reaches its call of
`eap_aka_compose` (vector acquired, network name present for AKA', checkcode
finalised), before the encoder runs and whatever the encoder returns; in
particular it is true after every challenge that was composed successfully.
`eap_aka_send_identity_request` resets it to false, and no other composer
changes it: entering a state other than Challenge keeps it false, entering a
state other than Identity keeps it true. -/
theorem allow_encrypted_gate (x : ext) (s : eap_session_t) :
    eap_aka_session_zero.allow_encrypted = false ∧
    (∀ inst : rlm_eap_aka_t, ∃ s0 t,
      mod_session_init x inst s = (.RLM_MODULE_OK, eap_aka_state_enter x s0 t) ∧
      s0.eap_aka_session.allow_encrypted = false) ∧
    (eap_aka_send_challenge x s).2.eap_aka_session.allow_encrypted =
      (s.eap_aka_session.allow_encrypted || challenge_reaches_compose x s) ∧
    ((eap_aka_send_challenge x s).1 = 0 →
      (eap_aka_send_challenge x s).2.eap_aka_session.allow_encrypted = true) ∧
    (eap_aka_send_identity_request x s).2.eap_aka_session.allow_encrypted = false ∧
    (eap_aka_compose x s).2.eap_aka_session.allow_encrypted =
      s.eap_aka_session.allow_encrypted ∧
    (eap_aka_send_eap_success_notification x s).2.eap_aka_session.allow_encrypted =
      s.eap_aka_session.allow_encrypted ∧
    (eap_aka_send_eap_success s).2.eap_aka_session.allow_encrypted =
      s.eap_aka_session.allow_encrypted ∧
    (eap_aka_send_eap_failure_notification x s).2.eap_aka_session.allow_encrypted =
      s.eap_aka_session.allow_encrypted ∧
    (eap_aka_send_eap_failure s).2.eap_aka_session.allow_encrypted =
      s.eap_aka_session.allow_encrypted ∧
    (∀ t, t ≠ .EAP_AKA_SERVER_CHALLENGE → s.eap_aka_session.allow_encrypted = false →
      (eap_aka_state_enter x s t).eap_aka_session.allow_encrypted = false) ∧
    (∀ t, t ≠ .EAP_AKA_SERVER_IDENTITY → s.eap_aka_session.allow_encrypted = true →
      (eap_aka_state_enter x s t).eap_aka_session.allow_encrypted = true) := by
  refine ⟨rfl, fun inst => ?_, send_challenge_allow x s, fun h0 => ?_,
    send_identity_request_allow x s, by rw [compose_session],
    send_success_notification_allow x s, rfl, send_failure_notification_allow x s, rfl,
    fun t ht hs => ?_, fun t ht hs => ?_⟩
  · obtain ⟨s0, t, h0, h⟩ := session_init_shape x inst s
    exact ⟨s0, t, h0, h.2.2.2.2.2.2.1⟩
  · rw [send_challenge_allow]
    have hr : challenge_reaches_compose x s = true := by
      revert h0
      unfold eap_aka_send_challenge challenge_reaches_compose
      simp only []
      split_ifs <;> (try split) <;> (try split_ifs) <;> simp_all [rlm_rcode_t.toInt]
    rw [hr, Bool.or_true]
  · by_cases hi : t = .EAP_AKA_SERVER_IDENTITY
    · rw [hi, enter_identity_allow]
    · rw [enter_other_allow x s t hi ht, hs]
  · by_cases hc : t = .EAP_AKA_SERVER_CHALLENGE
    · rw [hc, enter_challenge_allow, hs, Bool.true_or]
    · rw [enter_other_allow x s t ht hc, hs]

/-- Witness of C18: the first challenge of the sample session is composed
and turns the gate on; an identity request sent afterwards turns it off. -/
theorem allow_encrypted_gate_witness :
    (eap_aka_send_challenge sample_ext sample_challenge_session).1 = 0 ∧
    (eap_aka_send_challenge sample_ext
      sample_challenge_session).2.eap_aka_session.allow_encrypted = true ∧
    (eap_aka_send_identity_request sample_ext
      (eap_aka_send_challenge sample_ext
        sample_challenge_session).2).2.eap_aka_session.allow_encrypted = false :=
  ⟨by decide,
    (allow_encrypted_gate sample_ext sample_challenge_session).2.2.2.1 (by decide),
    by decide⟩

/-! ## Export of the keying material (C20) -/

/-- C20.  Keying-material export in `eap_aka_send_eap_success`: the function
returns 0, sets the EAP code to Success and `finished` to true, and appends
to the reply the Recv key, bytes 0..31 of the MSK, then the Send key, bytes
32..63; for an MSK of at least 64 bytes each key has exactly 32 bytes, and
Recv followed by Send is the first 64 bytes of the MSK.  The two pairs depend
on the MSK only: sessions with equal MSK export equal pairs. -/
theorem success_exports_msk (s : eap_session_t)
    (h : 64 ≤ s.eap_aka_session.keys.msk.length) :
    (eap_aka_send_eap_success s).1 = 0 ∧
    (eap_aka_send_eap_success s).2.this_round_request.code = FR_EAP_CODE_SUCCESS ∧
    (eap_aka_send_eap_success s).2.finished = true ∧
    (eap_aka_send_eap_success s).2.request_reply_vps =
      s.request_reply_vps ++
        [{ da := fr_dict_attr_t.named "MS-MPPE-Recv-Key", vp_uint16 := 0, vp_bool := false,
           vp_octets := s.eap_aka_session.keys.msk.take 32 },
         { da := fr_dict_attr_t.named "MS-MPPE-Send-Key", vp_uint16 := 0, vp_bool := false,
           vp_octets := (s.eap_aka_session.keys.msk.drop 32).take 32 }] ∧
    (s.eap_aka_session.keys.msk.take 32).length = 32 ∧
    ((s.eap_aka_session.keys.msk.drop 32).take 32).length = 32 ∧
    (∀ i, i < 32 →
      (s.eap_aka_session.keys.msk.take 32)[i]? = s.eap_aka_session.keys.msk[i]? ∧
      ((s.eap_aka_session.keys.msk.drop 32).take 32)[i]? =
        s.eap_aka_session.keys.msk[32 + i]?) ∧
    s.eap_aka_session.keys.msk.take 32 ++ (s.eap_aka_session.keys.msk.drop 32).take 32 =
      s.eap_aka_session.keys.msk.take 64 ∧
    (∀ u : eap_session_t, u.eap_aka_session.keys.msk = s.eap_aka_session.keys.msk →
      (eap_aka_send_eap_success u).2.request_reply_vps.drop u.request_reply_vps.length =
        (eap_aka_send_eap_success s).2.request_reply_vps.drop s.request_reply_vps.length) := by
  have hreply : ∀ u : eap_session_t, (eap_aka_send_eap_success u).2.request_reply_vps =
      u.request_reply_vps ++
        [{ da := fr_dict_attr_t.named "MS-MPPE-Recv-Key", vp_uint16 := 0, vp_bool := false,
           vp_octets := u.eap_aka_session.keys.msk.take 32 },
         { da := fr_dict_attr_t.named "MS-MPPE-Send-Key", vp_uint16 := 0, vp_bool := false,
           vp_octets := (u.eap_aka_session.keys.msk.drop 32).take 32 }] := by
    intro u
    simp [eap_aka_send_eap_success, eap_add_reply, EAP_TLS_MPPE_KEY_LEN]
  refine ⟨rfl, rfl, rfl, hreply s, ?_, ?_, fun i hi => ⟨?_, ?_⟩, ?_, fun u hu => ?_⟩
  · rw [List.length_take]
    omega
  · rw [List.length_take, List.length_drop]
    omega
  · rw [List.getElem?_take]
    simp [hi]
  · rw [List.getElem?_take]
    simp [hi]
  · have h64 : (64 : Nat) = 32 + 32 := rfl
    rw [h64, List.take_add]
  · rw [hreply u, hreply s, List.drop_left, List.drop_left, hu]

/-- Witness of C20: for the MSK 0, 1, .., 63 the Recv key is 0..31 and the
Send key is 32..63. -/
theorem success_exports_msk_witness :
    64 ≤ sample_success_session.eap_aka_session.keys.msk.length ∧
    (eap_aka_send_eap_success sample_success_session).2.request_reply_vps =
      [{ da := fr_dict_attr_t.named "MS-MPPE-Recv-Key", vp_uint16 := 0, vp_bool := false,
         vp_octets := List.range 32 },
       { da := fr_dict_attr_t.named "MS-MPPE-Send-Key", vp_uint16 := 0, vp_bool := false,
         vp_octets := (List.range 64).drop 32 }] ∧
    (eap_aka_send_eap_success sample_success_session).2.finished = true :=
  ⟨by decide, by decide,
    (success_exports_msk sample_success_session (by decide)).2.2.1⟩

/-! ## The fallback chain is bounded (C29) -/

/-- The states logged by one state entry, target by target. -/
theorem enter_chain (x : ext) (s : eap_session_t) (t : eap_aka_server_state_t) :
    ∃ rest, (eap_aka_state_enter x s t).entered = s.entered ++ t :: rest ∧
      (t = .EAP_AKA_SERVER_FAILURE → rest = []) ∧
      (t = .EAP_AKA_SERVER_SUCCESS → rest = []) ∧
      (t = .EAP_AKA_SERVER_FAILURE_NOTIFICATION →
        rest = [] ∨ rest = [.EAP_AKA_SERVER_FAILURE]) ∧
      (t ≠ .EAP_AKA_SERVER_FAILURE → t ≠ .EAP_AKA_SERVER_FAILURE_NOTIFICATION →
        rest = [] ∨ rest = [.EAP_AKA_SERVER_FAILURE_NOTIFICATION] ∨
          rest = [.EAP_AKA_SERVER_FAILURE_NOTIFICATION, .EAP_AKA_SERVER_FAILURE]) := by
  cases t with
  | EAP_AKA_SERVER_IDENTITY =>
    obtain ⟨_, r, h2, h3⟩ := enter_via x s _ (eap_aka_send_identity_request x)
      (send_identity_request_core x) (state_enter_identity x s)
    exact ⟨r, h2, by simp, by simp, by simp, fun _ _ => h3⟩
  | EAP_AKA_SERVER_CHALLENGE =>
    obtain ⟨_, r, h2, h3⟩ := enter_via x s _ (eap_aka_send_challenge x)
      (send_challenge_core x) (state_enter_challenge x s)
    exact ⟨r, h2, by simp, by simp, by simp, fun _ _ => h3⟩
  | EAP_AKA_SERVER_SUCCESS_NOTIFICATION =>
    obtain ⟨_, r, h2, h3⟩ := enter_via x s _ (eap_aka_send_eap_success_notification x)
      (send_success_notification_core x) (state_enter_success_notification x s)
    exact ⟨r, h2, by simp, by simp, by simp, fun _ _ => h3⟩
  | EAP_AKA_SERVER_SUCCESS =>
    rw [state_enter_success]
    exact ⟨[], rfl, by simp, by simp, by simp, by simp⟩
  | EAP_AKA_SERVER_FAILURE_NOTIFICATION =>
    rcases enter_failure_notification_spec x s with ⟨_, hk, _⟩ | ⟨_, hk, _⟩
    · simp only [core, Prod.mk.injEq] at hk
      exact ⟨[], hk.2.2.1, by simp, by simp, by simp, by simp⟩
    · simp only [core, Prod.mk.injEq] at hk
      exact ⟨[.EAP_AKA_SERVER_FAILURE], hk.2.2.1, by simp, by simp, by simp, by simp⟩
  | EAP_AKA_SERVER_FAILURE =>
    have hk := (enter_failure_spec x s).1
    simp only [core, Prod.mk.injEq] at hk
    exact ⟨[], hk.2.2.1, by simp, by simp, by simp, by simp⟩

/-- C29.  Bounded fallback recursion: `eap_aka_state_enter` is a total
function, defined by recursion on the fallback rank of the target, which
drops at each nested call.  Entering Failure makes no nested call, entering
FailureNotification makes at most one, into Failure, and every other target
is followed by at most FailureNotification and then Failure: a state entry
logs at most three states. -/
theorem state_enter_bounded (x : ext) (s : eap_session_t) :
    eap_aka_state_enter x s .EAP_AKA_SERVER_FAILURE =
      (eap_aka_send_eap_failure (state_log s .EAP_AKA_SERVER_FAILURE)).2 ∧
    eap_aka_state_enter x s .EAP_AKA_SERVER_FAILURE_NOTIFICATION =
      (if (eap_aka_send_eap_failure_notification x
            (state_log s .EAP_AKA_SERVER_FAILURE_NOTIFICATION)).1 < 0 then
        eap_aka_state_enter x
          (eap_aka_send_eap_failure_notification x
            (state_log s .EAP_AKA_SERVER_FAILURE_NOTIFICATION)).2 .EAP_AKA_SERVER_FAILURE
      else
        (eap_aka_send_eap_failure_notification x
          (state_log s .EAP_AKA_SERVER_FAILURE_NOTIFICATION)).2) ∧
    (∀ t, ∃ rest, (eap_aka_state_enter x s t).entered = s.entered ++ t :: rest ∧
      (t = .EAP_AKA_SERVER_FAILURE → rest = []) ∧
      (t = .EAP_AKA_SERVER_SUCCESS → rest = []) ∧
      (t = .EAP_AKA_SERVER_FAILURE_NOTIFICATION →
        rest = [] ∨ rest = [.EAP_AKA_SERVER_FAILURE]) ∧
      (t ≠ .EAP_AKA_SERVER_FAILURE → t ≠ .EAP_AKA_SERVER_FAILURE_NOTIFICATION →
        rest = [] ∨ rest = [.EAP_AKA_SERVER_FAILURE_NOTIFICATION] ∨
          rest = [.EAP_AKA_SERVER_FAILURE_NOTIFICATION, .EAP_AKA_SERVER_FAILURE])) ∧
    (∀ t, (eap_aka_state_enter x s t).entered.length ≤ s.entered.length + 3) ∧
    fallback_rank .EAP_AKA_SERVER_FAILURE < fallback_rank .EAP_AKA_SERVER_FAILURE_NOTIFICATION ∧
    (∀ t, t ≠ .EAP_AKA_SERVER_FAILURE → t ≠ .EAP_AKA_SERVER_FAILURE_NOTIFICATION →
      fallback_rank .EAP_AKA_SERVER_FAILURE_NOTIFICATION < fallback_rank t) := by
  refine ⟨state_enter_failure x s, state_enter_failure_notification x s, enter_chain x s,
    fun t => ?_, by decide, fun t h1 h2 => ?_⟩
  · obtain ⟨_, rest, he, hr⟩ := enter_spec x s t
    rw [he]
    rcases hr with hr | hr | hr | hr <;> simp [hr]
  · cases t <;> first | exact absurd rfl h1 | exact absurd rfl h2 | decide

/-- Witness of C29: with an encoder that fails, entering Challenge walks the
whole chain Challenge, FailureNotification, Failure and stops. -/
theorem state_enter_bounded_witness :
    (eap_aka_state_enter sample_ext_encode_fails sample_challenge_session
      .EAP_AKA_SERVER_CHALLENGE).eap_aka_session.state = .EAP_AKA_SERVER_FAILURE ∧
    (eap_aka_state_enter sample_ext_encode_fails sample_challenge_session
      .EAP_AKA_SERVER_CHALLENGE).entered.length ≤ sample_challenge_session.entered.length + 3 := by
  refine ⟨?_, (state_enter_bounded sample_ext_encode_fails sample_challenge_session).2.2.2.1 _⟩
  rw [state_enter_challenge, if_pos (by decide), state_enter_failure_notification,
    if_pos (by decide), state_enter_failure]
  rfl

/-! ## The shape of one call of `mod_process` -/

/-- The pair the label `notification:` tests is freshly allocated, its value
is zero, so the label always takes the failure arm. -/
theorem mod_process_notification_rejects (x : ext) (s : eap_session_t) :
    mod_process_notification x s =
      (.RLM_MODULE_REJECT, eap_aka_state_enter x s .EAP_AKA_SERVER_FAILURE) := by
  unfold mod_process_notification
  rw [if_pos (by decide)]

theorem challenge_next_state_late (vps : List VALUE_PAIR) :
    challenge_next_state vps = .EAP_AKA_SERVER_SUCCESS_NOTIFICATION ∨
      challenge_next_state vps = .EAP_AKA_SERVER_SUCCESS := by
  unfold challenge_next_state
  split_ifs <;> simp

/-- One call of `mod_process` ends in a state entry.  Either the target is
none of Identity and Challenge and the module data of the session entered is
that of the call, with `challenge_success` set when a challenge response was
accepted (always so when the target is SuccessNotification), or the session
is in state Identity and the call is the handling of an Identity
response. -/
theorem mod_process_shape (x : ext) (s : eap_session_t) :
    (∃ u t, (mod_process x s).2 = eap_aka_state_enter x u t ∧
      t ≠ .EAP_AKA_SERVER_IDENTITY ∧ t ≠ .EAP_AKA_SERVER_CHALLENGE ∧
      (u.eap_aka_session = s.eap_aka_session ∨
        u.eap_aka_session = challenge_accepted s.eap_aka_session) ∧
      u.entered = s.entered ∧
      (t = .EAP_AKA_SERVER_SUCCESS_NOTIFICATION →
        u.eap_aka_session.challenge_success = true)) ∨
    (s.eap_aka_session.state = .EAP_AKA_SERVER_IDENTITY ∧
      mod_process x s =
        if (process_eap_aka_identity x (mod_process_decoded x s) (mod_process_vps x s)).1 = 0 then
          (.RLM_MODULE_HANDLED,
            (process_eap_aka_identity x (mod_process_decoded x s) (mod_process_vps x s)).2)
        else
          (.RLM_MODULE_HANDLED,
            eap_aka_state_enter x
              (process_eap_aka_identity x (mod_process_decoded x s) (mod_process_vps x s)).2
              .EAP_AKA_SERVER_FAILURE_NOTIFICATION)) := by
  have hlate : ∀ (u : eap_session_t) (t : eap_aka_server_state_t),
      u.eap_aka_session = s.eap_aka_session → u.entered = s.entered →
      t = .EAP_AKA_SERVER_SUCCESS ∨ t = .EAP_AKA_SERVER_FAILURE_NOTIFICATION ∨
        t = .EAP_AKA_SERVER_FAILURE →
      ∃ u' t', eap_aka_state_enter x u t = eap_aka_state_enter x u' t' ∧
        t' ≠ .EAP_AKA_SERVER_IDENTITY ∧ t' ≠ .EAP_AKA_SERVER_CHALLENGE ∧
        (u'.eap_aka_session = s.eap_aka_session ∨
          u'.eap_aka_session = challenge_accepted s.eap_aka_session) ∧
        u'.entered = s.entered ∧
        (t' = .EAP_AKA_SERVER_SUCCESS_NOTIFICATION →
          u'.eap_aka_session.challenge_success = true) := by
    intro u t hu he ht
    refine ⟨u, t, rfl, ?_, ?_, Or.inl hu, he, ?_⟩ <;>
      rcases ht with ht | ht | ht <;> rw [ht] <;> simp
  unfold mod_process
  by_cases h1 : s.eap_aka_session.state = .EAP_AKA_SERVER_SUCCESS_NOTIFICATION
  · left; rw [if_pos h1]; exact hlate _ _ rfl rfl (Or.inl rfl)
  rw [if_neg h1]
  simp only []
  by_cases h2 : (x.fr_sim_decode s.this_round_response.type_data s.eap_aka_session.keys).1 < 0
  · left; rw [if_pos h2]; exact hlate _ _ rfl rfl (Or.inr (Or.inl rfl))
  rw [if_neg h2]
  rcases fr_pair_find_by_child_num (mod_process_vps x s) dict_aka_root
      fr_attr_num.FR_EAP_AKA_SUBTYPE with _ | sv
  · left; exact hlate _ _ rfl rfl (Or.inr (Or.inl rfl))
  simp only []
  have hst : (mod_process_decoded x s).eap_aka_session.state = s.eap_aka_session.state := rfl
  rw [hst]
  cases hs : s.eap_aka_session.state with
  | EAP_AKA_SERVER_CHALLENGE =>
    left
    simp only []
    by_cases hc : sv.vp_uint16 = EAP_AKA_CHALLENGE
    · rw [if_pos hc]
      rcases challenge_result x (mod_process_decoded x s) (mod_process_vps x s) with
        ⟨_, hr⟩ | ⟨_, hr⟩
      · rw [hr]
        simp only [if_true]
        have hn := challenge_next_state_late (mod_process_vps x s)
        refine ⟨_, _, rfl, ?_, ?_, ?_, ?_, ?_⟩
        · rcases hn with hn | hn <;> rw [hn] <;> simp
        · rcases hn with hn | hn <;> rw [hn] <;> simp
        · right; rfl
        · rfl
        · intro _; rfl
      · rw [hr]
        simp only [show ¬ ((-1 : Int) = 0) by decide, if_false]
        exact hlate _ _ rfl rfl (Or.inr (Or.inl rfl))
    · rw [if_neg hc, mod_process_notification_rejects]
      unfold mod_process_unexpected_subtype
      split_ifs
      · exact hlate _ _ rfl rfl (Or.inr (Or.inl rfl))
      · exact hlate _ _ rfl rfl (Or.inr (Or.inr rfl))
      · exact hlate _ _ rfl rfl (Or.inr (Or.inr rfl))
      · exact hlate _ _ rfl rfl (Or.inr (Or.inr rfl))
      · exact hlate _ _ rfl rfl (Or.inr (Or.inl rfl))
  | EAP_AKA_SERVER_IDENTITY =>
    simp only []
    by_cases hi : sv.vp_uint16 = EAP_AKA_IDENTITY
    · right
      rw [if_pos hi]
      exact ⟨trivial, rfl⟩
    · left
      rw [if_neg hi, mod_process_notification_rejects]
      unfold mod_process_unexpected_subtype
      split_ifs
      · exact hlate _ _ rfl rfl (Or.inr (Or.inr rfl))
      · exact hlate _ _ rfl rfl (Or.inr (Or.inr rfl))
      · exact hlate _ _ rfl rfl (Or.inr (Or.inl rfl))
  | EAP_AKA_SERVER_FAILURE_NOTIFICATION =>
    left
    simp only []
    unfold mod_process_unexpected_subtype
    split_ifs
    · exact hlate _ _ rfl rfl (Or.inr (Or.inr rfl))
    · exact hlate _ _ rfl rfl (Or.inr (Or.inl rfl))
  | _ =>
    left
    simp only []
    exact hlate _ _ rfl rfl (Or.inr (Or.inl rfl))

/-! ## Notifications and unexpected subtypes (C22, C23, C24) -/

/-- A Notification received in state Identity or Challenge: whatever code it
carries, `mod_process` enters Failure and returns REJECT. -/
theorem mod_process_notification_subtype (x : ext) (s : eap_session_t) (subtype_vp : VALUE_PAIR)
    (hstate : s.eap_aka_session.state = .EAP_AKA_SERVER_IDENTITY ∨
      s.eap_aka_session.state = .EAP_AKA_SERVER_CHALLENGE)
    (hdec : ¬ (x.fr_sim_decode s.this_round_response.type_data s.eap_aka_session.keys).1 < 0)
    (hsub : fr_pair_find_by_child_num (mod_process_vps x s) dict_aka_root
      fr_attr_num.FR_EAP_AKA_SUBTYPE = some subtype_vp)
    (hval : subtype_vp.vp_uint16 = EAP_AKA_NOTIFICATION) :
    mod_process x s = (.RLM_MODULE_REJECT,
      eap_aka_state_enter x (mod_process_decoded x s) .EAP_AKA_SERVER_FAILURE) := by
  rcases hstate with hstate | hstate
  all_goals
    have hstate' : (mod_process_decoded x s).eap_aka_session.state = _ := hstate
    have hne : s.eap_aka_session.state ≠ .EAP_AKA_SERVER_SUCCESS_NOTIFICATION := by
      rw [hstate]; decide
    unfold mod_process
    simp only [if_neg hne, if_neg hdec, hsub, hstate', hval, mod_process_notification_rejects]
    rfl

/-- C22, the code at the failing input.  The sample session is in state
Challenge (respectively Identity) and receives a Notification whose code
`0x8000` has the success bit set.  The label `notification:` allocates a new
pair instead of looking the received one up, so it tests the value zero:
`mod_process` returns REJECT and enters Failure, it does not re-enter the
current state. -/
theorem notification_success_bit_ignored :
    (∃ vp, fr_pair_find_by_child_num
        (mod_process_vps sample_ext_notification
          (sample_session .EAP_AKA_SERVER_CHALLENGE [12, 128, 0]))
        dict_aka_root fr_attr_num.FR_EAP_AKA_NOTIFICATION = some vp ∧
      vp.vp_uint16 &&& 0x8000 ≠ 0) ∧
    (mod_process sample_ext_notification
      (sample_session .EAP_AKA_SERVER_CHALLENGE [12, 128, 0])).1 = .RLM_MODULE_REJECT ∧
    (mod_process sample_ext_notification
      (sample_session .EAP_AKA_SERVER_CHALLENGE [12, 128, 0])).2.entered =
      [.EAP_AKA_SERVER_FAILURE] ∧
    (mod_process sample_ext_notification
      (sample_session .EAP_AKA_SERVER_CHALLENGE [12, 128, 0])).2.eap_aka_session.state =
      .EAP_AKA_SERVER_FAILURE ∧
    (mod_process sample_ext_notification
      (sample_session .EAP_AKA_SERVER_CHALLENGE [12, 128, 0])).2.finished = true ∧
    (mod_process sample_ext_notification
      (sample_session .EAP_AKA_SERVER_IDENTITY [12, 128, 0])).1 = .RLM_MODULE_REJECT ∧
    (mod_process sample_ext_notification
      (sample_session .EAP_AKA_SERVER_IDENTITY [12, 128, 0])).2.entered =
      [.EAP_AKA_SERVER_FAILURE] := by
  have hc := mod_process_notification_subtype sample_ext_notification
    (sample_session .EAP_AKA_SERVER_CHALLENGE [12, 128, 0]) _ (Or.inr rfl) (by decide) rfl rfl
  have hi := mod_process_notification_subtype sample_ext_notification
    (sample_session .EAP_AKA_SERVER_IDENTITY [12, 128, 0]) _ (Or.inl rfl) (by decide) rfl rfl
  rw [hc, hi, state_enter_failure, state_enter_failure]
  exact ⟨⟨_, rfl, by decide⟩, rfl, rfl, rfl, rfl, rfl, rfl⟩

/-- C23.  State FailureNotification, decodable response: a Notification makes
`mod_process` enter Failure, which finishes the session, and return REJECT;
every other subtype, or no subtype at all, makes it enter FailureNotification
again, composing the failure notification once more, and return HANDLED. -/
theorem failure_notification_state_rule (x : ext) (s : eap_session_t)
    (hstate : s.eap_aka_session.state = .EAP_AKA_SERVER_FAILURE_NOTIFICATION)
    (hdec : ¬ (x.fr_sim_decode s.this_round_response.type_data s.eap_aka_session.keys).1 < 0) :
    (∀ subtype_vp, fr_pair_find_by_child_num (mod_process_vps x s) dict_aka_root
        fr_attr_num.FR_EAP_AKA_SUBTYPE = some subtype_vp →
      subtype_vp.vp_uint16 = EAP_AKA_NOTIFICATION →
      mod_process x s = (.RLM_MODULE_REJECT,
        eap_aka_state_enter x (mod_process_decoded x s) .EAP_AKA_SERVER_FAILURE) ∧
      (mod_process x s).2.eap_aka_session.state = .EAP_AKA_SERVER_FAILURE ∧
      (mod_process x s).2.finished = true ∧
      (mod_process x s).2.this_round_request.code = FR_EAP_CODE_FAILURE ∧
      (mod_process x s).2.entered = s.entered ++ [.EAP_AKA_SERVER_FAILURE]) ∧
    ((fr_pair_find_by_child_num (mod_process_vps x s) dict_aka_root
          fr_attr_num.FR_EAP_AKA_SUBTYPE = none ∨
        ∃ subtype_vp, fr_pair_find_by_child_num (mod_process_vps x s) dict_aka_root
          fr_attr_num.FR_EAP_AKA_SUBTYPE = some subtype_vp ∧
          subtype_vp.vp_uint16 ≠ EAP_AKA_NOTIFICATION) →
      (mod_process x s).1 = .RLM_MODULE_HANDLED ∧
      (mod_process x s).2 =
        eap_aka_state_enter x (mod_process_decoded x s) .EAP_AKA_SERVER_FAILURE_NOTIFICATION ∧
      (mod_process x s).2 =
        (if (eap_aka_send_eap_failure_notification x
              (state_log (mod_process_decoded x s) .EAP_AKA_SERVER_FAILURE_NOTIFICATION)).1 < 0 then
          eap_aka_state_enter x
            (eap_aka_send_eap_failure_notification x
              (state_log (mod_process_decoded x s) .EAP_AKA_SERVER_FAILURE_NOTIFICATION)).2
            .EAP_AKA_SERVER_FAILURE
        else
          (eap_aka_send_eap_failure_notification x
            (state_log (mod_process_decoded x s) .EAP_AKA_SERVER_FAILURE_NOTIFICATION)).2) ∧
      ((mod_process x s).2.entered = s.entered ++ [.EAP_AKA_SERVER_FAILURE_NOTIFICATION] ∨
        (mod_process x s).2.entered =
          s.entered ++ [.EAP_AKA_SERVER_FAILURE_NOTIFICATION, .EAP_AKA_SERVER_FAILURE])) := by
  have hstate' : (mod_process_decoded x s).eap_aka_session.state =
      .EAP_AKA_SERVER_FAILURE_NOTIFICATION := hstate
  have hne : s.eap_aka_session.state ≠ .EAP_AKA_SERVER_SUCCESS_NOTIFICATION := by
    rw [hstate]; decide
  refine ⟨fun sv hsub hval => ?_, fun hother => ?_⟩
  · have hmp : mod_process x s = (.RLM_MODULE_REJECT,
        eap_aka_state_enter x (mod_process_decoded x s) .EAP_AKA_SERVER_FAILURE) := by
      unfold mod_process
      simp only [if_neg hne, if_neg hdec, hsub, hstate', hval, if_true]
    have hk := enter_failure_spec x (mod_process_decoded x s)
    simp only [core, Prod.mk.injEq] at hk
    rw [hmp]
    exact ⟨rfl, hk.1.2.1, hk.1.2.2.2, hk.2.1, hk.1.2.2.1⟩
  · have hmp : mod_process x s = (.RLM_MODULE_HANDLED,
        eap_aka_state_enter x (mod_process_decoded x s)
          .EAP_AKA_SERVER_FAILURE_NOTIFICATION) := by
      rcases hother with hnone | ⟨sv, hsub, hval⟩
      · unfold mod_process
        simp only [if_neg hne, if_neg hdec, hnone]
      · unfold mod_process
        simp only [if_neg hne, if_neg hdec, hsub, hstate', if_neg hval,
          mod_process_unexpected_subtype]
    rw [hmp]
    refine ⟨rfl, rfl, state_enter_failure_notification x _, ?_⟩
    rcases enter_failure_notification_spec x (mod_process_decoded x s) with
      ⟨_, hk, _⟩ | ⟨_, hk, _⟩
    · simp only [core, Prod.mk.injEq] at hk
      exact Or.inl hk.2.2.1
    · simp only [core, Prod.mk.injEq] at hk
      exact Or.inr hk.2.2.1

/-- Witness of C23: in state FailureNotification the sample session answers
a Notification with Failure and a Challenge response with a new failure
notification. -/
theorem failure_notification_state_rule_witness :
    (mod_process sample_ext
      (sample_session .EAP_AKA_SERVER_FAILURE_NOTIFICATION [12])).1 = .RLM_MODULE_REJECT ∧
    (mod_process sample_ext
      (sample_session .EAP_AKA_SERVER_FAILURE_NOTIFICATION [12])).2.finished = true ∧
    (mod_process sample_ext
      (sample_session .EAP_AKA_SERVER_FAILURE_NOTIFICATION [1])).1 = .RLM_MODULE_HANDLED :=
  have h1 := (failure_notification_state_rule sample_ext
    (sample_session .EAP_AKA_SERVER_FAILURE_NOTIFICATION [12]) rfl (by decide)).1 _ rfl rfl
  have h2 := (failure_notification_state_rule sample_ext
    (sample_session .EAP_AKA_SERVER_FAILURE_NOTIFICATION [1]) rfl (by decide)).2
    (Or.inr ⟨_, rfl, by decide⟩)
  ⟨by rw [h1.1], h1.2.2.1, h2.1⟩

/-- C24.  Unexpected subtypes are notified, not failed: in state Identity a
subtype other than Identity, ClientError and Notification, and in state
Challenge a subtype other than Challenge, ClientError, AuthenticationReject
and Notification, SynchronizationFailure among them, makes `mod_process`
return HANDLED and enter FailureNotification; Failure is entered only as the
fallback of a failure notification that cannot be composed. -/
theorem unexpected_subtype_notified (x : ext) (s : eap_session_t) (subtype_vp : VALUE_PAIR)
    (hdec : ¬ (x.fr_sim_decode s.this_round_response.type_data s.eap_aka_session.keys).1 < 0)
    (hsub : fr_pair_find_by_child_num (mod_process_vps x s) dict_aka_root
      fr_attr_num.FR_EAP_AKA_SUBTYPE = some subtype_vp)
    (hcase :
      (s.eap_aka_session.state = .EAP_AKA_SERVER_IDENTITY ∧
        subtype_vp.vp_uint16 ≠ EAP_AKA_IDENTITY ∧
        subtype_vp.vp_uint16 ≠ EAP_AKA_CLIENT_ERROR ∧
        subtype_vp.vp_uint16 ≠ EAP_AKA_NOTIFICATION) ∨
      (s.eap_aka_session.state = .EAP_AKA_SERVER_CHALLENGE ∧
        subtype_vp.vp_uint16 ≠ EAP_AKA_CHALLENGE ∧
        subtype_vp.vp_uint16 ≠ EAP_AKA_CLIENT_ERROR ∧
        subtype_vp.vp_uint16 ≠ EAP_AKA_AUTHENTICATION_REJECT ∧
        subtype_vp.vp_uint16 ≠ EAP_AKA_NOTIFICATION)) :
    mod_process x s = (.RLM_MODULE_HANDLED,
      eap_aka_state_enter x (mod_process_decoded x s) .EAP_AKA_SERVER_FAILURE_NOTIFICATION) ∧
    ((mod_process x s).2.entered = s.entered ++ [.EAP_AKA_SERVER_FAILURE_NOTIFICATION] ∨
      ((eap_aka_send_eap_failure_notification x
          (state_log (mod_process_decoded x s) .EAP_AKA_SERVER_FAILURE_NOTIFICATION)).1 < 0 ∧
        (mod_process x s).2.entered =
          s.entered ++ [.EAP_AKA_SERVER_FAILURE_NOTIFICATION, .EAP_AKA_SERVER_FAILURE])) := by
  have hmp : mod_process x s = (.RLM_MODULE_HANDLED,
      eap_aka_state_enter x (mod_process_decoded x s)
        .EAP_AKA_SERVER_FAILURE_NOTIFICATION) := by
    rcases hcase with ⟨hstate, h1, h2, h3⟩ | ⟨hstate, h1, h2, h3, h4⟩
    · have hstate' : (mod_process_decoded x s).eap_aka_session.state = _ := hstate
      have hne : s.eap_aka_session.state ≠ .EAP_AKA_SERVER_SUCCESS_NOTIFICATION := by
        rw [hstate]; decide
      unfold mod_process
      simp only [if_neg hne, if_neg hdec, hsub, hstate', if_neg h1, if_neg h2, if_neg h3,
        mod_process_unexpected_subtype]
    · have hstate' : (mod_process_decoded x s).eap_aka_session.state = _ := hstate
      have hne : s.eap_aka_session.state ≠ .EAP_AKA_SERVER_SUCCESS_NOTIFICATION := by
        rw [hstate]; decide
      unfold mod_process
      simp only [if_neg hne, if_neg hdec, hsub, hstate', if_neg h1, if_neg h2, if_neg h3,
        if_neg h4, mod_process_unexpected_subtype]
      split_ifs <;> rfl
  rw [hmp]
  refine ⟨rfl, ?_⟩
  rcases enter_failure_notification_spec x (mod_process_decoded x s) with
    ⟨_, hk, _⟩ | ⟨hf, hk, _⟩
  · simp only [core, Prod.mk.injEq] at hk
    exact Or.inl hk.2.2.1
  · simp only [core, Prod.mk.injEq] at hk
    exact Or.inr ⟨hf, hk.2.2.1⟩

/-- Witness of C24: SynchronizationFailure received in state Challenge is
answered with a failure notification. -/
theorem unexpected_subtype_notified_witness :
    (sample_session .EAP_AKA_SERVER_CHALLENGE [4]).eap_aka_session.state =
      .EAP_AKA_SERVER_CHALLENGE ∧
    (mod_process sample_ext (sample_session .EAP_AKA_SERVER_CHALLENGE [4])).1 =
      .RLM_MODULE_HANDLED ∧
    ((mod_process sample_ext (sample_session .EAP_AKA_SERVER_CHALLENGE [4])).2.entered =
        [.EAP_AKA_SERVER_FAILURE_NOTIFICATION] ∨
      ((eap_aka_send_eap_failure_notification sample_ext
          (state_log (mod_process_decoded sample_ext
            (sample_session .EAP_AKA_SERVER_CHALLENGE [4]))
            .EAP_AKA_SERVER_FAILURE_NOTIFICATION)).1 < 0 ∧
        (mod_process sample_ext (sample_session .EAP_AKA_SERVER_CHALLENGE [4])).2.entered =
          [.EAP_AKA_SERVER_FAILURE_NOTIFICATION, .EAP_AKA_SERVER_FAILURE])) :=
  have h := unexpected_subtype_notified sample_ext
    (sample_session .EAP_AKA_SERVER_CHALLENGE [4]) _ (by decide) rfl
    (Or.inr ⟨rfl, by decide, by decide, by decide, by decide⟩)
  ⟨rfl, by rw [h.1], h.2⟩

/-! ## The checkcode after the challenge (C21) -/

/-- A projection of the session kept by the log entry and by the composers
other than the identity request and the challenge is kept by every entry
into a state other than Identity and Challenge. -/
theorem enter_late_frame {α : Type} (P : eap_session_t → α) (x : ext)
    (hlog : ∀ s t, P (state_log s t) = P s)
    (hsn : ∀ s, P (eap_aka_send_eap_success_notification x s).2 = P s)
    (hsu : ∀ s, P (eap_aka_send_eap_success s).2 = P s)
    (hfn : ∀ s, P (eap_aka_send_eap_failure_notification x s).2 = P s)
    (hfa : ∀ s, P (eap_aka_send_eap_failure s).2 = P s)
    (s : eap_session_t) (t : eap_aka_server_state_t)
    (hi : t ≠ .EAP_AKA_SERVER_IDENTITY) (hc : t ≠ .EAP_AKA_SERVER_CHALLENGE) :
    P (eap_aka_state_enter x s t) = P s := by
  have hF : ∀ u, P (eap_aka_state_enter x u .EAP_AKA_SERVER_FAILURE) = P u := by
    intro u
    rw [state_enter_failure, hfa, hlog]
  have hN : ∀ u, P (eap_aka_state_enter x u .EAP_AKA_SERVER_FAILURE_NOTIFICATION) = P u := by
    intro u
    rw [state_enter_failure_notification]
    split_ifs
    · rw [hF, hfn, hlog]
    · rw [hfn, hlog]
  cases t with
  | EAP_AKA_SERVER_IDENTITY => exact absurd rfl hi
  | EAP_AKA_SERVER_CHALLENGE => exact absurd rfl hc
  | EAP_AKA_SERVER_SUCCESS_NOTIFICATION =>
    rw [state_enter_success_notification]
    split_ifs
    · rw [hN, hsn, hlog]
    · rw [hsn, hlog]
  | EAP_AKA_SERVER_SUCCESS => rw [state_enter_success, hsu, hlog]
  | EAP_AKA_SERVER_FAILURE_NOTIFICATION => exact hN s
  | EAP_AKA_SERVER_FAILURE => exact hF s

/-- The state after a state entry is the target or a state of the fallback
chain. -/
theorem enter_state (x : ext) (s : eap_session_t) (t : eap_aka_server_state_t) :
    (eap_aka_state_enter x s t).eap_aka_session.state = t ∨
      (eap_aka_state_enter x s t).eap_aka_session.state =
        .EAP_AKA_SERVER_FAILURE_NOTIFICATION ∨
      (eap_aka_state_enter x s t).eap_aka_session.state = .EAP_AKA_SERVER_FAILURE := by
  have hN : ∀ u, (eap_aka_state_enter x u
        .EAP_AKA_SERVER_FAILURE_NOTIFICATION).eap_aka_session.state =
        .EAP_AKA_SERVER_FAILURE_NOTIFICATION ∨
      (eap_aka_state_enter x u .EAP_AKA_SERVER_FAILURE_NOTIFICATION).eap_aka_session.state =
        .EAP_AKA_SERVER_FAILURE := by
    intro u
    rcases enter_failure_notification_spec x u with ⟨_, hk, _⟩ | ⟨_, hk, _⟩
    · simp only [core, Prod.mk.injEq] at hk
      exact Or.inl hk.2.1
    · simp only [core, Prod.mk.injEq] at hk
      exact Or.inr hk.2.1
  have hvia : ∀ (f : eap_session_t → Int × eap_session_t),
      (∀ u, core (f u).2 = core u) →
      (eap_aka_state_enter x s t =
        if (f (state_log s t)).1 < 0 then
          eap_aka_state_enter x (f (state_log s t)).2 .EAP_AKA_SERVER_FAILURE_NOTIFICATION
        else (f (state_log s t)).2) →
      (eap_aka_state_enter x s t).eap_aka_session.state = t ∨
        (eap_aka_state_enter x s t).eap_aka_session.state =
          .EAP_AKA_SERVER_FAILURE_NOTIFICATION ∨
        (eap_aka_state_enter x s t).eap_aka_session.state = .EAP_AKA_SERVER_FAILURE := by
    intro f hf hrec
    rw [hrec]
    split_ifs
    · exact Or.inr (hN _)
    · have hc := hf (state_log s t)
      rw [core_state_log] at hc
      simp only [core, Prod.mk.injEq] at hc
      exact Or.inl hc.2.1
  cases t with
  | EAP_AKA_SERVER_IDENTITY =>
    exact hvia _ (send_identity_request_core x) (state_enter_identity x s)
  | EAP_AKA_SERVER_CHALLENGE =>
    exact hvia _ (send_challenge_core x) (state_enter_challenge x s)
  | EAP_AKA_SERVER_SUCCESS_NOTIFICATION =>
    exact hvia _ (send_success_notification_core x) (state_enter_success_notification x s)
  | EAP_AKA_SERVER_SUCCESS =>
    rw [state_enter_success]
    exact Or.inl rfl
  | EAP_AKA_SERVER_FAILURE_NOTIFICATION => exact Or.inr (hN s)
  | EAP_AKA_SERVER_FAILURE =>
    rw [state_enter_failure]
    exact Or.inl rfl

theorem enter_late_checkcode (x : ext) (s : eap_session_t) (t : eap_aka_server_state_t)
    (hi : t ≠ .EAP_AKA_SERVER_IDENTITY) (hc : t ≠ .EAP_AKA_SERVER_CHALLENGE) :
    (eap_aka_state_enter x s t).eap_aka_session.checkcode = s.eap_aka_session.checkcode ∧
      (eap_aka_state_enter x s t).eap_aka_session.checkcode_len =
        s.eap_aka_session.checkcode_len := by
  have h := enter_late_frame
    (fun u => (u.eap_aka_session.checkcode, u.eap_aka_session.checkcode_len)) x
    (fun _ _ => rfl)
    (fun u => by
      unfold eap_aka_send_eap_success_notification
      simp only []
      split_ifs <;> simp [compose_session])
    (fun _ => rfl)
    (fun u => by
      unfold eap_aka_send_eap_failure_notification
      simp only []
      split_ifs <;> simp [compose_session])
    (fun _ => rfl) s t hi hc
  simp only [Prod.mk.injEq] at h
  exact h

/-- A call of `mod_process` on a session that is not in state Identity
leaves the checkcode alone and does not lead back to state Identity. -/
theorem mod_process_late (x : ext) (s : eap_session_t)
    (h : s.eap_aka_session.state ≠ .EAP_AKA_SERVER_IDENTITY) :
    (mod_process x s).2.eap_aka_session.state ≠ .EAP_AKA_SERVER_IDENTITY ∧
      (mod_process x s).2.eap_aka_session.state ≠ .EAP_AKA_SERVER_CHALLENGE ∧
      (mod_process x s).2.eap_aka_session.checkcode = s.eap_aka_session.checkcode ∧
      (mod_process x s).2.eap_aka_session.checkcode_len = s.eap_aka_session.checkcode_len := by
  rcases mod_process_shape x s with ⟨u, t, he, hi, hc, hu, _, _⟩ | ⟨hs, _⟩
  · rw [he]
    have hcc := enter_late_checkcode x u t hi hc
    have hus : u.eap_aka_session.checkcode = s.eap_aka_session.checkcode ∧
        u.eap_aka_session.checkcode_len = s.eap_aka_session.checkcode_len := by
      rcases hu with hu | hu <;> rw [hu] <;> exact ⟨rfl, rfl⟩
    refine ⟨?_, ?_, hcc.1.trans hus.1, hcc.2.trans hus.2⟩
    · rcases enter_state x u t with hst | hst | hst <;> rw [hst]
      · exact hi
      · decide
      · decide
    · rcases enter_state x u t with hst | hst | hst <;> rw [hst]
      · exact hc
      · decide
      · decide
  · exact absurd hs h

theorem run_late (x : ext) (s : eap_session_t) (ms : List round)
    (h : s.eap_aka_session.state ≠ .EAP_AKA_SERVER_IDENTITY) :
    (run x s ms).eap_aka_session.state ≠ .EAP_AKA_SERVER_IDENTITY ∧
      (run x s ms).eap_aka_session.checkcode = s.eap_aka_session.checkcode ∧
      (run x s ms).eap_aka_session.checkcode_len = s.eap_aka_session.checkcode_len := by
  induction ms generalizing s with
  | nil => exact ⟨h, rfl, rfl⟩
  | cons m ms ih =>
    have hm := mod_process_late x (deliver s m) h
    have hr := ih (mod_process x (deliver s m)).2 hm.1
    exact ⟨hr.1, hr.2.1.trans hm.2.2.1, hr.2.2.trans hm.2.2.2⟩

/-- C21.  Checkcode freeze: entering Challenge, which composes the challenge,
leaves the session in a state other than Identity, and from a session that is
not in state Identity no sequence of `mod_process` calls, whatever responses
they carry, changes the stored checkcode bytes or `checkcode_len`: after the
challenge they are never extended or recomputed. -/
theorem checkcode_frozen (x : ext) (s0 : eap_session_t) (ms : List round) :
    (eap_aka_state_enter x s0 .EAP_AKA_SERVER_CHALLENGE).eap_aka_session.state ≠
      .EAP_AKA_SERVER_IDENTITY ∧
    (run x (eap_aka_state_enter x s0 .EAP_AKA_SERVER_CHALLENGE) ms).eap_aka_session.checkcode =
      (eap_aka_state_enter x s0 .EAP_AKA_SERVER_CHALLENGE).eap_aka_session.checkcode ∧
    (run x (eap_aka_state_enter x s0 .EAP_AKA_SERVER_CHALLENGE) ms).eap_aka_session.checkcode_len =
      (eap_aka_state_enter x s0 .EAP_AKA_SERVER_CHALLENGE).eap_aka_session.checkcode_len ∧
    (∀ s : eap_session_t, s.eap_aka_session.state ≠ .EAP_AKA_SERVER_IDENTITY →
      (run x s ms).eap_aka_session.state ≠ .EAP_AKA_SERVER_IDENTITY ∧
      (run x s ms).eap_aka_session.checkcode = s.eap_aka_session.checkcode ∧
      (run x s ms).eap_aka_session.checkcode_len = s.eap_aka_session.checkcode_len) := by
  have hst : (eap_aka_state_enter x s0 .EAP_AKA_SERVER_CHALLENGE).eap_aka_session.state ≠
      .EAP_AKA_SERVER_IDENTITY := by
    rcases enter_state x s0 .EAP_AKA_SERVER_CHALLENGE with h | h | h <;> rw [h] <;> decide
  have hr := run_late x _ ms hst
  exact ⟨hst, hr.2.1, hr.2.2, fun s hs => run_late x s ms hs⟩

/-- Witness of C21: after the challenge of the sample session, a
Notification and a Challenge response leave the checkcode as it was. -/
theorem checkcode_frozen_witness :
    (run sample_ext
      (eap_aka_state_enter sample_ext sample_challenge_session .EAP_AKA_SERVER_CHALLENGE)
      [sample_round [12], sample_round [1]]).eap_aka_session.checkcode =
      (eap_aka_state_enter sample_ext sample_challenge_session
        .EAP_AKA_SERVER_CHALLENGE).eap_aka_session.checkcode ∧
    (run sample_ext
      (eap_aka_state_enter sample_ext sample_challenge_session .EAP_AKA_SERVER_CHALLENGE)
      [sample_round [12], sample_round [1]]).eap_aka_session.checkcode_len =
      (eap_aka_state_enter sample_ext sample_challenge_session
        .EAP_AKA_SERVER_CHALLENGE).eap_aka_session.checkcode_len :=
  ⟨(checkcode_frozen sample_ext sample_challenge_session
      [sample_round [12], sample_round [1]]).2.1,
    (checkcode_frozen sample_ext sample_challenge_session
      [sample_round [12], sample_round [1]]).2.2.1⟩

/-! ## The assertion of the success notification (C30) -/

theorem enter_no_success_notification (x : ext) (u : eap_session_t)
    (t : eap_aka_server_state_t) (ht : t ≠ .EAP_AKA_SERVER_SUCCESS_NOTIFICATION) :
    ∃ l, (eap_aka_state_enter x u t).entered = u.entered ++ l ∧
      .EAP_AKA_SERVER_SUCCESS_NOTIFICATION ∉ l := by
  obtain ⟨_, rest, he, hr⟩ := enter_spec x u t
  refine ⟨t :: rest, he, ?_⟩
  intro hmem
  rcases List.mem_cons.1 hmem with h | h
  · exact ht h.symm
  · rcases hr with hr | hr | hr | hr <;> rw [hr] at h <;> simp at h

theorem process_identity_no_success_notification (x : ext) (s : eap_session_t)
    (vps : List VALUE_PAIR) :
    ∃ l, (process_eap_aka_identity x s vps).2.entered = s.entered ++ l ∧
      .EAP_AKA_SERVER_SUCCESS_NOTIFICATION ∉ l := by
  unfold process_eap_aka_identity
  simp only []
  split_ifs
  · exact ⟨[], by simp, by simp⟩
  · cases s.eap_aka_session.id_req
    · exact ⟨[], by simp, by simp⟩
    all_goals exact enter_no_success_notification x _ _ (by decide)

/-- In one call of `mod_process` either SuccessNotification is not entered,
or it is the state entered after a challenge response was accepted, on a
session whose `challenge_success` is true. -/
theorem mod_process_success_notification (x : ext) (s : eap_session_t) :
    (∃ l, (mod_process x s).2.entered = s.entered ++ l ∧
      .EAP_AKA_SERVER_SUCCESS_NOTIFICATION ∉ l) ∨
    (∃ u, u.eap_aka_session.challenge_success = true ∧ u.entered = s.entered ∧
      (mod_process x s).2 =
        eap_aka_state_enter x u .EAP_AKA_SERVER_SUCCESS_NOTIFICATION) := by
  rcases mod_process_shape x s with ⟨u, t, he, _, _, _, hent, hsn⟩ | ⟨_, he⟩
  · by_cases ht : t = .EAP_AKA_SERVER_SUCCESS_NOTIFICATION
    · right
      exact ⟨u, hsn ht, hent, by rw [he, ht]⟩
    · left
      obtain ⟨l, hl, hn⟩ := enter_no_success_notification x u t ht
      exact ⟨l, by rw [he, hl, hent], hn⟩
  · left
    obtain ⟨l, hl, hn⟩ := process_identity_no_success_notification x
      (mod_process_decoded x s) (mod_process_vps x s)
    have hd : (mod_process_decoded x s).entered = s.entered := rfl
    rw [he]
    split_ifs
    · exact ⟨l, by rw [hl, hd], hn⟩
    · obtain ⟨l2, hl2, hn2⟩ := enter_no_success_notification x
        (process_eap_aka_identity x (mod_process_decoded x s) (mod_process_vps x s)).2
        .EAP_AKA_SERVER_FAILURE_NOTIFICATION (by decide)
      refine ⟨l ++ l2, ?_, ?_⟩
      · show (eap_aka_state_enter x _ _).entered = _
        rw [hl2, hl, hd, List.append_assoc]
      · intro hmem
        rcases List.mem_append.1 hmem with h | h
        · exact hn h
        · exact hn2 h

theorem session_init_no_success_notification (x : ext) (inst : rlm_eap_aka_t)
    (s : eap_session_t) :
    ∃ l, (mod_session_init x inst s).2.entered = s.entered ++ l ∧
      .EAP_AKA_SERVER_SUCCESS_NOTIFICATION ∉ l := by
  obtain ⟨s0, t, h0, h1, h2, _, _, hent, _⟩ := session_init_shape x inst s
  have ht : t ≠ .EAP_AKA_SERVER_SUCCESS_NOTIFICATION := by
    by_cases hc : inst.request_identity = true ∨
        (x.fr_sim_id_type s.identity).2.1 = .SIM_ID_TYPE_UNKNOWN
    · rw [(h1 hc).1]; decide
    · rw [(h2 hc).1]; decide
  obtain ⟨l, hl, hn⟩ := enter_no_success_notification x s0 t ht
  exact ⟨l, by rw [h0, hl, hent], hn⟩

theorem run_success_notification (x : ext) (s : eap_session_t) (ms : List round)
    (h : .EAP_AKA_SERVER_SUCCESS_NOTIFICATION ∈ (run x s ms).entered) :
    .EAP_AKA_SERVER_SUCCESS_NOTIFICATION ∈ s.entered ∨
      (run x s ms).eap_aka_session.challenge_success = true := by
  induction ms generalizing s with
  | nil => exact Or.inl h
  | cons m ms ih =>
    rcases ih (mod_process x (deliver s m)).2 h with h1 | h1
    · rcases mod_process_success_notification x (deliver s m) with ⟨l, hl, hn⟩ | ⟨u, hu, _, he⟩
      · rw [hl] at h1
        rcases List.mem_append.1 h1 with h2 | h2
        · exact Or.inl h2
        · exact absurd h2 hn
      · right
        exact run_cs_mono x (mod_process x (deliver s m)).2 ms (by rw [he, enter_cs]; exact hu)
    · exact Or.inr h1

theorem compose_assert_failed (x : ext) (s : eap_session_t) :
    (eap_aka_compose x s).2.assert_failed = s.assert_failed := by
  unfold eap_aka_compose
  simp only []
  split <;> rfl

/-- C30.  The assertion of `eap_aka_send_eap_success_notification` holds on
every session of a run.  `mod_session_init` does not enter
SuccessNotification.  A call of `mod_process`, on any session, either does
not enter SuccessNotification or enters it once, on a session whose
`challenge_success` is true; the nested entries of the fallback chain never
have SuccessNotification as target.  With `challenge_success` true the
composer does not take the failing arm of the assertion.  So in a run of
`mod_session_init` followed by `mod_process` calls, SuccessNotification in
the log of entered states means `challenge_success` is true. -/
theorem success_notification_assertion (x : ext) (inst : rlm_eap_aka_t) (s0 : eap_session_t)
    (ms : List round) :
    (∃ l, (mod_session_init x inst s0).2.entered = s0.entered ++ l ∧
      .EAP_AKA_SERVER_SUCCESS_NOTIFICATION ∉ l) ∧
    (∀ s : eap_session_t,
      (∃ l, (mod_process x s).2.entered = s.entered ++ l ∧
        .EAP_AKA_SERVER_SUCCESS_NOTIFICATION ∉ l) ∨
      (∃ u, u.eap_aka_session.challenge_success = true ∧ u.entered = s.entered ∧
        (mod_process x s).2 =
          eap_aka_state_enter x u .EAP_AKA_SERVER_SUCCESS_NOTIFICATION)) ∧
    (∀ (u : eap_session_t) (t : eap_aka_server_state_t),
      t ≠ .EAP_AKA_SERVER_SUCCESS_NOTIFICATION →
      ∃ l, (eap_aka_state_enter x u t).entered = u.entered ++ l ∧
        .EAP_AKA_SERVER_SUCCESS_NOTIFICATION ∉ l) ∧
    (∀ u : eap_session_t, u.eap_aka_session.challenge_success = true →
      (state_log u .EAP_AKA_SERVER_SUCCESS_NOTIFICATION).eap_aka_session.challenge_success =
        true ∧
      (eap_aka_send_eap_success_notification x
        (state_log u .EAP_AKA_SERVER_SUCCESS_NOTIFICATION)).2.assert_failed = u.assert_failed ∧
      (eap_aka_state_enter x u
        .EAP_AKA_SERVER_SUCCESS_NOTIFICATION).eap_aka_session.challenge_success = true) ∧
    (.EAP_AKA_SERVER_SUCCESS_NOTIFICATION ∈
        (run x (mod_session_init x inst s0).2 ms).entered →
      .EAP_AKA_SERVER_SUCCESS_NOTIFICATION ∈ s0.entered ∨
        (run x (mod_session_init x inst s0).2 ms).eap_aka_session.challenge_success = true) := by
  refine ⟨session_init_no_success_notification x inst s0,
    mod_process_success_notification x, enter_no_success_notification x,
    fun u hu => ⟨hu, ?_, by rw [enter_cs]; exact hu⟩, fun h => ?_⟩
  · have hl : (state_log u .EAP_AKA_SERVER_SUCCESS_NOTIFICATION).eap_aka_session.challenge_success
        = true := hu
    unfold eap_aka_send_eap_success_notification
    simp only [hl, not_true_eq_false, if_false]
    split_ifs <;> simp [compose_assert_failed, state_log]
  · rcases run_success_notification x _ ms h with h1 | h1
    · obtain ⟨l, hl, hn⟩ := session_init_no_success_notification x inst s0
      rw [hl] at h1
      rcases List.mem_append.1 h1 with h2 | h2
      · exact Or.inl h2
      · exact absurd h2 hn
    · exact Or.inr h1

/-- Witness of C30: on the authenticated sample session the composer of the
success notification passes its assertion. -/
theorem success_notification_assertion_witness :
    sample_success_session.eap_aka_session.challenge_success = true ∧
    (eap_aka_send_eap_success_notification sample_ext
      (state_log sample_success_session
        .EAP_AKA_SERVER_SUCCESS_NOTIFICATION)).2.assert_failed = false ∧
    (eap_aka_send_eap_success_notification sample_ext
      (state_log sample_success_session .EAP_AKA_SERVER_SUCCESS_NOTIFICATION)).1 = 0 :=
  ⟨rfl,
    ((success_notification_assertion sample_ext sample_inst sample_success_session
      []).2.2.2.1 sample_success_session rfl).2.1,
    by decide⟩

/-! ## Selection of the key derivation (C28) -/

theorem send_challenge_keys (x : ext) (s : eap_session_t)
    (hv : ¬ (eap_aka_challenge_vector x s).1 < 0) :
    (eap_aka_send_challenge x s).2.eap_aka_session.keys =
      if s.eap_aka_session.kdf = FR_EAP_AKA_KDF_VALUE_EAP_AKA_PRIME_WITH_CK_PRIME_IK_PRIME then
        x.fr_sim_crypto_kdf_1_umts (eap_aka_challenge_vector x s).2
      else x.fr_sim_crypto_kdf_0_umts (eap_aka_challenge_vector x s).2 := by
  unfold eap_aka_challenge_vector at hv ⊢
  unfold eap_aka_send_challenge
  simp only [if_neg hv]
  split_ifs <;> (try split) <;> (try split_ifs) <;> simp_all [compose_session]

theorem send_challenge_vector_failure (x : ext) (s : eap_session_t)
    (hv : (eap_aka_challenge_vector x s).1 < 0) :
    (eap_aka_send_challenge x s).2.eap_aka_session.keys = (eap_aka_challenge_vector x s).2 := by
  unfold eap_aka_challenge_vector at hv ⊢
  unfold eap_aka_send_challenge
  simp only [if_pos hv]

theorem enter_variant (x : ext) (s : eap_session_t) (t : eap_aka_server_state_t) :
    (eap_aka_state_enter x s t).eap_aka_session.type = s.eap_aka_session.type ∧
      (eap_aka_state_enter x s t).eap_aka_session.kdf = s.eap_aka_session.kdf := by
  have h := enter_config x s t
  simp only [config, Prod.mk.injEq] at h
  exact ⟨h.2.1, h.2.2.1⟩

theorem process_identity_variant (x : ext) (s : eap_session_t) (vps : List VALUE_PAIR) :
    (process_eap_aka_identity x s vps).2.eap_aka_session.type = s.eap_aka_session.type ∧
      (process_eap_aka_identity x s vps).2.eap_aka_session.kdf = s.eap_aka_session.kdf := by
  unfold process_eap_aka_identity
  simp only []
  split_ifs
  · exact ⟨rfl, rfl⟩
  · cases s.eap_aka_session.id_req
    · exact ⟨rfl, rfl⟩
    all_goals
      simp only []
      exact ⟨(enter_variant x _ _).1, (enter_variant x _ _).2⟩

theorem mod_process_variant (x : ext) (s : eap_session_t) :
    (mod_process x s).2.eap_aka_session.type = s.eap_aka_session.type ∧
      (mod_process x s).2.eap_aka_session.kdf = s.eap_aka_session.kdf := by
  rcases mod_process_shape x s with ⟨u, t, he, _, _, hu, _, _⟩ | ⟨_, he⟩
  · rw [he]
    have hv := enter_variant x u t
    rcases hu with hu | hu
    · rw [hv.1, hv.2, hu]
      exact ⟨rfl, rfl⟩
    · rw [hv.1, hv.2, hu]
      exact ⟨rfl, rfl⟩
  · have hp := process_identity_variant x (mod_process_decoded x s) (mod_process_vps x s)
    rw [he]
    split_ifs
    · exact hp
    · have hv := enter_variant x
        (process_eap_aka_identity x (mod_process_decoded x s) (mod_process_vps x s)).2
        .EAP_AKA_SERVER_FAILURE_NOTIFICATION
      exact ⟨hv.1.trans hp.1, hv.2.trans hp.2⟩

theorem run_variant (x : ext) (s : eap_session_t) (ms : List round) :
    (run x s ms).eap_aka_session.type = s.eap_aka_session.type ∧
      (run x s ms).eap_aka_session.kdf = s.eap_aka_session.kdf := by
  induction ms generalizing s with
  | nil => exact ⟨rfl, rfl⟩
  | cons m ms ih =>
    have hm := mod_process_variant x (deliver s m)
    have hr := ih (mod_process x (deliver s m)).2
    exact ⟨hr.1.trans hm.1, hr.2.trans hm.2⟩

/-- C28.  Key-derivation selection: once the vector is acquired,
`eap_aka_send_challenge` derives the keys with `fr_sim_crypto_kdf_1_umts`
when the KDF of the session is the CK'/IK' identifier and with
`fr_sim_crypto_kdf_0_umts` for every other value.  A session created by
`mod_session_init` has the CK'/IK' identifier exactly when its variant is
AKA', and keeps variant and KDF in every later `mod_process` call, so the
AKA' derivation is used if and only if the variant is AKA'. -/
theorem kdf_selection (x : ext) (s : eap_session_t)
    (hv : ¬ (eap_aka_challenge_vector x s).1 < 0) :
    (s.eap_aka_session.kdf = FR_EAP_AKA_KDF_VALUE_EAP_AKA_PRIME_WITH_CK_PRIME_IK_PRIME →
      (eap_aka_send_challenge x s).2.eap_aka_session.keys =
        x.fr_sim_crypto_kdf_1_umts (eap_aka_challenge_vector x s).2) ∧
    (s.eap_aka_session.kdf ≠ FR_EAP_AKA_KDF_VALUE_EAP_AKA_PRIME_WITH_CK_PRIME_IK_PRIME →
      (eap_aka_send_challenge x s).2.eap_aka_session.keys =
        x.fr_sim_crypto_kdf_0_umts (eap_aka_challenge_vector x s).2) ∧
    (∀ (inst : rlm_eap_aka_t) (s1 : eap_session_t) (ms : List round),
      ((run x (mod_session_init x inst s1).2 ms).eap_aka_session.kdf =
          FR_EAP_AKA_KDF_VALUE_EAP_AKA_PRIME_WITH_CK_PRIME_IK_PRIME ↔
        (run x (mod_session_init x inst s1).2 ms).eap_aka_session.type = FR_EAP_AKA_PRIME) ∧
      ((run x (mod_session_init x inst s1).2 ms).eap_aka_session.type = FR_EAP_AKA_PRIME ↔
        s1.type ≠ FR_EAP_AKA)) := by
  have hk := send_challenge_keys x s hv
  refine ⟨fun h => by rw [hk, if_pos h], fun h => by rw [hk, if_neg h], fun inst s1 ms => ?_⟩
  obtain ⟨s0, t, h0, _, _, hl, hp, _⟩ := session_init_shape x inst s1
  have hr := run_variant x (mod_session_init x inst s1).2 ms
  have he := enter_variant x s0 t
  have hinit : (mod_session_init x inst s1).2 = eap_aka_state_enter x s0 t := by rw [h0]
  rw [hr.1, hr.2, hinit, he.1, he.2]
  by_cases ht : s1.type = FR_EAP_AKA
  · obtain ⟨h1, h2, _⟩ := hl ht
    rw [h1, h2]
    simp [ht, FR_EAP_AKA, FR_EAP_AKA_PRIME,
      FR_EAP_AKA_KDF_VALUE_EAP_AKA_PRIME_WITH_CK_PRIME_IK_PRIME]
  · obtain ⟨h1, h2, _⟩ := hp ht
    rw [h1, h2]
    simp [ht]

/-- Witness of C28: the sample session, an AKA' session with the CK'/IK'
identifier, gets the keys of the AKA' derivation. -/
theorem kdf_selection_witness :
    ¬ (eap_aka_challenge_vector sample_ext sample_challenge_session).1 < 0 ∧
    (eap_aka_send_challenge sample_ext sample_challenge_session).2.eap_aka_session.keys =
      sample_ext.fr_sim_crypto_kdf_1_umts
        (eap_aka_challenge_vector sample_ext sample_challenge_session).2 :=
  ⟨by decide, (kdf_selection sample_ext sample_challenge_session (by decide)).1 rfl⟩

/-! ## The identity of the peer (C25) -/

/-- A projection of the session kept by the log entry, the identity request
and the two failure composers is kept by entering Identity. -/
theorem enter_identity_frame {α : Type} (P : eap_session_t → α) (x : ext)
    (hlog : ∀ s t, P (state_log s t) = P s)
    (hid : ∀ s, P (eap_aka_send_identity_request x s).2 = P s)
    (hfn : ∀ s, P (eap_aka_send_eap_failure_notification x s).2 = P s)
    (hfa : ∀ s, P (eap_aka_send_eap_failure s).2 = P s)
    (s : eap_session_t) :
    P (eap_aka_state_enter x s .EAP_AKA_SERVER_IDENTITY) = P s := by
  have hF : ∀ u, P (eap_aka_state_enter x u .EAP_AKA_SERVER_FAILURE) = P u := by
    intro u
    rw [state_enter_failure, hfa, hlog]
  have hN : ∀ u, P (eap_aka_state_enter x u .EAP_AKA_SERVER_FAILURE_NOTIFICATION) = P u := by
    intro u
    rw [state_enter_failure_notification]
    split_ifs
    · rw [hF, hfn, hlog]
    · rw [hfn, hlog]
  rw [state_enter_identity]
  split_ifs
  · rw [hN, hid, hlog]
  · rw [hid, hlog]

theorem enter_identity_keys (x : ext) (s : eap_session_t) :
    (eap_aka_state_enter x s .EAP_AKA_SERVER_IDENTITY).eap_aka_session.keys =
      s.eap_aka_session.keys :=
  enter_identity_frame (fun u => u.eap_aka_session.keys) x (fun _ _ => rfl)
    (fun u => by
      unfold eap_aka_send_identity_request
      simp only []
      split_ifs <;> simp [compose_session])
    (fun u => by
      unfold eap_aka_send_eap_failure_notification
      simp only []
      split_ifs <;> simp [compose_session])
    (fun _ => rfl) s

/-- C25, the claim at a failing input.  The response carries an
EAP-AKA-Identity attribute with the bytes `0 1 2`, but the checkcode digest
cannot be updated: `process_eap_aka_identity` returns `-1` and the identity
of the keys is still empty. -/
theorem identity_update_counterexample :
    (∃ id, fr_pair_find_by_child_num sample_identity_vps dict_aka_root
        fr_attr_num.FR_EAP_AKA_IDENTITY = some id ∧ id.vp_octets = [48, 49, 50]) ∧
    (process_eap_aka_identity sample_ext_digest_fails
      (sample_session .EAP_AKA_SERVER_IDENTITY [5]) sample_identity_vps).1 = -1 ∧
    (process_eap_aka_identity sample_ext_digest_fails
      (sample_session .EAP_AKA_SERVER_IDENTITY [5])
      sample_identity_vps).2.eap_aka_session.keys.identity = [] ∧
    (process_eap_aka_identity sample_ext_digest_fails
      (sample_session .EAP_AKA_SERVER_IDENTITY [5])
      sample_identity_vps).2.eap_aka_session.keys.identity_len = 0 := by
  rw [process_identity_digest_failure sample_ext_digest_fails _ _ (by decide)]
  exact ⟨⟨_, rfl, rfl⟩, rfl, rfl, rfl⟩

/-- C25, as amended.  Identity update in `process_eap_aka_identity`: when the
response is digested into the checkcode without error and the pairs contain
an EAP-AKA-Identity attribute, the keys get that attribute's bytes as
identity and its length as `identity_len`, nothing else of the keys changes,
and the classification of the identity plays no part; without such an
attribute the keys are unchanged.  At level Permanent this is the session
with which Challenge is then entered, at the other levels it is the session
the function leaves.  When the digest update fails the function returns `-1`
and the keys are unchanged. -/
theorem identity_update (x : ext) (s : eap_session_t) (vps : List VALUE_PAIR) :
    (¬ (x.fr_sim_crypto_update_checkcode s.eap_aka_session.checkcode_state
        s.this_round_response).1 < 0 →
      (∀ id, fr_pair_find_by_child_num vps dict_aka_root
          fr_attr_num.FR_EAP_AKA_IDENTITY = some id →
        (s.eap_aka_session.id_req ≠ .SIM_PERMANENT_ID_REQ →
          (process_eap_aka_identity x s vps).2.eap_aka_session.keys =
            { s.eap_aka_session.keys with
              identity_len := id.vp_octets.length, identity := id.vp_octets }) ∧
        (s.eap_aka_session.id_req = .SIM_PERMANENT_ID_REQ →
          ∃ u, process_eap_aka_identity x s vps =
              (0, eap_aka_state_enter x u .EAP_AKA_SERVER_CHALLENGE) ∧
            u.eap_aka_session.keys =
              { s.eap_aka_session.keys with
                identity_len := id.vp_octets.length, identity := id.vp_octets })) ∧
      (fr_pair_find_by_child_num vps dict_aka_root fr_attr_num.FR_EAP_AKA_IDENTITY = none →
        (s.eap_aka_session.id_req ≠ .SIM_PERMANENT_ID_REQ →
          (process_eap_aka_identity x s vps).2.eap_aka_session.keys = s.eap_aka_session.keys) ∧
        (s.eap_aka_session.id_req = .SIM_PERMANENT_ID_REQ →
          ∃ u, process_eap_aka_identity x s vps =
              (0, eap_aka_state_enter x u .EAP_AKA_SERVER_CHALLENGE) ∧
            u.eap_aka_session.keys = s.eap_aka_session.keys))) ∧
    ((x.fr_sim_crypto_update_checkcode s.eap_aka_session.checkcode_state
        s.this_round_response).1 < 0 →
      (process_eap_aka_identity x s vps).1 = -1 ∧
      (process_eap_aka_identity x s vps).2.eap_aka_session.keys = s.eap_aka_session.keys) := by
  refine ⟨fun hdig => ⟨fun id hid => ⟨fun hp => ?_, fun hp => ?_⟩,
    fun hnone => ⟨fun hp => ?_, fun hp => ?_⟩⟩, fun hdig => ?_⟩
  · unfold process_eap_aka_identity
    simp only [if_neg hdig, hid]
    cases hl : s.eap_aka_session.id_req
    · rfl
    · simp only []
      rw [enter_identity_keys]
      rfl
    · simp only []
      rw [enter_identity_keys]
      rfl
    · exact absurd hl hp
  · unfold process_eap_aka_identity
    simp only [if_neg hdig, hid, hp]
    exact ⟨_, rfl, rfl⟩
  · unfold process_eap_aka_identity
    simp only [if_neg hdig, hnone]
    cases hl : s.eap_aka_session.id_req
    · rfl
    · simp only []
      rw [enter_identity_keys]
    · simp only []
      rw [enter_identity_keys]
    · exact absurd hl hp
  · unfold process_eap_aka_identity
    simp only [if_neg hdig, hnone, hp]
    exact ⟨_, rfl, rfl⟩
  · rw [process_identity_digest_failure x s vps hdig]
    exact ⟨rfl, rfl⟩

/-- Witness of C25: with the digest working, the identity `0 1 2` of the
response becomes the identity of the keys. -/
theorem identity_update_witness :
    ¬ (sample_ext.fr_sim_crypto_update_checkcode
      (sample_session .EAP_AKA_SERVER_IDENTITY [5]).eap_aka_session.checkcode_state
      (sample_session .EAP_AKA_SERVER_IDENTITY [5]).this_round_response).1 < 0 ∧
    (process_eap_aka_identity sample_ext (sample_session .EAP_AKA_SERVER_IDENTITY [5])
      sample_identity_vps).2.eap_aka_session.keys.identity = [48, 49, 50] ∧
    (process_eap_aka_identity sample_ext (sample_session .EAP_AKA_SERVER_IDENTITY [5])
      sample_identity_vps).2.eap_aka_session.keys.identity_len = 3 := by
  have h := (((identity_update sample_ext (sample_session .EAP_AKA_SERVER_IDENTITY [5])
    sample_identity_vps).1 (by decide)).1 _ rfl).1 (by decide)
  rw [h]
  exact ⟨by decide, rfl, rfl⟩

/-! ## Contents of the identity request (C26) -/

/-- The identity request is the composition of
`eap_aka_identity_request_session`, followed by the digest of the request
into the checkcode; a failure frees the reply. -/
theorem send_identity_request_composes (x : ext) (s : eap_session_t) :
    (eap_aka_send_identity_request x s).2.this_round_request =
        (eap_aka_compose x (eap_aka_identity_request_session s)).2.this_round_request ∧
      ((eap_aka_compose x (eap_aka_identity_request_session s)).1 < 0 →
        eap_aka_send_identity_request x s =
          (-1, { (eap_aka_compose x (eap_aka_identity_request_session s)).2 with
            request_reply_vps := [] })) ∧
      ((eap_aka_send_identity_request x s).1 = 0 →
        (eap_aka_compose x (eap_aka_identity_request_session s)).1 = 0) := by
  have hc : ∀ u, (eap_aka_compose x u).1 = -1 ∨ (eap_aka_compose x u).1 = 0 := by
    intro u
    unfold eap_aka_compose
    simp only []
    split <;> simp
  have he : eap_aka_send_identity_request x s =
      (let c := eap_aka_compose x (eap_aka_identity_request_session s)
       if c.1 < 0 then (-1, { c.2 with request_reply_vps := [] })
       else
         let i : Int × Option EVP_MD_CTX := match c.2.eap_aka_session.checkcode_state with
           | none => x.fr_sim_crypto_init_checkcode c.2.eap_aka_session.checkcode_md
           | some st => (0, some st)
         let s3 := { c.2 with
           eap_aka_session := { c.2.eap_aka_session with checkcode_state := i.2 } }
         if i.1 < 0 then (-1, { s3 with request_reply_vps := [] })
         else
           let u := x.fr_sim_crypto_update_checkcode s3.eap_aka_session.checkcode_state
             s3.this_round_request
           let s4 := { s3 with
             eap_aka_session := { s3.eap_aka_session with checkcode_state := u.2 } }
           if u.1 < 0 then (-1, { s4 with request_reply_vps := [] })
           else (0, s4)) := rfl
  rw [he]
  simp only []
  refine ⟨?_, fun h => ?_, ?_⟩
  · split_ifs <;> rfl
  · rw [if_pos h]
  · rcases hc (eap_aka_identity_request_session s) with h | h
    · rw [h]
      simp
    · intro _
      exact h

/-- C26.  Identity request contents: `eap_aka_send_identity_request` composes
a session in which `allow_encrypted` is false and the reply is the reply it
was given followed by the subtype Identity and one identity request
attribute set to true: Any-ID-Req at level Any, FullAuth-ID-Req at level
FullAuth, Permanent-ID-Req at level Permanent. -/
theorem identity_request_contents (x : ext) (s : eap_session_t) :
    (eap_aka_send_identity_request x s).2.this_round_request =
      (eap_aka_compose x (eap_aka_identity_request_session s)).2.this_round_request ∧
    ((eap_aka_send_identity_request x s).1 = 0 →
      (eap_aka_compose x (eap_aka_identity_request_session s)).1 = 0) ∧
    (eap_aka_identity_request_session s).eap_aka_session.allow_encrypted = false ∧
    (eap_aka_identity_request_session s).this_round_request.code = FR_EAP_CODE_REQUEST ∧
    (s.eap_aka_session.id_req = .SIM_ANY_ID_REQ →
      (eap_aka_identity_request_session s).request_reply_vps =
        s.request_reply_vps ++
          [{ fr_pair_afrom_child_num dict_aka_root fr_attr_num.FR_EAP_AKA_SUBTYPE with
              vp_uint16 := EAP_AKA_IDENTITY },
           { fr_pair_afrom_child_num dict_aka_root fr_attr_num.FR_EAP_AKA_ANY_ID_REQ with
              vp_bool := true }]) ∧
    (s.eap_aka_session.id_req = .SIM_FULLAUTH_ID_REQ →
      (eap_aka_identity_request_session s).request_reply_vps =
        s.request_reply_vps ++
          [{ fr_pair_afrom_child_num dict_aka_root fr_attr_num.FR_EAP_AKA_SUBTYPE with
              vp_uint16 := EAP_AKA_IDENTITY },
           { fr_pair_afrom_child_num dict_aka_root fr_attr_num.FR_EAP_AKA_FULLAUTH_ID_REQ with
              vp_bool := true }]) ∧
    (s.eap_aka_session.id_req = .SIM_PERMANENT_ID_REQ →
      (eap_aka_identity_request_session s).request_reply_vps =
        s.request_reply_vps ++
          [{ fr_pair_afrom_child_num dict_aka_root fr_attr_num.FR_EAP_AKA_SUBTYPE with
              vp_uint16 := EAP_AKA_IDENTITY },
           { fr_pair_afrom_child_num dict_aka_root fr_attr_num.FR_EAP_AKA_PERMANENT_ID_REQ with
              vp_bool := true }]) := by
  obtain ⟨h1, _, h3⟩ := send_identity_request_composes x s
  refine ⟨h1, h3, rfl, rfl, fun h => ?_, fun h => ?_, fun h => ?_⟩ <;>
    simp [eap_aka_identity_request_session, h, fr_cursor_append,
      FR_EAP_AKA_SUBTYPE_VALUE_AKA_IDENTITY]

/-- Witness of C26: the sample session, at level Any, asks for any
identity. -/
theorem identity_request_contents_witness :
    (sample_session .EAP_AKA_SERVER_IDENTITY [5]).eap_aka_session.id_req = .SIM_ANY_ID_REQ ∧
    (eap_aka_identity_request_session
      (sample_session .EAP_AKA_SERVER_IDENTITY [5])).request_reply_vps =
      [{ fr_pair_afrom_child_num dict_aka_root fr_attr_num.FR_EAP_AKA_SUBTYPE with
          vp_uint16 := 5 },
       { fr_pair_afrom_child_num dict_aka_root fr_attr_num.FR_EAP_AKA_ANY_ID_REQ with
          vp_bool := true }] :=
  ⟨rfl, (identity_request_contents sample_ext
    (sample_session .EAP_AKA_SERVER_IDENTITY [5])).2.2.2.2.1 rfl⟩

/-! ## Contents of the challenge (C27) -/

theorem send_challenge_ok_reaches (x : ext) (s : eap_session_t)
    (h : (eap_aka_send_challenge x s).1 = 0) : challenge_reaches_compose x s = true := by
  revert h
  unfold eap_aka_send_challenge challenge_reaches_compose
  simp only []
  split_ifs <;> (try split) <;> (try split_ifs) <;> simp_all [rlm_rcode_t.toInt]

/-- When the challenge gets as far as the composition, it is the composition
of `eap_aka_challenge_session`; a failed composition frees the reply. -/
theorem send_challenge_composes (x : ext) (s : eap_session_t)
    (h : challenge_reaches_compose x s = true) :
    eap_aka_send_challenge x s =
      if (eap_aka_compose x (eap_aka_challenge_session x s)).1 < 0 then
        (-1, { (eap_aka_compose x (eap_aka_challenge_session x s)).2 with
          request_reply_vps := [] })
      else (0, (eap_aka_compose x (eap_aka_challenge_session x s)).2) := by
  unfold challenge_reaches_compose at h
  simp only [Bool.and_eq_true, Bool.not_eq_true', decide_eq_false_iff_not] at h
  obtain ⟨⟨hv, hn⟩, hf⟩ := h
  unfold eap_aka_send_challenge eap_aka_challenge_session
  simp only [if_neg hv, if_neg hn]
  cases hcs : s.eap_aka_session.checkcode_state with
  | none => rfl
  | some st =>
    rw [hcs] at hf
    simp only [Bool.not_eq_true', decide_eq_false_iff_not] at hf
    simp only [if_neg hf]

theorem find_replace (l : List VALUE_PAIR) (r : VALUE_PAIR) (parent : fr_dict_attr_t)
    (attr : fr_attr_num) :
    fr_pair_find_by_child_num (fr_pair_replace l r) parent attr =
      if r.da = fr_dict_attr_child_by_num parent attr then some r
      else fr_pair_find_by_child_num l parent attr := by
  unfold fr_pair_find_by_child_num
  by_cases h : r.da = fr_dict_attr_child_by_num parent attr
  · rw [if_pos h, ← h]
    exact find_replace_self l r
  · rw [if_neg h]
    exact find_replace_other l r _ h

/-- What a lookup finds in the attributes of the challenge. -/
theorem challenge_attrs_find (x : ext) (a : eap_aka_session_t) (reply : List VALUE_PAIR) :
    fr_pair_find_by_child_num (eap_aka_challenge_attrs x a reply) dict_aka_root
        fr_attr_num.FR_EAP_AKA_SUBTYPE =
      some { fr_pair_afrom_child_num dict_aka_root fr_attr_num.FR_EAP_AKA_SUBTYPE with
        vp_uint16 := EAP_AKA_CHALLENGE } ∧
    fr_pair_find_by_child_num (eap_aka_challenge_attrs x a reply) dict_aka_root
        fr_attr_num.FR_EAP_AKA_RAND =
      some { fr_pair_afrom_child_num dict_aka_root fr_attr_num.FR_EAP_AKA_RAND with
        vp_octets := a.keys.vector.rand.take 16 } ∧
    fr_pair_find_by_child_num (eap_aka_challenge_attrs x a reply) dict_aka_root
        fr_attr_num.FR_EAP_AKA_AUTN =
      some { fr_pair_afrom_child_num dict_aka_root fr_attr_num.FR_EAP_AKA_AUTN with
        vp_octets := a.keys.vector.autn.take 16 } ∧
    fr_pair_find_by_child_num (eap_aka_challenge_attrs x a reply) dict_aka_root
        fr_attr_num.FR_EAP_AKA_MAC =
      some { fr_pair_afrom_child_num dict_aka_root fr_attr_num.FR_EAP_AKA_MAC with
        vp_octets := List.replicate 16 0 } ∧
    fr_pair_find_by_child_num (eap_aka_challenge_attrs x a reply) dict_aka_root
        fr_attr_num.FR_EAP_AKA_RESULT_IND =
      (if a.send_result_ind = true then
        some { fr_pair_afrom_child_num dict_aka_root fr_attr_num.FR_EAP_AKA_RESULT_IND with
          vp_bool := true }
      else fr_pair_find_by_child_num reply dict_aka_root fr_attr_num.FR_EAP_AKA_RESULT_IND) ∧
    fr_pair_find_by_child_num (eap_aka_challenge_attrs x a reply) dict_aka_root
        fr_attr_num.FR_EAP_AKA_BIDDING =
      (if a.send_at_bidding = true then
        some { fr_pair_afrom_child_num dict_aka_root fr_attr_num.FR_EAP_AKA_BIDDING with
          vp_uint16 := x.FR_EAP_AKA_BIDDING_VALUE_PREFER_AKA_PRIME }
      else fr_pair_find_by_child_num reply dict_aka_root fr_attr_num.FR_EAP_AKA_BIDDING) ∧
    fr_pair_find_by_child_num (eap_aka_challenge_attrs x a reply) dict_aka_root
        fr_attr_num.FR_EAP_AKA_KDF_INPUT =
      (if a.type = FR_EAP_AKA_PRIME then
        some { fr_pair_afrom_child_num dict_aka_root fr_attr_num.FR_EAP_AKA_KDF_INPUT with
          vp_octets := a.keys.network.take a.keys.network_len }
      else fr_pair_find_by_child_num reply dict_aka_root fr_attr_num.FR_EAP_AKA_KDF_INPUT) ∧
    fr_pair_find_by_child_num (eap_aka_challenge_attrs x a reply) dict_aka_root
        fr_attr_num.FR_EAP_AKA_KDF =
      (if a.type = FR_EAP_AKA_PRIME then
        some { fr_pair_afrom_child_num dict_aka_root fr_attr_num.FR_EAP_AKA_KDF with
          vp_uint16 := a.kdf }
      else fr_pair_find_by_child_num reply dict_aka_root fr_attr_num.FR_EAP_AKA_KDF) := by
  unfold eap_aka_challenge_attrs
  by_cases h3 : a.type = FR_EAP_AKA_PRIME <;> cases h1 : a.send_result_ind <;>
    cases h2 : a.send_at_bidding <;>
    simp [find_replace, fr_pair_afrom_child_num, fr_dict_attr_child_by_num, h3,
      FR_EAP_AKA_SUBTYPE_VALUE_AKA_CHALLENGE, SIM_VECTOR_UMTS_RAND_SIZE,
      SIM_VECTOR_UMTS_AUTN_SIZE]

/-- The module data and the reply of `eap_aka_challenge_session` in terms of
the session with the derived keys. -/
theorem challenge_session_reply (x : ext) (s : eap_session_t) :
    ∃ a : eap_aka_session_t,
      a.type = s.eap_aka_session.type ∧ a.kdf = s.eap_aka_session.kdf ∧
      a.send_result_ind = s.eap_aka_session.send_result_ind ∧
      a.send_at_bidding = s.eap_aka_session.send_at_bidding ∧
      a.keys = (eap_aka_challenge_session x s).eap_aka_session.keys ∧
      (s.eap_aka_session.checkcode_state = none →
        (eap_aka_challenge_session x s).request_reply_vps =
          fr_pair_replace (eap_aka_challenge_attrs x a s.request_reply_vps)
            (fr_pair_afrom_child_num dict_aka_root fr_attr_num.FR_EAP_AKA_CHECKCODE) ∧
        (eap_aka_challenge_session x s).eap_aka_session.checkcode_len = 0 ∧
        (eap_aka_challenge_session x s).eap_aka_session.checkcode =
          s.eap_aka_session.checkcode) ∧
      (∀ st, s.eap_aka_session.checkcode_state = some st →
        (eap_aka_challenge_session x s).request_reply_vps =
          fr_pair_replace (eap_aka_challenge_attrs x a s.request_reply_vps)
            { fr_pair_afrom_child_num dict_aka_root fr_attr_num.FR_EAP_AKA_CHECKCODE with
              vp_octets := (eap_aka_challenge_session x s).eap_aka_session.checkcode.take
                (eap_aka_challenge_session x s).eap_aka_session.checkcode_len } ∧
        (eap_aka_challenge_session x s).eap_aka_session.checkcode =
          (x.fr_sim_crypto_finalise_checkcode s.eap_aka_session.checkcode (some st)).2.1 ∧
        (eap_aka_challenge_session x s).eap_aka_session.checkcode_len =
          (x.fr_sim_crypto_finalise_checkcode s.eap_aka_session.checkcode (some st)).1.toNat) := by
  refine ⟨{ s.eap_aka_session with
    keys := if s.eap_aka_session.kdf =
        FR_EAP_AKA_KDF_VALUE_EAP_AKA_PRIME_WITH_CK_PRIME_IK_PRIME then
      x.fr_sim_crypto_kdf_1_umts (eap_aka_challenge_vector x s).2
    else x.fr_sim_crypto_kdf_0_umts (eap_aka_challenge_vector x s).2 },
    rfl, rfl, rfl, rfl, ?_, fun hn => ?_, fun st hs => ?_⟩
  · unfold eap_aka_challenge_session eap_aka_challenge_vector
    cases s.eap_aka_session.checkcode_state <;> rfl
  · unfold eap_aka_challenge_session eap_aka_challenge_vector
    simp only [hn]
    refine ⟨?_, ?_, ?_⟩ <;> first | rfl | trivial
  · unfold eap_aka_challenge_session eap_aka_challenge_vector
    simp only [hs]
    refine ⟨?_, ?_, ?_⟩ <;> first | rfl | trivial

/-- C27.  Challenge contents: a challenge that `eap_aka_send_challenge` built
successfully is the composition of `eap_aka_challenge_session`, whose reply
holds the subtype Challenge, RAND and AUTN of the vector of the session, a
MAC of 16 zero bytes and a checkcode.  Result-Ind set to true is there when
`send_result_ind` is set, Bidding when `send_at_bidding` is set, KDF-Input
with the network name and KDF with the KDF of the session when the variant
is AKA'; otherwise the composer adds none of them, a lookup finds what the
reply held before.  The checkcode pair carries the finalised digest when a
digest was running, and is empty with `checkcode_len` 0 when there was
none.  A session created by `mod_session_init` has `send_at_bidding` set
exactly when its variant is AKA. -/
theorem challenge_contents (x : ext) (s : eap_session_t)
    (h : (eap_aka_send_challenge x s).1 = 0) :
    eap_aka_send_challenge x s =
      (0, (eap_aka_compose x (eap_aka_challenge_session x s)).2) ∧
    (eap_aka_send_challenge x s).2.eap_aka_session.keys =
      (eap_aka_challenge_session x s).eap_aka_session.keys ∧
    fr_pair_find_by_child_num (eap_aka_challenge_session x s).request_reply_vps dict_aka_root
        fr_attr_num.FR_EAP_AKA_SUBTYPE =
      some { fr_pair_afrom_child_num dict_aka_root fr_attr_num.FR_EAP_AKA_SUBTYPE with
        vp_uint16 := EAP_AKA_CHALLENGE } ∧
    fr_pair_find_by_child_num (eap_aka_challenge_session x s).request_reply_vps dict_aka_root
        fr_attr_num.FR_EAP_AKA_RAND =
      some { fr_pair_afrom_child_num dict_aka_root fr_attr_num.FR_EAP_AKA_RAND with
        vp_octets :=
          (eap_aka_challenge_session x s).eap_aka_session.keys.vector.rand.take 16 } ∧
    fr_pair_find_by_child_num (eap_aka_challenge_session x s).request_reply_vps dict_aka_root
        fr_attr_num.FR_EAP_AKA_AUTN =
      some { fr_pair_afrom_child_num dict_aka_root fr_attr_num.FR_EAP_AKA_AUTN with
        vp_octets :=
          (eap_aka_challenge_session x s).eap_aka_session.keys.vector.autn.take 16 } ∧
    fr_pair_find_by_child_num (eap_aka_challenge_session x s).request_reply_vps dict_aka_root
        fr_attr_num.FR_EAP_AKA_MAC =
      some { fr_pair_afrom_child_num dict_aka_root fr_attr_num.FR_EAP_AKA_MAC with
        vp_octets := List.replicate 16 0 } ∧
    fr_pair_find_by_child_num (eap_aka_challenge_session x s).request_reply_vps dict_aka_root
        fr_attr_num.FR_EAP_AKA_RESULT_IND =
      (if s.eap_aka_session.send_result_ind = true then
        some { fr_pair_afrom_child_num dict_aka_root fr_attr_num.FR_EAP_AKA_RESULT_IND with
          vp_bool := true }
      else fr_pair_find_by_child_num s.request_reply_vps dict_aka_root
        fr_attr_num.FR_EAP_AKA_RESULT_IND) ∧
    fr_pair_find_by_child_num (eap_aka_challenge_session x s).request_reply_vps dict_aka_root
        fr_attr_num.FR_EAP_AKA_BIDDING =
      (if s.eap_aka_session.send_at_bidding = true then
        some { fr_pair_afrom_child_num dict_aka_root fr_attr_num.FR_EAP_AKA_BIDDING with
          vp_uint16 := x.FR_EAP_AKA_BIDDING_VALUE_PREFER_AKA_PRIME }
      else fr_pair_find_by_child_num s.request_reply_vps dict_aka_root
        fr_attr_num.FR_EAP_AKA_BIDDING) ∧
    fr_pair_find_by_child_num (eap_aka_challenge_session x s).request_reply_vps dict_aka_root
        fr_attr_num.FR_EAP_AKA_KDF_INPUT =
      (if s.eap_aka_session.type = FR_EAP_AKA_PRIME then
        some { fr_pair_afrom_child_num dict_aka_root fr_attr_num.FR_EAP_AKA_KDF_INPUT with
          vp_octets := (eap_aka_challenge_session x s).eap_aka_session.keys.network.take
            (eap_aka_challenge_session x s).eap_aka_session.keys.network_len }
      else fr_pair_find_by_child_num s.request_reply_vps dict_aka_root
        fr_attr_num.FR_EAP_AKA_KDF_INPUT) ∧
    fr_pair_find_by_child_num (eap_aka_challenge_session x s).request_reply_vps dict_aka_root
        fr_attr_num.FR_EAP_AKA_KDF =
      (if s.eap_aka_session.type = FR_EAP_AKA_PRIME then
        some { fr_pair_afrom_child_num dict_aka_root fr_attr_num.FR_EAP_AKA_KDF with
          vp_uint16 := s.eap_aka_session.kdf }
      else fr_pair_find_by_child_num s.request_reply_vps dict_aka_root
        fr_attr_num.FR_EAP_AKA_KDF) ∧
    (s.eap_aka_session.checkcode_state = none →
      fr_pair_find_by_child_num (eap_aka_challenge_session x s).request_reply_vps dict_aka_root
          fr_attr_num.FR_EAP_AKA_CHECKCODE =
        some { fr_pair_afrom_child_num dict_aka_root fr_attr_num.FR_EAP_AKA_CHECKCODE with
          vp_octets := [] } ∧
      (eap_aka_challenge_session x s).eap_aka_session.checkcode_len = 0 ∧
      (eap_aka_send_challenge x s).2.eap_aka_session.checkcode_len = 0) ∧
    (∀ st, s.eap_aka_session.checkcode_state = some st →
      fr_pair_find_by_child_num (eap_aka_challenge_session x s).request_reply_vps dict_aka_root
          fr_attr_num.FR_EAP_AKA_CHECKCODE =
        some { fr_pair_afrom_child_num dict_aka_root fr_attr_num.FR_EAP_AKA_CHECKCODE with
          vp_octets :=
            (x.fr_sim_crypto_finalise_checkcode s.eap_aka_session.checkcode (some st)).2.1.take
              (x.fr_sim_crypto_finalise_checkcode s.eap_aka_session.checkcode
                (some st)).1.toNat } ∧
      (eap_aka_send_challenge x s).2.eap_aka_session.checkcode =
        (x.fr_sim_crypto_finalise_checkcode s.eap_aka_session.checkcode (some st)).2.1 ∧
      (eap_aka_send_challenge x s).2.eap_aka_session.checkcode_len =
        (x.fr_sim_crypto_finalise_checkcode s.eap_aka_session.checkcode (some st)).1.toNat) ∧
    (∀ (inst : rlm_eap_aka_t) (s1 : eap_session_t), ∃ s0 t,
      mod_session_init x inst s1 = (.RLM_MODULE_OK, eap_aka_state_enter x s0 t) ∧
      (s0.eap_aka_session.send_at_bidding = true ↔ s0.eap_aka_session.type = FR_EAP_AKA)) := by
  have he := send_challenge_composes x s (send_challenge_ok_reaches x s h)
  have hc : ¬ (eap_aka_compose x (eap_aka_challenge_session x s)).1 < 0 := by
    intro hneg
    rw [he, if_pos hneg] at h
    simp at h
  have hsend : eap_aka_send_challenge x s =
      (0, (eap_aka_compose x (eap_aka_challenge_session x s)).2) := by
    rw [he, if_neg hc]
  obtain ⟨a, ha1, ha2, ha3, ha4, ha5, hnone, hsome⟩ := challenge_session_reply x s
  obtain ⟨f1, f2, f3, f4, f5, f6, f7, f8⟩ := challenge_attrs_find x a s.request_reply_vps
  have hL : ∀ attr, attr ≠ fr_attr_num.FR_EAP_AKA_CHECKCODE →
      fr_pair_find_by_child_num (eap_aka_challenge_session x s).request_reply_vps dict_aka_root
          attr =
        fr_pair_find_by_child_num (eap_aka_challenge_attrs x a s.request_reply_vps)
          dict_aka_root attr := by
    intro attr hattr
    cases hcs : s.eap_aka_session.checkcode_state with
    | none =>
      rw [(hnone hcs).1, find_replace, if_neg]
      simp [fr_pair_afrom_child_num, fr_dict_attr_child_by_num, Ne.symm hattr]
    | some st =>
      rw [(hsome st hcs).1, find_replace, if_neg]
      simp [fr_pair_afrom_child_num, fr_dict_attr_child_by_num, Ne.symm hattr]
  have hkeep : (eap_aka_send_challenge x s).2.eap_aka_session =
      { (eap_aka_challenge_session x s).eap_aka_session with
        aka_id := (eap_aka_challenge_session x s).eap_aka_session.aka_id + 1 } := by
    rw [hsend]
    exact compose_session x _
  refine ⟨hsend, by rw [hkeep], ?_, ?_, ?_, ?_, ?_, ?_, ?_, ?_, fun hn => ?_, fun st hs => ?_,
    fun inst s1 => ?_⟩
  · rw [hL _ (by decide), f1]
  · rw [hL _ (by decide), f2, ha5]
  · rw [hL _ (by decide), f3, ha5]
  · rw [hL _ (by decide), f4]
  · rw [hL _ (by decide), f5, ha3]
  · rw [hL _ (by decide), f6, ha4]
  · rw [hL _ (by decide), f7, ha1, ha5]
  · rw [hL _ (by decide), f8, ha1, ha2]
  · refine ⟨?_, (hnone hn).2.1, by rw [hkeep]; exact (hnone hn).2.1⟩
    rw [(hnone hn).1, find_replace]
    simp [fr_pair_afrom_child_num, fr_dict_attr_child_by_num]
  · obtain ⟨h1, h2, h3⟩ := hsome st hs
    refine ⟨?_, by rw [hkeep]; exact h2, by rw [hkeep]; exact h3⟩
    rw [h1, find_replace]
    simp [fr_pair_afrom_child_num, fr_dict_attr_child_by_num, h2, h3]
  · obtain ⟨s0, t, h0, _, _, hl, hp, _⟩ := session_init_shape x inst s1
    refine ⟨s0, t, h0, ?_⟩
    by_cases ht : s1.type = FR_EAP_AKA
    · obtain ⟨h1, _, _, _, h5⟩ := hl ht
      rw [h1, h5]
      simp
    · obtain ⟨h1, _, _, _, h5, _⟩ := hp ht
      rw [h1, h5]
      simp [FR_EAP_AKA, FR_EAP_AKA_PRIME]

/-- Witness of C27: the challenge of the sample session, an AKA' session
without a running digest, carries the KDF and an empty checkcode. -/
theorem challenge_contents_witness :
    (eap_aka_send_challenge sample_ext sample_challenge_session).1 = 0 ∧
    fr_pair_find_by_child_num
        (eap_aka_challenge_session sample_ext sample_challenge_session).request_reply_vps
        dict_aka_root fr_attr_num.FR_EAP_AKA_SUBTYPE =
      some { fr_pair_afrom_child_num dict_aka_root fr_attr_num.FR_EAP_AKA_SUBTYPE with
        vp_uint16 := 1 } ∧
    (eap_aka_send_challenge sample_ext sample_challenge_session).2.eap_aka_session.checkcode_len =
      0 :=
  have h := challenge_contents sample_ext sample_challenge_session (by decide)
  ⟨by decide, h.2.2.1, (h.2.2.2.2.2.2.2.2.2.2.1 rfl).2.2⟩

/-! ## The result of `mod_process` (C35) -/

/-- A call of `mod_process` returns HANDLED, or it returns REJECT and ends
with the entry into Failure. -/
theorem mod_process_result (x : ext) (s : eap_session_t) :
    (mod_process x s).1 = .RLM_MODULE_HANDLED ∨
      ((mod_process x s).1 = .RLM_MODULE_REJECT ∧
        ∃ u, (mod_process x s).2 = eap_aka_state_enter x u .EAP_AKA_SERVER_FAILURE) := by
  unfold mod_process
  by_cases h1 : s.eap_aka_session.state = .EAP_AKA_SERVER_SUCCESS_NOTIFICATION
  · left; rw [if_pos h1]
  rw [if_neg h1]
  simp only []
  by_cases h2 : (x.fr_sim_decode s.this_round_response.type_data s.eap_aka_session.keys).1 < 0
  · left; rw [if_pos h2]
  rw [if_neg h2]
  rcases fr_pair_find_by_child_num (mod_process_vps x s) dict_aka_root
      fr_attr_num.FR_EAP_AKA_SUBTYPE with _ | sv
  · left; rfl
  simp only []
  have hst : (mod_process_decoded x s).eap_aka_session.state = s.eap_aka_session.state := rfl
  rw [hst]
  cases hs : s.eap_aka_session.state with
  | EAP_AKA_SERVER_CHALLENGE =>
    simp only [mod_process_notification_rejects, mod_process_unexpected_subtype]
    split_ifs
    all_goals first
      | (left; rfl)
      | (right; exact ⟨rfl, _, rfl⟩)
  | EAP_AKA_SERVER_IDENTITY =>
    simp only [mod_process_notification_rejects, mod_process_unexpected_subtype]
    split_ifs
    all_goals first
      | (left; rfl)
      | (right; exact ⟨rfl, _, rfl⟩)
  | EAP_AKA_SERVER_FAILURE_NOTIFICATION =>
    simp only [mod_process_unexpected_subtype]
    split_ifs
    all_goals first
      | (left; rfl)
      | (right; exact ⟨rfl, _, rfl⟩)
  | _ => left; rfl

/-- C35.  A REJECT result always means a finished failure: `mod_process`
returns HANDLED or REJECT and nothing else, and when it returns REJECT the
session is in state Failure, the code of the request is Failure and
`finished` is true. -/
theorem reject_means_failure (x : ext) (s : eap_session_t) :
    ((mod_process x s).1 = .RLM_MODULE_HANDLED ∨ (mod_process x s).1 = .RLM_MODULE_REJECT) ∧
    ((mod_process x s).1 = .RLM_MODULE_REJECT →
      (mod_process x s).2.eap_aka_session.state = .EAP_AKA_SERVER_FAILURE ∧
      (mod_process x s).2.this_round_request.code = FR_EAP_CODE_FAILURE ∧
      (mod_process x s).2.finished = true) := by
  rcases mod_process_result x s with h | ⟨h, u, hu⟩
  · refine ⟨Or.inl h, fun hr => ?_⟩
    rw [h] at hr
    exact absurd hr (by decide)
  · refine ⟨Or.inr h, fun _ => ?_⟩
    have hk := enter_failure_spec x u
    simp only [core, Prod.mk.injEq] at hk
    rw [hu]
    exact ⟨hk.1.2.1, hk.2.1, hk.1.2.2.2⟩

/-- Witness of C35: AuthenticationReject received in state Challenge is
answered with REJECT and a finished failure. -/
theorem reject_means_failure_witness :
    (mod_process sample_ext (sample_session .EAP_AKA_SERVER_CHALLENGE [2])).1 =
      .RLM_MODULE_REJECT ∧
    (mod_process sample_ext
      (sample_session .EAP_AKA_SERVER_CHALLENGE [2])).2.eap_aka_session.state =
      .EAP_AKA_SERVER_FAILURE ∧
    (mod_process sample_ext (sample_session .EAP_AKA_SERVER_CHALLENGE [2])).2.finished = true :=
  have h := (reject_means_failure sample_ext
    (sample_session .EAP_AKA_SERVER_CHALLENGE [2])).2 (by decide)
  ⟨by decide, h.1, h.2.2⟩

/-! ## Result indication of the peer (C36) -/

/-- C36.  After a valid challenge response the state entered depends on the
response only: whatever the value `b` of `send_result_ind` of the session,
false included, a response with Result-Ind makes
`process_eap_aka_challenge` enter SuccessNotification, and a response without
it makes it enter Success. -/
theorem result_ind_decides (x : ext) (s : eap_session_t) (vps : List VALUE_PAIR) (b : Bool)
    (hmac : mac_valid x s vps) (hcc : checkcode_valid s vps) (hres : res_valid s vps) :
    (∀ ind,
      fr_pair_find_by_child_num vps dict_aka_root fr_attr_num.FR_EAP_AKA_RESULT_IND = some ind →
      process_eap_aka_challenge x
          { s with eap_aka_session := { s.eap_aka_session with send_result_ind := b } } vps =
        (0, eap_aka_state_enter x
          { s with eap_aka_session := { s.eap_aka_session with
              send_result_ind := b, challenge_success := true } }
          .EAP_AKA_SERVER_SUCCESS_NOTIFICATION) ∧
      ∃ rest, (process_eap_aka_challenge x
          { s with eap_aka_session := { s.eap_aka_session with send_result_ind := b } }
          vps).2.entered = s.entered ++ .EAP_AKA_SERVER_SUCCESS_NOTIFICATION :: rest) ∧
    (fr_pair_find_by_child_num vps dict_aka_root fr_attr_num.FR_EAP_AKA_RESULT_IND = none →
      process_eap_aka_challenge x
          { s with eap_aka_session := { s.eap_aka_session with send_result_ind := b } } vps =
        (0, eap_aka_state_enter x
          { s with eap_aka_session := { s.eap_aka_session with
              send_result_ind := b, challenge_success := true } }
          .EAP_AKA_SERVER_SUCCESS)) := by
  have hr : process_eap_aka_challenge x
      { s with eap_aka_session := { s.eap_aka_session with send_result_ind := b } } vps =
      (0, eap_aka_state_enter x
        { s with eap_aka_session := { s.eap_aka_session with
            send_result_ind := b, challenge_success := true } }
        (challenge_next_state vps)) := by
    rcases challenge_result x
      { s with eap_aka_session := { s.eap_aka_session with send_result_ind := b } } vps with
      ⟨_, h⟩ | ⟨hn, _⟩
    · exact h
    · exact absurd ⟨hmac, hcc, hres⟩ hn
  refine ⟨fun ind hi => ?_, fun hn => ?_⟩
  · have hns : challenge_next_state vps = .EAP_AKA_SERVER_SUCCESS_NOTIFICATION := by
      simp [challenge_next_state, hi]
    rw [hr, hns]
    refine ⟨rfl, ?_⟩
    obtain ⟨_, rest, h2, _⟩ := enter_spec x
      { s with eap_aka_session := { s.eap_aka_session with
          send_result_ind := b, challenge_success := true } }
      .EAP_AKA_SERVER_SUCCESS_NOTIFICATION
    exact ⟨rest, h2⟩
  · have hns : challenge_next_state vps = .EAP_AKA_SERVER_SUCCESS := by
      simp [challenge_next_state, hn]
    rw [hr, hns]

/-- Witness of C36: the sample session has `send_result_ind` false; a valid
response with Result-Ind makes it enter SuccessNotification. -/
theorem result_ind_decides_witness :
    (sample_session .EAP_AKA_SERVER_CHALLENGE [1]).eap_aka_session.send_result_ind = false ∧
    ∃ rest, (process_eap_aka_challenge sample_ext
        { sample_session .EAP_AKA_SERVER_CHALLENGE [1] with
          eap_aka_session := { (sample_session .EAP_AKA_SERVER_CHALLENGE [1]).eap_aka_session with
            send_result_ind := false } }
        sample_result_ind_vps).2.entered =
      (sample_session .EAP_AKA_SERVER_CHALLENGE [1]).entered ++
        .EAP_AKA_SERVER_SUCCESS_NOTIFICATION :: rest :=
  have hmac : mac_valid sample_ext (sample_session .EAP_AKA_SERVER_CHALLENGE [1])
      sample_result_ind_vps := ⟨_, rfl, rfl, by decide, rfl⟩
  have hcc : checkcode_valid (sample_session .EAP_AKA_SERVER_CHALLENGE [1])
      sample_result_ind_vps :=
    fun cc h => by
      have h' : some _ = some cc := h
      cases h'
      exact ⟨rfl, rfl⟩
  have hres : res_valid (sample_session .EAP_AKA_SERVER_CHALLENGE [1])
      sample_result_ind_vps := ⟨_, rfl, rfl, rfl⟩
  ⟨rfl, ((result_ind_decides sample_ext (sample_session .EAP_AKA_SERVER_CHALLENGE [1])
    sample_result_ind_vps false hmac hcc hres).1 _ rfl).2⟩

/-! ## The level None is not met in state Identity (C31) -/

/-- A projection of the session kept by the log entry and the two failure
composers is kept by entering FailureNotification and by entering Failure. -/
theorem enter_fallback_frame {α : Type} (P : eap_session_t → α) (x : ext)
    (hlog : ∀ s t, P (state_log s t) = P s)
    (hfn : ∀ s, P (eap_aka_send_eap_failure_notification x s).2 = P s)
    (hfa : ∀ s, P (eap_aka_send_eap_failure s).2 = P s)
    (s : eap_session_t) :
    P (eap_aka_state_enter x s .EAP_AKA_SERVER_FAILURE_NOTIFICATION) = P s ∧
      P (eap_aka_state_enter x s .EAP_AKA_SERVER_FAILURE) = P s := by
  have hF : ∀ u, P (eap_aka_state_enter x u .EAP_AKA_SERVER_FAILURE) = P u := by
    intro u
    rw [state_enter_failure, hfa, hlog]
  refine ⟨?_, hF s⟩
  rw [state_enter_failure_notification]
  split_ifs
  · rw [hF, hfn, hlog]
  · rw [hfn, hlog]

/-- A projection of the session kept by the log entry, the challenge and the
two failure composers is kept by entering Challenge. -/
theorem enter_challenge_frame {α : Type} (P : eap_session_t → α) (x : ext)
    (hlog : ∀ s t, P (state_log s t) = P s)
    (hch : ∀ s, P (eap_aka_send_challenge x s).2 = P s)
    (hfn : ∀ s, P (eap_aka_send_eap_failure_notification x s).2 = P s)
    (hfa : ∀ s, P (eap_aka_send_eap_failure s).2 = P s)
    (s : eap_session_t) :
    P (eap_aka_state_enter x s .EAP_AKA_SERVER_CHALLENGE) = P s := by
  rw [state_enter_challenge]
  split_ifs
  · rw [(enter_fallback_frame P x hlog hfn hfa _).1, hch, hlog]
  · rw [hch, hlog]

theorem send_failure_notification_assert (x : ext) (s : eap_session_t) :
    (eap_aka_send_eap_failure_notification x s).2.assert_failed = s.assert_failed := by
  unfold eap_aka_send_eap_failure_notification
  simp only []
  split_ifs <;> simp [compose_assert_failed]

theorem send_challenge_assert (x : ext) (s : eap_session_t) :
    (eap_aka_send_challenge x s).2.assert_failed = s.assert_failed := by
  unfold eap_aka_send_challenge
  simp only []
  split_ifs <;> (try split) <;> (try split_ifs) <;> simp [compose_assert_failed]

/-- The assertion of the identity request: its default case is taken exactly
at level None. -/
theorem send_identity_request_assert (x : ext) (s : eap_session_t) :
    (eap_aka_send_identity_request x s).2.assert_failed =
      (s.assert_failed || decide (s.eap_aka_session.id_req = .SIM_NO_ID_REQ)) := by
  unfold eap_aka_send_identity_request
  simp only []
  split_ifs <;> simp [compose_assert_failed]

theorem enter_fallback_assert (x : ext) (s : eap_session_t) :
    (eap_aka_state_enter x s .EAP_AKA_SERVER_FAILURE_NOTIFICATION).assert_failed =
        s.assert_failed ∧
      (eap_aka_state_enter x s .EAP_AKA_SERVER_FAILURE).assert_failed = s.assert_failed :=
  enter_fallback_frame (fun u => u.assert_failed) x (fun _ _ => rfl)
    (send_failure_notification_assert x) (fun _ => rfl) s

theorem enter_challenge_assert (x : ext) (s : eap_session_t) :
    (eap_aka_state_enter x s .EAP_AKA_SERVER_CHALLENGE).assert_failed = s.assert_failed :=
  enter_challenge_frame (fun u => u.assert_failed) x (fun _ _ => rfl)
    (send_challenge_assert x) (send_failure_notification_assert x) (fun _ => rfl) s

theorem enter_identity_assert (x : ext) (s : eap_session_t)
    (h : s.eap_aka_session.id_req ≠ .SIM_NO_ID_REQ) :
    (eap_aka_state_enter x s .EAP_AKA_SERVER_IDENTITY).assert_failed = s.assert_failed := by
  have hf := enter_identity_frame
    (fun u => (u.eap_aka_session.id_req,
      decide (u.eap_aka_session.id_req = .SIM_NO_ID_REQ) || u.assert_failed)) x
    (fun _ _ => rfl)
    (fun u => by
      have h1 := send_identity_request_config x u
      simp only [config, Prod.mk.injEq] at h1
      simp only [h1.1, send_identity_request_assert]
      cases u.assert_failed <;> cases decide (u.eap_aka_session.id_req = .SIM_NO_ID_REQ) <;> rfl)
    (fun u => by
      have h1 := send_failure_notification_config x u
      simp only [config, Prod.mk.injEq] at h1
      simp only [h1.1, send_failure_notification_assert])
    (fun _ => rfl) s
  simp only [Prod.mk.injEq] at hf
  have h2 := hf.2
  rw [hf.1] at h2
  simpa [h] using h2

/-- At a level other than None, `process_eap_aka_identity` meets neither its
own assertion nor the one of the identity request it composes. -/
theorem process_identity_assert (x : ext) (s : eap_session_t) (vps : List VALUE_PAIR)
    (h : s.eap_aka_session.id_req ≠ .SIM_NO_ID_REQ) :
    (process_eap_aka_identity x s vps).2.assert_failed = s.assert_failed := by
  unfold process_eap_aka_identity
  simp only []
  split_ifs
  · rfl
  · cases hl : s.eap_aka_session.id_req
    · exact absurd hl h
    · simp only []
      rw [enter_identity_assert x _ (by simp)]
    · simp only []
      rw [enter_identity_assert x _ (by simp)]
    · simp only []
      rw [enter_challenge_assert]

/-- A call of `mod_process` in state Identity: the response is handled as an
Identity response, or FailureNotification or Failure is entered. -/
theorem mod_process_identity_state (x : ext) (s : eap_session_t)
    (hs : s.eap_aka_session.state = .EAP_AKA_SERVER_IDENTITY) :
    (mod_process x s).2 =
        eap_aka_state_enter x (mod_process_decoded x s) .EAP_AKA_SERVER_FAILURE_NOTIFICATION ∨
      (mod_process x s).2 =
        eap_aka_state_enter x (mod_process_decoded x s) .EAP_AKA_SERVER_FAILURE ∨
      mod_process x s =
        (if (process_eap_aka_identity x (mod_process_decoded x s) (mod_process_vps x s)).1 = 0 then
          (.RLM_MODULE_HANDLED,
            (process_eap_aka_identity x (mod_process_decoded x s) (mod_process_vps x s)).2)
        else
          (.RLM_MODULE_HANDLED,
            eap_aka_state_enter x
              (process_eap_aka_identity x (mod_process_decoded x s) (mod_process_vps x s)).2
              .EAP_AKA_SERVER_FAILURE_NOTIFICATION)) := by
  have hne : s.eap_aka_session.state ≠ .EAP_AKA_SERVER_SUCCESS_NOTIFICATION := by
    rw [hs]; decide
  have hs' : (mod_process_decoded x s).eap_aka_session.state = .EAP_AKA_SERVER_IDENTITY := hs
  unfold mod_process
  rw [if_neg hne]
  simp only []
  by_cases h2 : (x.fr_sim_decode s.this_round_response.type_data s.eap_aka_session.keys).1 < 0
  · left; rw [if_pos h2]
  rw [if_neg h2]
  rcases fr_pair_find_by_child_num (mod_process_vps x s) dict_aka_root
      fr_attr_num.FR_EAP_AKA_SUBTYPE with _ | sv
  · left; rfl
  by_cases hi : sv.vp_uint16 = EAP_AKA_IDENTITY
  · right; right
    simp only [hs', if_pos hi]
  · simp only [hs', if_neg hi, mod_process_notification_rejects,
      mod_process_unexpected_subtype]
    split_ifs
    all_goals first
      | (left; rfl)
      | (right; left; rfl)

/-- In state Identity at a level other than None no assertion is met by a
call of `mod_process`. -/
theorem mod_process_identity_assert (x : ext) (s : eap_session_t)
    (hs : s.eap_aka_session.state = .EAP_AKA_SERVER_IDENTITY)
    (h : s.eap_aka_session.id_req ≠ .SIM_NO_ID_REQ) :
    (mod_process x s).2.assert_failed = s.assert_failed := by
  have hd : (mod_process_decoded x s).assert_failed = s.assert_failed := rfl
  rcases mod_process_identity_state x s hs with he | he | he
  · rw [he, (enter_fallback_assert x _).1, hd]
  · rw [he, (enter_fallback_assert x _).2, hd]
  · have hp := process_identity_assert x (mod_process_decoded x s) (mod_process_vps x s) h
    rw [he]
    split_ifs
    · exact hp.trans hd
    · show (eap_aka_state_enter x _ _).assert_failed = _
      rw [(enter_fallback_assert x _).1, hp, hd]

theorem mod_process_level (x : ext) (s : eap_session_t)
    (h : s.eap_aka_session.state = .EAP_AKA_SERVER_IDENTITY →
      s.eap_aka_session.id_req ≠ .SIM_NO_ID_REQ) :
    (mod_process x s).2.eap_aka_session.state = .EAP_AKA_SERVER_IDENTITY →
      (mod_process x s).2.eap_aka_session.id_req ≠ .SIM_NO_ID_REQ := by
  intro hst hno
  by_cases hs : s.eap_aka_session.state = .EAP_AKA_SERVER_IDENTITY
  · have hr := mod_process_rank x s
    rw [hno] at hr
    have h0 : ladder_rank s.eap_aka_session.id_req = 0 := Nat.le_zero.1 hr
    apply h hs
    cases hl : s.eap_aka_session.id_req <;> rw [hl] at h0 <;> first | rfl | exact absurd h0 (by decide)
  · exact (mod_process_late x s hs).1 hst

theorem run_level (x : ext) (s : eap_session_t) (ms : List round)
    (h : s.eap_aka_session.state = .EAP_AKA_SERVER_IDENTITY →
      s.eap_aka_session.id_req ≠ .SIM_NO_ID_REQ) :
    (run x s ms).eap_aka_session.state = .EAP_AKA_SERVER_IDENTITY →
      (run x s ms).eap_aka_session.id_req ≠ .SIM_NO_ID_REQ := by
  induction ms generalizing s with
  | nil => exact h
  | cons m ms ih => exact ih (mod_process x (deliver s m)).2 (mod_process_level x (deliver s m) h)

theorem session_init_level (x : ext) (inst : rlm_eap_aka_t) (s : eap_session_t) :
    ((mod_session_init x inst s).2.eap_aka_session.state = .EAP_AKA_SERVER_IDENTITY →
      (mod_session_init x inst s).2.eap_aka_session.id_req ≠ .SIM_NO_ID_REQ) ∧
    (mod_session_init x inst s).2.assert_failed = s.assert_failed := by
  unfold mod_session_init
  simp only []
  have hid : ∀ u : eap_session_t, u.eap_aka_session.id_req = .SIM_ANY_ID_REQ →
      u.assert_failed = s.assert_failed →
      ((eap_aka_state_enter x u .EAP_AKA_SERVER_IDENTITY).eap_aka_session.state =
          .EAP_AKA_SERVER_IDENTITY →
        (eap_aka_state_enter x u .EAP_AKA_SERVER_IDENTITY).eap_aka_session.id_req ≠
          .SIM_NO_ID_REQ) ∧
      (eap_aka_state_enter x u .EAP_AKA_SERVER_IDENTITY).assert_failed = s.assert_failed := by
    intro u hu ha
    refine ⟨fun _ => ?_, ?_⟩
    · rw [enter_id_req, hu]; decide
    · rw [enter_identity_assert x u (by rw [hu]; decide), ha]
  have hch : ∀ u : eap_session_t, u.assert_failed = s.assert_failed →
      ((eap_aka_state_enter x u .EAP_AKA_SERVER_CHALLENGE).eap_aka_session.state =
          .EAP_AKA_SERVER_IDENTITY →
        (eap_aka_state_enter x u .EAP_AKA_SERVER_CHALLENGE).eap_aka_session.id_req ≠
          .SIM_NO_ID_REQ) ∧
      (eap_aka_state_enter x u .EAP_AKA_SERVER_CHALLENGE).assert_failed = s.assert_failed := by
    intro u ha
    refine ⟨fun hst => ?_, ?_⟩
    · rcases enter_state x u .EAP_AKA_SERVER_CHALLENGE with h | h | h <;>
        rw [h] at hst <;> exact absurd hst (by decide)
    · rw [enter_challenge_assert, ha]
  split_ifs
  all_goals first
    | exact hid _ rfl rfl
    | (split <;> first | exact hid _ rfl rfl | exact hch _ rfl)

/-- C31.  The branches for level None are not reached.  In a run of
`mod_session_init` followed by `mod_process` calls, a session in state
Identity has level Any, FullAuth or Permanent; `mod_session_init` meets no
assertion, and neither does a `mod_process` call on a session of the run that
is in state Identity.  At a level other than None the default case of
`eap_aka_send_identity_request` and the None case of
`process_eap_aka_identity` are not taken. -/
theorem id_req_none_unreachable (x : ext) (inst : rlm_eap_aka_t) (s0 : eap_session_t)
    (ms : List round) :
    ((run x (mod_session_init x inst s0).2 ms).eap_aka_session.state =
        .EAP_AKA_SERVER_IDENTITY →
      (run x (mod_session_init x inst s0).2 ms).eap_aka_session.id_req = .SIM_ANY_ID_REQ ∨
      (run x (mod_session_init x inst s0).2 ms).eap_aka_session.id_req = .SIM_FULLAUTH_ID_REQ ∨
      (run x (mod_session_init x inst s0).2 ms).eap_aka_session.id_req =
        .SIM_PERMANENT_ID_REQ) ∧
    (mod_session_init x inst s0).2.assert_failed = s0.assert_failed ∧
    (∀ m : round,
      (run x (mod_session_init x inst s0).2 ms).eap_aka_session.state =
        .EAP_AKA_SERVER_IDENTITY →
      (mod_process x (deliver (run x (mod_session_init x inst s0).2 ms) m)).2.assert_failed =
        (run x (mod_session_init x inst s0).2 ms).assert_failed) ∧
    (∀ s : eap_session_t, s.eap_aka_session.id_req ≠ .SIM_NO_ID_REQ →
      (eap_aka_send_identity_request x s).2.assert_failed = s.assert_failed) ∧
    (∀ (s : eap_session_t) (vps : List VALUE_PAIR),
      s.eap_aka_session.id_req ≠ .SIM_NO_ID_REQ →
      (process_eap_aka_identity x s vps).1 = 0 ∨
        (x.fr_sim_crypto_update_checkcode s.eap_aka_session.checkcode_state
          s.this_round_response).1 < 0) ∧
    (∀ (s : eap_session_t) (vps : List VALUE_PAIR),
      s.eap_aka_session.id_req ≠ .SIM_NO_ID_REQ →
      (process_eap_aka_identity x s vps).2.assert_failed = s.assert_failed) := by
  have hinit := session_init_level x inst s0
  have hrun := run_level x (mod_session_init x inst s0).2 ms hinit.1
  refine ⟨fun hst => ?_, hinit.2, fun m hst => ?_, fun s hs => ?_, fun s vps hs => ?_,
    fun s vps hs => process_identity_assert x s vps hs⟩
  · have hne := hrun hst
    cases hl : (run x (mod_session_init x inst s0).2 ms).eap_aka_session.id_req
    · exact absurd hl hne
    · exact Or.inl rfl
    · exact Or.inr (Or.inl rfl)
    · exact Or.inr (Or.inr rfl)
  · exact mod_process_identity_assert x (deliver (run x (mod_session_init x inst s0).2 ms) m)
      hst (hrun hst)
  · rw [send_identity_request_assert]
    simp [hs]
  · by_cases hd : (x.fr_sim_crypto_update_checkcode s.eap_aka_session.checkcode_state
        s.this_round_response).1 < 0
    · exact Or.inr hd
    · left
      obtain ⟨h1, h2, h3, _⟩ := process_identity_step x s vps hd
      cases hl : s.eap_aka_session.id_req
      · exact absurd hl hs
      · exact (h1 hl).1
      · exact (h2 hl).1
      · exact (h3 hl).1

/-- Witness of C31: a session created with `request_identity` set starts in
state Identity at level Any. -/
theorem id_req_none_unreachable_witness :
    (mod_session_init sample_ext { sample_inst with request_identity := true }
      (sample_session .EAP_AKA_SERVER_CHALLENGE [5])).2.eap_aka_session.state =
      .EAP_AKA_SERVER_IDENTITY ∧
    ((mod_session_init sample_ext { sample_inst with request_identity := true }
        (sample_session .EAP_AKA_SERVER_CHALLENGE [5])).2.eap_aka_session.id_req =
        .SIM_ANY_ID_REQ ∨
      (mod_session_init sample_ext { sample_inst with request_identity := true }
        (sample_session .EAP_AKA_SERVER_CHALLENGE [5])).2.eap_aka_session.id_req =
        .SIM_FULLAUTH_ID_REQ ∨
      (mod_session_init sample_ext { sample_inst with request_identity := true }
        (sample_session .EAP_AKA_SERVER_CHALLENGE [5])).2.eap_aka_session.id_req =
        .SIM_PERMANENT_ID_REQ) := by
  have hst : (mod_session_init sample_ext { sample_inst with request_identity := true }
      (sample_session .EAP_AKA_SERVER_CHALLENGE [5])).2.eap_aka_session.state =
      .EAP_AKA_SERVER_IDENTITY := by
    obtain ⟨s1, t, h0, h1, _⟩ := session_init_shape sample_ext
      { sample_inst with request_identity := true }
      (sample_session .EAP_AKA_SERVER_CHALLENGE [5])
    rw [h0, (h1 (Or.inl rfl)).1]
    exact enter_identity_state sample_ext s1 (sample_identity_request_ok _)
  exact ⟨hst, (id_req_none_unreachable sample_ext { sample_inst with request_identity := true }
    (sample_session .EAP_AKA_SERVER_CHALLENGE [5]) []).1 hst⟩

end EapAka

namespace CallEnv

/-! ## Counting and parsing call environments (C32, C33, C34) -/

theorem count_pairs_eq (l : List CONF_PAIR) (acc : Nat × Nat) :
    call_env_count_pairs l acc =
      (acc.1 + l.length, acc.2 + (l.map (fun cp => talloc_array_length cp.value)).sum) := by
  induction l generalizing acc with
  | nil => simp [call_env_count_pairs]
  | cons cp rest ih =>
    rw [call_env_count_pairs, ih]
    simp only [List.length_cons, List.map_cons, List.sum_cons, Prod.mk.injEq]
    constructor <;> omega

/-- The entries `call_env_count` adds for one rule for a pair. -/
theorem count_loop_pair (x : env_ext) (rule : call_env_pair_rule) (next : call_env_parser_t)
    (cs : CONF_SECTION) (acc : Nat × Nat) :
    ∃ n, call_env_count_loop x (.pair rule next) cs acc =
        call_env_count_loop x next cs
          (acc.1 + (if cf_pair_find cs rule.name = [] then
            (if rule.dflt.isSome = true then 1 else 0)
            else (cf_pair_find cs rule.name).length), n) := by
  rw [call_env_count_loop]
  simp only [cf_pair_find_next, count_pairs_eq, Nat.zero_add]
  by_cases hl : cf_pair_find cs rule.name = []
  · by_cases hd : rule.dflt.isSome = true
    · simp only [hl, List.length_nil, hd, and_self, if_true]
      exact ⟨_, rfl⟩
    · simp only [hl, List.length_nil, hd, and_false, if_false, Nat.add_zero]
      exact ⟨_, rfl⟩
  · have hlen : (cf_pair_find cs rule.name).length ≠ 0 := by
      intro h
      exact hl (List.length_eq_zero.1 h)
    simp only [hl, hlen, false_and, if_false]
    exact ⟨_, rfl⟩

/-- The count of `call_env_count` does not depend on `*names_len` and adds
to the count so far. -/
theorem count_loop_add (x : env_ext) (t : call_env_parser_t) (cs : CONF_SECTION)
    (acc : Nat × Nat) :
    (call_env_count_loop x t cs acc).1 = acc.1 + (call_env_count_loop x t cs (0, 0)).1 := by
  induction t generalizing cs acc with
  | CALL_ENV_TERMINATOR => simp [call_env_count_loop]
  | pair rule next ih =>
    obtain ⟨n, hn⟩ := count_loop_pair x rule next cs acc
    obtain ⟨m, hm⟩ := count_loop_pair x rule next cs (0, 0)
    rw [hn, hm, ih cs (_, n), ih cs (_, m)]
    simp only [Nat.zero_add]
    omega
  | subsection name ident2 required subcs next _ ih =>
    rw [call_env_count_loop, call_env_count_loop]
    cases x.cf_section_find cs name ident2 with
    | none => exact ih cs acc
    | some sub =>
      simp only []
      rw [ih cs (_, _), ih cs (0 + _, _)]
      simp only [Nat.zero_add]
      omega

/-- The loop over the pairs of a rule returns 0 or -1, and when it returns
0 it has appended one entry for each round. -/
theorem parse_pairs_spec (x : env_ext) (cs : CONF_SECTION) (rule : call_env_pair_rule)
    (count todo multi_index : Nat) (cp : List CONF_PAIR) (parsed : List call_env_parsed_t) :
    ((call_env_parse_pairs x cs rule count todo multi_index cp parsed).1 = 0 ∧
      ∃ new, (call_env_parse_pairs x cs rule count todo multi_index cp parsed).2 =
        parsed ++ new ∧ new.length = todo) ∨
    (call_env_parse_pairs x cs rule count todo multi_index cp parsed).1 = -1 := by
  induction todo generalizing multi_index cp parsed with
  | zero => exact Or.inl ⟨rfl, [], by simp [call_env_parse_pairs], rfl⟩
  | succ todo ih =>
    unfold call_env_parse_pairs
    simp only []
    split_ifs
    all_goals first
      | exact Or.inr rfl
      | (rcases ih (multi_index + 1) (cf_pair_find_next cs cp rule.name) _ with
          ⟨h0, new, hnew, hlen⟩ | h1
         · rw [List.append_assoc] at hnew
           exact Or.inl ⟨h0, _, hnew, by simp [hlen]⟩
         · exact Or.inr h1)

/-- `call_env_parse` returns 0 or -1, and when it returns 0 it has appended
as many entries as `call_env_count` counts for the same section and table. -/
theorem parse_spec (x : env_ext) (t : call_env_parser_t) (cs : CONF_SECTION)
    (parsed : List call_env_parsed_t) :
    ((call_env_parse x t cs parsed).1 = 0 ∧
      ∃ new, (call_env_parse x t cs parsed).2 = parsed ++ new ∧
        new.length = (call_env_count_loop x t cs (0, 0)).1) ∨
    (call_env_parse x t cs parsed).1 = -1 := by
  induction t generalizing cs parsed with
  | CALL_ENV_TERMINATOR =>
    exact Or.inl ⟨by simp [call_env_parse], [], by simp [call_env_parse],
      by simp [call_env_count_loop]⟩
  | pair rule next ih =>
    obtain ⟨n, hn⟩ := count_loop_pair x rule next cs (0, 0)
    rw [hn, count_loop_add]
    simp only [Nat.zero_add]
    rw [call_env_parse]
    by_cases h1 : cf_pair_find cs rule.name = [] ∧ rule.dflt = none
    · rw [if_pos h1]
      by_cases hr : rule.required = false
      · rw [if_pos hr]
        simp only [h1.1, h1.2, if_true, Option.isSome_none, Bool.false_eq_true, if_false,
          Nat.zero_add]
        exact ih cs parsed
      · rw [if_neg hr]
        exact Or.inr rfl
    · rw [if_neg h1]
      by_cases h2 : rule.multi = false ∧
          cf_pair_find_next cs (cf_pair_find cs rule.name) rule.name ≠ []
      · rw [if_pos h2]
        exact Or.inr rfl
      · rw [if_neg h2]
        rcases parse_pairs_spec x cs rule
            (if cf_pair_count cs rule.name = 0 then 1 else cf_pair_count cs rule.name)
            (if cf_pair_count cs rule.name = 0 then 1 else cf_pair_count cs rule.name)
            0 (cf_pair_find cs rule.name) parsed with ⟨h0, new1, hnew1, hlen1⟩ | hm
        · rw [if_neg (by rw [h0]; decide)]
          rcases ih cs (call_env_parse_pairs x cs rule
              (if cf_pair_count cs rule.name = 0 then 1 else cf_pair_count cs rule.name)
              (if cf_pair_count cs rule.name = 0 then 1 else cf_pair_count cs rule.name)
              0 (cf_pair_find cs rule.name) parsed).2 with ⟨g0, new2, hnew2, hlen2⟩ | gm
          · refine Or.inl ⟨g0, new1 ++ new2, ?_, ?_⟩
            · rw [hnew2, hnew1, List.append_assoc]
            · rw [List.length_append, hlen1, hlen2]
              congr 1
              unfold cf_pair_count
              by_cases hl : cf_pair_find cs rule.name = []
              · have hd : rule.dflt.isSome = true := by
                  cases hdf : rule.dflt with
                  | none => exact absurd ⟨hl, hdf⟩ h1
                  | some d => rfl
                simp [hl, hd]
              · have hlen : (cf_pair_find cs rule.name).length ≠ 0 := fun h =>
                  hl (List.length_eq_zero.1 h)
                simp [hl, hlen]
          · exact Or.inr gm
        · rw [if_pos (by rw [hm]; decide)]
          exact Or.inr rfl
  | subsection name ident2 required subcs next ihs ih =>
    rw [call_env_parse, call_env_count_loop]
    cases x.cf_section_find cs name ident2 with
    | none =>
      simp only []
      by_cases hr : required = false
      · rw [if_pos hr]
        exact ih cs parsed
      · rw [if_neg hr]
        exact Or.inr rfl
    | some sub =>
      simp only []
      rw [count_loop_add]
      simp only [Nat.zero_add]
      rcases ihs sub parsed with ⟨h0, new1, hnew1, hlen1⟩ | hm
      · rw [if_neg (by rw [h0]; decide)]
        rcases ih cs (call_env_parse x subcs sub parsed).2 with ⟨g0, new2, hnew2, hlen2⟩ | gm
        · refine Or.inl ⟨g0, new1 ++ new2, ?_, ?_⟩
          · rw [hnew2, hnew1, List.append_assoc]
          · rw [List.length_append, hlen1, hlen2]
        · exact Or.inr gm
      · rw [if_pos (by rw [hm]; decide)]
        exact Or.inr rfl

/-- C32.  `call_env_count` predicts `call_env_parse`: when `call_env_parse`
returns 0 on a section and a table, the entries it appended are as many as
`call_env_count` returns for them; a rule met by its default only counts one
entry and the rules of the table of a section found are counted too. -/
theorem count_predicts_parse (x : env_ext) (call_env : call_env_parser_t) (cs : CONF_SECTION)
    (parsed : List call_env_parsed_t)
    (h : (call_env_parse x call_env cs parsed).1 = 0) :
    (∃ new, (call_env_parse x call_env cs parsed).2 = parsed ++ new ∧
      new.length = (call_env_count x cs call_env).1) ∧
    (call_env_parse x call_env cs parsed).2.length =
      parsed.length + (call_env_count x cs call_env).1 := by
  rcases parse_spec x call_env cs parsed with ⟨_, new, hnew, hlen⟩ | hm
  · refine ⟨⟨new, hnew, hlen⟩, ?_⟩
    rw [hnew, List.length_append, hlen]
    rfl
  · rw [hm] at h
    exact absurd h (by decide)

/-- Witness of C32: on the sample section the table parses to three entries,
one for `user`, one for `cert` in the section `tls` and one for the default
of `realm`, and three is what `call_env_count` returns. -/
theorem count_predicts_parse_witness :
    (call_env_parse sample_env sample_table sample_conf []).1 = 0 ∧
    (call_env_count sample_env sample_conf sample_table).1 = 3 ∧
    (call_env_parse sample_env sample_table sample_conf []).2.length =
      0 + (call_env_count sample_env sample_conf sample_table).1 :=
  ⟨by decide, by decide,
    (count_predicts_parse sample_env sample_table sample_conf [] (by decide)).2⟩

/-- C33, the code at the failing input.  The sample table has the pair
`user` before the section `tls`; the section holds `user = ab` and, in
`tls`, `cert = c`, and `realm` has the default `x`.  The strings to parse
need 3, 2 and 1 bytes, 6 in all, but the call of `call_env_count` for `tls`
sets `*names_len` back to zero, so the function leaves 3 there: the bytes of
`user` are lost. -/
theorem names_len_reset_by_section :
    cf_pair_find sample_conf "user" = [{ attr := "user", value := [97, 98], quote := 0 }] ∧
    sample_env.cf_section_find sample_conf "tls" none =
      some (.mk "tls" none [{ attr := "cert", value := [99], quote := 0 }] []) ∧
    names_len_sum sample_env sample_table sample_conf = 6 ∧
    (call_env_count sample_env sample_conf sample_table).2 = 3 ∧
    (call_env_count sample_env sample_conf sample_table).2 ≠
      names_len_sum sample_env sample_table sample_conf ∧
    (call_env_count sample_env sample_conf sample_table).1 = 3 := by
  refine ⟨by decide, rfl, by decide, by decide, by decide, by decide⟩

/-- A rule for a pair either makes `call_env_parse` return -1 or lets it go
on with the next rule. -/
theorem parse_pair_cases (x : env_ext) (rule : call_env_pair_rule) (next : call_env_parser_t)
    (cs : CONF_SECTION) (parsed : List call_env_parsed_t) :
    (call_env_parse x (.pair rule next) cs parsed).1 = -1 ∨
      ∃ p, call_env_parse x (.pair rule next) cs parsed = call_env_parse x next cs p := by
  rw [call_env_parse]
  split_ifs
  all_goals first
    | exact Or.inl rfl
    | exact Or.inr ⟨_, rfl⟩

/-- A rule for a section either makes `call_env_parse` return -1 or lets it
go on with the next rule. -/
theorem parse_section_cases (x : env_ext) (name : String) (ident2 : Option String)
    (required : Bool) (subcs next : call_env_parser_t) (cs : CONF_SECTION)
    (parsed : List call_env_parsed_t) :
    (call_env_parse x (.subsection name ident2 required subcs next) cs parsed).1 = -1 ∨
      ∃ p, call_env_parse x (.subsection name ident2 required subcs next) cs parsed =
        call_env_parse x next cs p := by
  rw [call_env_parse]
  cases x.cf_section_find cs name ident2 with
  | none =>
    simp only []
    split_ifs
    · exact Or.inr ⟨_, rfl⟩
    · exact Or.inl rfl
  | some sub =>
    simp only []
    split_ifs
    · exact Or.inl rfl
    · exact Or.inr ⟨_, rfl⟩

theorem parse_incomplete (x : env_ext) (cs : CONF_SECTION) (t : call_env_parser_t)
    (h : incomplete x cs t) :
    ∀ parsed, (call_env_parse x t cs parsed).1 < 0 := by
  induction h with
  | missing_required cs rule next hr hf hd =>
    intro parsed
    rw [call_env_parse, if_pos ⟨hf, hd⟩, if_neg (by rw [hr]; decide)]
    show (-1 : Int) < 0
    decide
  | duplicate cs rule next p q rest hm hf =>
    intro parsed
    rw [call_env_parse, if_neg (by rw [hf]; simp),
      if_pos ⟨hm, by rw [hf]; simp [cf_pair_find_next]⟩]
    show (-1 : Int) < 0
    decide
  | missing_section cs name ident2 subcs next hf =>
    intro parsed
    rw [call_env_parse, hf]
    show (-1 : Int) < 0
    decide
  | in_section cs sub name ident2 required subcs next hf _ ih =>
    intro parsed
    rw [call_env_parse, hf]
    simp only [if_pos (ih parsed)]
    show (-1 : Int) < 0
    decide
  | later_pair cs rule next _ ih =>
    intro parsed
    rcases parse_pair_cases x rule next cs parsed with h1 | ⟨p, hp⟩
    · rw [h1]; show (-1 : Int) < 0; decide
    · rw [hp]; exact ih p
  | later_section cs name ident2 required subcs next _ ih =>
    intro parsed
    rcases parse_section_cases x name ident2 required subcs next cs parsed with h1 | ⟨p, hp⟩
    · rw [h1]; show (-1 : Int) < 0; decide
    · rw [hp]; exact ih p

/-- C34.  `call_env_parse` rejects an incomplete or ambiguous configuration:
it returns a negative value when, at a rule of the table or of the table of
a section found, a required rule has neither pair nor default, a rule that
is not multi has more than one pair, or a required section is missing.  A
rule that is not required and has neither pair nor default is skipped: the
function goes on with the next rule and the same entries.  `call_env_alloc`
returns `NULL` exactly when `call_env_parse` fails, and the parsed entries
otherwise. -/
theorem parse_rejects_incomplete (x : env_ext) :
    (∀ (cs : CONF_SECTION) (t : call_env_parser_t), incomplete x cs t →
      ∀ parsed, (call_env_parse x t cs parsed).1 < 0) ∧
    (∀ (rule : call_env_pair_rule) (next : call_env_parser_t) (cs : CONF_SECTION)
        (parsed : List call_env_parsed_t),
      rule.required = false → cf_pair_find cs rule.name = [] → rule.dflt = none →
      call_env_parse x (.pair rule next) cs parsed = call_env_parse x next cs parsed) ∧
    (∀ (cs : CONF_SECTION) (env : call_env_parser_t),
      call_env_alloc x cs env = none ↔ (call_env_parse x env cs []).1 < 0) ∧
    (∀ (cs : CONF_SECTION) (env : call_env_parser_t),
      ¬ (call_env_parse x env cs []).1 < 0 →
      ∃ e, call_env_alloc x cs env = some e ∧ e.parsed = (call_env_parse x env cs []).2) := by
  refine ⟨parse_incomplete x, fun rule next cs parsed hr hf hd => ?_, fun cs env => ?_,
    fun cs env h => ?_⟩
  · rw [call_env_parse, if_pos ⟨hf, hd⟩, if_pos hr]
  · unfold call_env_alloc
    simp only []
    split_ifs with h
    · simp [h]
    · simp [h]
  · unfold call_env_alloc
    simp only [if_neg h]
    exact ⟨_, rfl, rfl⟩

/-- Witness of C34: a section with two pairs `user` is rejected for the
sample table, whose rule `user` is not multi, and `call_env_alloc` returns
`NULL` for it. -/
theorem parse_rejects_incomplete_witness :
    incomplete sample_env
      (.mk "mod" none
        [{ attr := "user", value := [97], quote := 0 },
         { attr := "user", value := [98], quote := 0 }] [])
      sample_table ∧
    (call_env_parse sample_env sample_table
      (.mk "mod" none
        [{ attr := "user", value := [97], quote := 0 },
         { attr := "user", value := [98], quote := 0 }] []) []).1 < 0 ∧
    call_env_alloc sample_env
      (.mk "mod" none
        [{ attr := "user", value := [97], quote := 0 },
         { attr := "user", value := [98], quote := 0 }] [])
      sample_table = none :=
  have hi : incomplete sample_env
      (.mk "mod" none
        [{ attr := "user", value := [97], quote := 0 },
         { attr := "user", value := [98], quote := 0 }] [])
      sample_table :=
    incomplete.duplicate _ _ _ { attr := "user", value := [97], quote := 0 }
      { attr := "user", value := [98], quote := 0 } [] rfl (by decide)
  have h := parse_rejects_incomplete sample_env
  ⟨hi, h.1 _ _ hi [], (h.2.2.1 _ _).2 (h.1 _ _ hi [])⟩

end CallEnv

